import Mathlib

/-!
# Zeevonk — verification of the core data model and engine

A shallow embedding of the zeevonk lighting-control hub, translated from the
Rust sources:

* `src/core/dmx/mod.rs` — DMX addresses, universes, multiverse
  (`Channel`, `UniverseId`, `Address`, `Universe`, `Multiverse`);
* `src/core/gdcs/util.rs` — `ClampedValue` and its byte conversions;
* `src/gdcs/resolver.rs`, `src/core/gdcs/resolver.rs` and
  `crates/zeevonk/src/server/resolver.rs` — the resolver;
* `crates/zeevonk/src/server/mod.rs` — the server packet dispatch;
* `src/gdcs/mod.rs` — fixture registration and address-collision checks;
* `src/packet/codec.rs` and `src/packet.rs` — the RPC frame decoders;
* `src/server/sacn/packet/*.rs` and
  `crates/zeevonk/src/server/protocols/sacn/*.rs` — sACN (E1.31) packets;
* `src/gdcs/attr.rs` — the `Attribute` enum with its display / parse codec.

Machine integers are embedded as `Nat` with explicit bounds; `f32` values
are embedded as exact rationals (`ℚ`) except where float special values
matter, where an explicit `Float32` type with a NaN constructor is used.
Byte strings are `List Nat` with every element `< 256`.
-/

namespace Zeevonk

/-! ## DMX value model (`src/core/dmx/mod.rs`)

A `Channel` is a `u16` in `1..=512`, a `UniverseId` a nonzero `u16`, both
embedded as plain `Nat` carrying their range as side conditions where a
theorem needs them.  An `Address` is a universe/channel pair. -/

structure Address where
  univ : Nat      -- `universe` is a Lean keyword; this is the `universe` field
  channel : Nat
  deriving DecidableEq, Repr

/-- `Address::to_absolute`: `(universe - 1) * 512 + channel`. -/
def Address.to_absolute (a : Address) : Nat :=
  (a.univ - 1) * 512 + a.channel

/-- A `Universe` is a 512-byte buffer; we embed it as a total map from the
channel number to the stored byte (the Rust array is indexed by
`channel - 1`; the embedding keys by the channel number directly, which is
the same data).  A fresh universe is all zeroes. -/
def Universe := Nat → Nat

def Universe.new : Universe := fun _ => 0

def Universe.get_value (u : Universe) (channel : Nat) : Nat := u channel

def Universe.set_value (u : Universe) (channel : Nat) (value : Nat) : Universe :=
  fun c => if c = channel then value else u c

/-- A `Multiverse` is a sparse map `UniverseId → Universe`; a missing
universe reads as `None`. -/
def Multiverse := Nat → Option Universe

def Multiverse.new : Multiverse := fun _ => none

/-- `Multiverse::set_value`: writing to a missing universe creates it
(zero-initialised) first. -/
def Multiverse.set_value (m : Multiverse) (a : Address) (v : Nat) : Multiverse :=
  fun uid =>
    if uid = a.univ then
      some ((match m a.univ with
             | some u => u
             | none => Universe.new).set_value a.channel v)
    else m uid

/-- `Multiverse::get_value`: returns 0 (the `Value` default) when the
universe is absent. -/
def Multiverse.get_value (m : Multiverse) (a : Address) : Nat :=
  match m a.univ with
  | some u => u.get_value a.channel
  | none => 0

/-! ## Clamped values and byte conversion (`src/core/gdcs/util.rs`)

`ClampedValue` is an `f32` clamped into `[0, 1]`.  The resolver-side
embedding represents the float value as an exact rational; the byte
conversions `to_u8`/`to_u16_bytes`/`to_u24_bytes`/`to_u32_bytes` follow the
source exactly, with `f32::round` (round half away from zero) made explicit.
-/

structure ClampedValue where
  val : ℚ
  deriving DecidableEq, Repr

/-- `ClampedValue::new`: clamps into `[0.0, 1.0]`. -/
def ClampedValue.new (v : ℚ) : ClampedValue :=
  ⟨min 1 (max 0 v)⟩

def ClampedValue.as_f32 (v : ClampedValue) : ℚ := v.val

/-- `f32::round` — round half away from zero. -/
def rustRound (q : ℚ) : ℤ :=
  if 0 ≤ q then ⌊q + 1/2⌋ else -⌊-q + 1/2⌋

/-- `.round().clamp(0.0, hi) as uN` for a nonnegative integer bound. -/
def roundClamp (q : ℚ) (hi : Nat) : Nat :=
  (min (rustRound q) hi).toNat

/-- `ClampedValue::to_u8`: `(self.0 * 255.0).round().clamp(0.0, 255.0) as u8`. -/
def ClampedValue.to_u8 (v : ClampedValue) : Nat :=
  roundClamp (v.val * 255) 255

/-- `ClampedValue::to_u16_bytes`: big-endian bytes of
`(self.0 * 65535.0).round().clamp(0.0, 65535.0) as u16`. -/
def ClampedValue.to_u16_bytes (v : ClampedValue) : List Nat :=
  let val := roundClamp (v.val * 65535) 65535
  [val / 256, val % 256]

/-- `ClampedValue::to_u24_bytes`: the three bytes
`(val >> 16) & 0xFF, (val >> 8) & 0xFF, val & 0xFF`. -/
def ClampedValue.to_u24_bytes (v : ClampedValue) : List Nat :=
  let val := roundClamp (v.val * 16777215) 16777215
  [val / 65536 % 256, val / 256 % 256, val % 256]

/-- `ClampedValue::to_u32_bytes`: big-endian bytes of
`(self.0 * 4294967295.0).round().clamp(0.0, 4294967295.0) as u32`. -/
def ClampedValue.to_u32_bytes (v : ClampedValue) : List Nat :=
  let val := roundClamp (v.val * 4294967295) 4294967295
  [val / 16777216 % 256, val / 65536 % 256, val / 256 % 256, val % 256]

/-- The physical write path shared by
`Resolver::set_channel_function_value` (`src/gdcs/resolver.rs`, the
`Physical` arm) and `ClampedValue::to_address_values`: dispatch on the
address count, emit the byte list and zip it with the addresses; any other
count logs a warning and produces no writes. -/
def ClampedValue.to_address_values (v : ClampedValue) (addresses : List Address) :
    List (Address × Nat) :=
  match addresses.length with
  | 1 => addresses.zip [v.to_u8]
  | 2 => addresses.zip v.to_u16_bytes
  | 3 => addresses.zip v.to_u24_bytes
  | 4 => addresses.zip v.to_u32_bytes
  | _ => []

/-! ## Byte strings and the attribute string codec (`src/gdcs/attr.rs`)

Rust `&str`/`String` values are embedded as `Str := List Nat` of byte
values.  `natDigits` is the decimal rendering used by `Display` for `u8`
(fuel-based so that it reduces definitionally); `parseU8` is
`u8::from_str` (optional leading `+`, decimal digits, overflow above 255
is an error). -/

abbrev Str := List Nat

def isDigitCode (c : Nat) : Bool := 48 ≤ c && c ≤ 57

def natDigitsGo : Nat → Nat → Str → Str
  | 0, _, acc => acc
  | _ + 1, 0, acc => acc
  | fuel + 1, n, acc => natDigitsGo fuel (n / 10) ((n % 10 + 48) :: acc)

def natDigits (n : Nat) : Str :=
  if n = 0 then [48] else natDigitsGo n n []

def parseU8go : Str → Nat → Option Nat
  | [], acc => some acc
  | c :: rest, acc =>
    if isDigitCode c then
      let acc' := acc * 10 + (c - 48)
      if 255 < acc' then none else parseU8go rest acc'
    else none

def parseU8 : Str → Option Nat
  | [] => none
  | 43 :: rest => if rest.isEmpty then none else parseU8go rest 0
  | s => parseU8go s 0

/-- `str::strip_prefix`. -/
def stripPrefixStr : Str → Str → Option Str
  | rest, [] => some rest
  | [], _ :: _ => none
  | c :: rest, p :: ps => if c = p then stripPrefixStr rest ps else none

/-- `str::strip_suffix`. -/
def stripSuffixStr (l s : Str) : Option Str :=
  (stripPrefixStr l.reverse s.reverse).map List.reverse

/-- `str::find` for a substring: index of the first occurrence. -/
def findSub : Str → Str → Option Nat
  | s, sub =>
    match stripPrefixStr s sub with
    | some _ => some 0
    | none =>
      match s with
      | [] => none
      | _ :: t => (findSub t sub).map (· + 1)

/-- `extract_attr_n` (`src/gdcs/attr.rs`): strip a prefix, optionally strip a
suffix, and parse the remainder as `u8`. -/
def extractAttrN (s pre : Str) (suf : Option Str) : Option Nat :=
  match stripPrefixStr s pre with
  | some rest =>
    match suf with
    | some suf =>
      match stripSuffixStr rest suf with
      | some numberPart => parseU8 numberPart
      | none => none
    | none => parseU8 rest
  | none => none

/-- `extract_attr_n_m` (`src/gdcs/attr.rs`): strip a prefix, find the middle
delimiter, parse the part before it as `n` and the part after it (minus an
optional suffix) as `m`. -/
def extractAttrNM (s pre mid : Str) (suf : Option Str) : Option (Nat × Nat) :=
  match stripPrefixStr s pre with
  | none => none
  | some rest =>
    match findSub rest mid with
    | none => none
    | some middlePos =>
      match parseU8 (rest.take middlePos) with
      | none => none
      | some n =>
        let afterMiddle := rest.drop (middlePos + mid.length)
        let mPart := match suf with
          | some t => stripSuffixStr afterMiddle t
          | none => some afterMiddle
        match mPart with
        | none => none
        | some mp =>
          match parseU8 mp with
          | none => none
          | some m => some (n, m)

/-! The GDTF `Attribute` enum (`src/gdcs/attr.rs`) has 278 named
constructors plus `Custom(String)`.  A single flat Lean inductive of that
size exceeds elaborator and runtime limits, so the embedding groups the
constructors by arity: `PlainAttr` holds the parameterless variants,
`Fam1` the `u8`-indexed families, `Fam2` the doubly indexed families.
Every Rust constructor corresponds to exactly one value here under its
original name (names ending in a word reserved by Lean tooling carry a
trailing `X`). -/

/-- The parameterless `Attribute` variants. -/
inductive PlainAttr where
  | Dimmer
  | Pan
  | Tilt
  | PanRotate
  | TiltRotate
  | PositionEffect
  | PositionEffectRate
  | PositionEffectFade
  | XyzX
  | XyzY
  | XyzZ
  | RotX
  | RotY
  | RotZ
  | ScaleX
  | ScaleY
  | ScaleZ
  | ScaleXYZ
  | PlayMode
  | PlayBegin
  | PlayEnd
  | PlaySpeed
  | ColorAddR
  | ColorAddG
  | ColorAddB
  | ColorAddC
  | ColorAddM
  | ColorAddY
  | ColorAddRY
  | ColorAddGY
  | ColorAddGC
  | ColorAddBC
  | ColorAddBM
  | ColorAddRM
  | ColorAddW
  | ColorAddWW
  | ColorAddCW
  | ColorAddUV
  | ColorSubR
  | ColorSubG
  | ColorSubB
  | ColorSubC
  | ColorSubM
  | ColorSubY
  | Cto
  | Ctc
  | Ctb
  | Tint
  | HsbHue
  | HsbSaturation
  | HsbBrightness
  | HsbQuality
  | CieX
  | CieY
  | CieBrightness
  | ColorRgbRed
  | ColorRgbGreen
  | ColorRgbBlue
  | ColorRgbCyan
  | ColorRgbMagenta
  | ColorRgbYellow
  | ColorRgbQuality
  | VideoBoostR
  | VideoBoostG
  | VideoBoostB
  | VideoHueShift
  | VideoSaturation
  | VideoBrightness
  | VideoContrast
  | VideoKeyColorR
  | VideoKeyColorG
  | VideoKeyColorB
  | VideoKeyIntensity
  | VideoKeyTolerance
  | StrobeDuration
  | StrobeRate
  | StrobeFrequency
  | StrobeModeShutter
  | StrobeModeStrobe
  | StrobeModePulse
  | StrobeModePulseOpen
  | StrobeModePulseClose
  | StrobeModeRandom
  | StrobeModeRandomPulse
  | StrobeModeRandomPulseOpen
  | StrobeModeRandomPulseClose
  | StrobeModeEffect
  | Iris
  | IrisStrobe
  | IrisStrobeRandom
  | IrisPulseClose
  | IrisPulseOpen
  | IrisRandomPulseClose
  | IrisRandomPulseOpen
  | EffectsSync
  | BeamShaper
  | BeamShaperMacroX
  | BeamShaperPos
  | BeamShaperPosRotate
  | Zoom
  | ZoomModeSpot
  | ZoomModeBeam
  | DigitalZoom
  | DimmerMode
  | DimmerCurve
  | BlackoutMode
  | LedFrequency
  | LedZoneMode
  | PixelMode
  | PanMode
  | TiltMode
  | PanTiltMode
  | PositionModes
  | GoboWheelShortcutMode
  | AnimationWheelShortcutMode
  | ColorWheelShortcutMode
  | CyanMode
  | MagentaMode
  | YellowMode
  | ColorMixMode
  | ChromaticMode
  | ColorCalibrationMode
  | ColorConsistency
  | ColorControl
  | ColorModelMode
  | ColorSettingsReset
  | ColorUniformity
  | CriMode
  | CustomColor
  | UvStability
  | WavelengthCorrection
  | WhiteCount
  | StrobeMode
  | ZoomMode
  | FocusMode
  | IrisMode
  | FollowSpotMode
  | BeamEffectIndexRotateMode
  | IntensityMSpeed
  | PositionMSpeed
  | ColorMixMSpeed
  | ColorWheelSelectMSpeed
  | IrisMSpeed
  | FocusMSpeed
  | ZoomMSpeed
  | FrameMSpeed
  | GlobalMSpeed
  | ReflectorAdjust
  | FixtureGlobalReset
  | DimmerReset
  | ShutterReset
  | BeamReset
  | ColorMixReset
  | ColorWheelReset
  | FocusReset
  | FrameReset
  | GoboWheelReset
  | IntensityReset
  | IrisReset
  | PositionReset
  | PanReset
  | TiltReset
  | ZoomReset
  | CtbReset
  | CtoReset
  | CtcReset
  | AnimationSystemReset
  | FixtureCalibrationReset
  | Function
  | LampControl
  | DisplayIntensity
  | DmxInput
  | NoFeature
  | LampPowerMode
  | Fans
  | ShaperRot
  | ShaperMacros
  | ShaperMacrosSpeed
  | Video
  | VideoBlendMode
  | InputSource
  | FieldOfView
  deriving DecidableEq

/-- The `u8`-indexed `Attribute` families (e.g. `Gobo(u8)`). -/
inductive Fam1 where
  | Gobo
  | GoboSelectSpin
  | GoboSelectShake
  | GoboSelectEffects
  | GoboWheelIndex
  | GoboWheelSpin
  | GoboWheelShake
  | GoboWheelRandom
  | GoboWheelAudio
  | GoboPos
  | GoboPosRotate
  | GoboPosShake
  | AnimationWheel
  | AnimationWheelAudio
  | AnimationWheelMacroX
  | AnimationWheelRandom
  | AnimationWheelSelectEffects
  | AnimationWheelSelectShake
  | AnimationWheelSelectSpin
  | AnimationWheelPos
  | AnimationWheelPosRotate
  | AnimationWheelPosShake
  | AnimationSystem
  | AnimationSystemRamp
  | AnimationSystemShake
  | AnimationSystemAudio
  | AnimationSystemRandom
  | AnimationSystemPos
  | AnimationSystemPosRotate
  | AnimationSystemPosShake
  | AnimationSystemPosRandom
  | AnimationSystemPosAudio
  | AnimationSystemMacroX
  | MediaFolder
  | MediaContent
  | ModelFolder
  | ModelContent
  | ColorEffects
  | Color
  | ColorWheelIndex
  | ColorWheelSpin
  | ColorWheelRandom
  | ColorWheelAudio
  | ColorMacroX
  | ColorMacroRate
  | Shutter
  | ShutterStrobe
  | ShutterStrobePulse
  | ShutterStrobePulseClose
  | ShutterStrobePulseOpen
  | ShutterStrobeRandom
  | ShutterStrobeRandomPulse
  | ShutterStrobeRandomPulseClose
  | ShutterStrobeRandomPulseOpen
  | ShutterStrobeEffect
  | Frost
  | FrostPulseOpen
  | FrostPulseClose
  | FrostRamp
  | Prism
  | PrismSelectSpin
  | PrismMacroX
  | PrismPos
  | PrismPosRotate
  | Effects
  | EffectsRate
  | EffectsFade
  | EffectsPos
  | EffectsPosRotate
  | Focus
  | FocusAdjust
  | FocusDistance
  | Control
  | GoboWheelMode
  | AnimationWheelMode
  | ColorMode
  | FanMode
  | GoboWheelMSpeed
  | PrismMSpeed
  | FrostMSpeed
  | Blower
  | Fan
  | Fog
  | Haze
  | BladeA
  | BladeB
  | BladeRot
  | BladeSoftA
  | BladeSoftB
  | KeyStoneA
  | KeyStoneB
  | VideoEffectType
  | VideoCamera
  | VideoSoundVolume
  deriving DecidableEq

/-- The doubly `u8`-indexed `Attribute` families. -/
inductive Fam2 where
  | EffectsAdjust
  | VideoEffectParameter
  deriving DecidableEq

/-- A GDTF attribute: one of the named variants, or `Custom`. -/
inductive Attribute where
  | Custom (s : Str)
  | plain (p : PlainAttr)
  | fam1 (f : Fam1) (n : Fin 256)
  | fam2 (f : Fam2) (n m : Fin 256)
  deriving DecidableEq

/-- `impl fmt::Display for Attribute`, parameterless arms: the literal
string each variant is written as. -/
def PlainAttr.display : PlainAttr → Str
  | .Dimmer => [68, 105, 109, 109, 101, 114] -- "Dimmer"
  | .Pan => [80, 97, 110] -- "Pan"
  | .Tilt => [84, 105, 108, 116] -- "Tilt"
  | .PanRotate => [80, 97, 110, 82, 111, 116, 97, 116, 101] -- "PanRotate"
  | .TiltRotate => [84, 105, 108, 116, 82, 111, 116, 97, 116, 101] -- "TiltRotate"
  | .PositionEffect => [80, 111, 115, 105, 116, 105, 111, 110, 69, 102, 102, 101, 99, 116] -- "PositionEffect"
  | .PositionEffectRate => [80, 111, 115, 105, 116, 105, 111, 110, 69, 102, 102, 101, 99, 116, 82, 97, 116, 101] -- "PositionEffectRate"
  | .PositionEffectFade => [80, 111, 115, 105, 116, 105, 111, 110, 69, 102, 102, 101, 99, 116, 70, 97, 100, 101] -- "PositionEffectFade"
  | .XyzX => [88, 89, 90, 95, 88] -- "XYZ_X"
  | .XyzY => [88, 89, 90, 95, 89] -- "XYZ_Y"
  | .XyzZ => [88, 89, 90, 95, 90] -- "XYZ_Z"
  | .RotX => [82, 111, 116, 95, 88] -- "Rot_X"
  | .RotY => [82, 111, 116, 95, 89] -- "Rot_Y"
  | .RotZ => [82, 111, 116, 95, 90] -- "Rot_Z"
  | .ScaleX => [83, 99, 97, 108, 101, 95, 88] -- "Scale_X"
  | .ScaleY => [83, 99, 97, 108, 101, 95, 89] -- "Scale_Y"
  | .ScaleZ => [83, 99, 97, 108, 101, 95, 90] -- "Scale_Z"
  | .ScaleXYZ => [83, 99, 97, 108, 101, 95, 88, 89, 90] -- "Scale_XYZ"
  | .PlayMode => [80, 108, 97, 121, 77, 111, 100, 101] -- "PlayMode"
  | .PlayBegin => [80, 108, 97, 121, 66, 101, 103, 105, 110] -- "PlayBegin"
  | .PlayEnd => [80, 108, 97, 121, 69, 110, 100] -- "PlayEnd"
  | .PlaySpeed => [80, 108, 97, 121, 83, 112, 101, 101, 100] -- "PlaySpeed"
  | .ColorAddR => [67, 111, 108, 111, 114, 65, 100, 100, 95, 82] -- "ColorAdd_R"
  | .ColorAddG => [67, 111, 108, 111, 114, 65, 100, 100, 95, 71] -- "ColorAdd_G"
  | .ColorAddB => [67, 111, 108, 111, 114, 65, 100, 100, 95, 66] -- "ColorAdd_B"
  | .ColorAddC => [67, 111, 108, 111, 114, 65, 100, 100, 95, 67] -- "ColorAdd_C"
  | .ColorAddM => [67, 111, 108, 111, 114, 65, 100, 100, 95, 77] -- "ColorAdd_M"
  | .ColorAddY => [67, 111, 108, 111, 114, 65, 100, 100, 95, 89] -- "ColorAdd_Y"
  | .ColorAddRY => [67, 111, 108, 111, 114, 65, 100, 100, 95, 82, 89] -- "ColorAdd_RY"
  | .ColorAddGY => [67, 111, 108, 111, 114, 65, 100, 100, 95, 71, 89] -- "ColorAdd_GY"
  | .ColorAddGC => [67, 111, 108, 111, 114, 65, 100, 100, 95, 71, 67] -- "ColorAdd_GC"
  | .ColorAddBC => [67, 111, 108, 111, 114, 65, 100, 100, 95, 66, 67] -- "ColorAdd_BC"
  | .ColorAddBM => [67, 111, 108, 111, 114, 65, 100, 100, 95, 66, 77] -- "ColorAdd_BM"
  | .ColorAddRM => [67, 111, 108, 111, 114, 65, 100, 100, 95, 82, 77] -- "ColorAdd_RM"
  | .ColorAddW => [67, 111, 108, 111, 114, 65, 100, 100, 95, 87] -- "ColorAdd_W"
  | .ColorAddWW => [67, 111, 108, 111, 114, 65, 100, 100, 95, 87, 87] -- "ColorAdd_WW"
  | .ColorAddCW => [67, 111, 108, 111, 114, 65, 100, 100, 95, 67, 87] -- "ColorAdd_CW"
  | .ColorAddUV => [67, 111, 108, 111, 114, 65, 100, 100, 95, 85, 86] -- "ColorAdd_UV"
  | .ColorSubR => [67, 111, 108, 111, 114, 83, 117, 98, 95, 82] -- "ColorSub_R"
  | .ColorSubG => [67, 111, 108, 111, 114, 83, 117, 98, 95, 71] -- "ColorSub_G"
  | .ColorSubB => [67, 111, 108, 111, 114, 83, 117, 98, 95, 66] -- "ColorSub_B"
  | .ColorSubC => [67, 111, 108, 111, 114, 83, 117, 98, 95, 67] -- "ColorSub_C"
  | .ColorSubM => [67, 111, 108, 111, 114, 83, 117, 98, 95, 77] -- "ColorSub_M"
  | .ColorSubY => [67, 111, 108, 111, 114, 83, 117, 98, 95, 89] -- "ColorSub_Y"
  | .Cto => [67, 84, 79] -- "CTO"
  | .Ctc => [67, 84, 67] -- "CTC"
  | .Ctb => [67, 84, 66] -- "CTB"
  | .Tint => [84, 105, 110, 116] -- "Tint"
  | .HsbHue => [72, 83, 66, 95, 72, 117, 101] -- "HSB_Hue"
  | .HsbSaturation => [72, 83, 66, 95, 83, 97, 116, 117, 114, 97, 116, 105, 111, 110] -- "HSB_Saturation"
  | .HsbBrightness => [72, 83, 66, 95, 66, 114, 105, 103, 104, 116, 110, 101, 115, 115] -- "HSB_Brightness"
  | .HsbQuality => [72, 83, 66, 95, 81, 117, 97, 108, 105, 116, 121] -- "HSB_Quality"
  | .CieX => [67, 73, 69, 95, 88] -- "CIE_X"
  | .CieY => [67, 73, 69, 95, 89] -- "CIE_Y"
  | .CieBrightness => [67, 73, 69, 95, 66, 114, 105, 103, 104, 116, 110, 101, 115, 115] -- "CIE_Brightness"
  | .ColorRgbRed => [67, 111, 108, 111, 114, 82, 71, 66, 95, 82, 101, 100] -- "ColorRGB_Red"
  | .ColorRgbGreen => [67, 111, 108, 111, 114, 82, 71, 66, 95, 71, 114, 101, 101, 110] -- "ColorRGB_Green"
  | .ColorRgbBlue => [67, 111, 108, 111, 114, 82, 71, 66, 95, 66, 108, 117, 101] -- "ColorRGB_Blue"
  | .ColorRgbCyan => [67, 111, 108, 111, 114, 82, 71, 66, 95, 67, 121, 97, 110] -- "ColorRGB_Cyan"
  | .ColorRgbMagenta => [67, 111, 108, 111, 114, 82, 71, 66, 95, 77, 97, 103, 101, 110, 116, 97] -- "ColorRGB_Magenta"
  | .ColorRgbYellow => [67, 111, 108, 111, 114, 82, 71, 66, 95, 89, 101, 108, 108, 111, 119] -- "ColorRGB_Yellow"
  | .ColorRgbQuality => [67, 111, 108, 111, 114, 82, 71, 66, 95, 81, 117, 97, 108, 105, 116, 121] -- "ColorRGB_Quality"
  | .VideoBoostR => [86, 105, 100, 101, 111, 66, 111, 111, 115, 116, 95, 82] -- "VideoBoost_R"
  | .VideoBoostG => [86, 105, 100, 101, 111, 66, 111, 111, 115, 116, 95, 71] -- "VideoBoost_G"
  | .VideoBoostB => [86, 105, 100, 101, 111, 66, 111, 111, 115, 116, 95, 66] -- "VideoBoost_B"
  | .VideoHueShift => [86, 105, 100, 101, 111, 72, 117, 101, 83, 104, 105, 102, 116] -- "VideoHueShift"
  | .VideoSaturation => [86, 105, 100, 101, 111, 83, 97, 116, 117, 114, 97, 116, 105, 111, 110] -- "VideoSaturation"
  | .VideoBrightness => [86, 105, 100, 101, 111, 66, 114, 105, 103, 104, 116, 110, 101, 115, 115] -- "VideoBrightness"
  | .VideoContrast => [86, 105, 100, 101, 111, 67, 111, 110, 116, 114, 97, 115, 116] -- "VideoContrast"
  | .VideoKeyColorR => [86, 105, 100, 101, 111, 75, 101, 121, 67, 111, 108, 111, 114, 95, 82] -- "VideoKeyColor_R"
  | .VideoKeyColorG => [86, 105, 100, 101, 111, 75, 101, 121, 67, 111, 108, 111, 114, 95, 71] -- "VideoKeyColor_G"
  | .VideoKeyColorB => [86, 105, 100, 101, 111, 75, 101, 121, 67, 111, 108, 111, 114, 95, 66] -- "VideoKeyColor_B"
  | .VideoKeyIntensity => [86, 105, 100, 101, 111, 75, 101, 121, 73, 110, 116, 101, 110, 115, 105, 116, 121] -- "VideoKeyIntensity"
  | .VideoKeyTolerance => [86, 105, 100, 101, 111, 75, 101, 121, 84, 111, 108, 101, 114, 97, 110, 99, 101] -- "VideoKeyTolerance"
  | .StrobeDuration => [83, 116, 114, 111, 98, 101, 68, 117, 114, 97, 116, 105, 111, 110] -- "StrobeDuration"
  | .StrobeRate => [83, 116, 114, 111, 98, 101, 82, 97, 116, 101] -- "StrobeRate"
  | .StrobeFrequency => [83, 116, 114, 111, 98, 101, 70, 114, 101, 113, 117, 101, 110, 99, 121] -- "StrobeFrequency"
  | .StrobeModeShutter => [83, 116, 114, 111, 98, 101, 77, 111, 100, 101, 83, 104, 117, 116, 116, 101, 114] -- "StrobeModeShutter"
  | .StrobeModeStrobe => [83, 116, 114, 111, 98, 101, 77, 111, 100, 101, 83, 116, 114, 111, 98, 101] -- "StrobeModeStrobe"
  | .StrobeModePulse => [83, 116, 114, 111, 98, 101, 77, 111, 100, 101, 80, 117, 108, 115, 101] -- "StrobeModePulse"
  | .StrobeModePulseOpen => [83, 116, 114, 111, 98, 101, 77, 111, 100, 101, 80, 117, 108, 115, 101, 79, 112, 101, 110] -- "StrobeModePulseOpen"
  | .StrobeModePulseClose => [83, 116, 114, 111, 98, 101, 77, 111, 100, 101, 80, 117, 108, 115, 101, 67, 108, 111, 115, 101] -- "StrobeModePulseClose"
  | .StrobeModeRandom => [83, 116, 114, 111, 98, 101, 77, 111, 100, 101, 82, 97, 110, 100, 111, 109] -- "StrobeModeRandom"
  | .StrobeModeRandomPulse => [83, 116, 114, 111, 98, 101, 77, 111, 100, 101, 82, 97, 110, 100, 111, 109, 80, 117, 108, 115, 101] -- "StrobeModeRandomPulse"
  | .StrobeModeRandomPulseOpen => [83, 116, 114, 111, 98, 101, 77, 111, 100, 101, 82, 97, 110, 100, 111, 109, 80, 117, 108, 115, 101, 79, 112, 101, 110] -- "StrobeModeRandomPulseOpen"
  | .StrobeModeRandomPulseClose => [83, 116, 114, 111, 98, 101, 77, 111, 100, 101, 82, 97, 110, 100, 111, 109, 80, 117, 108, 115, 101, 67, 108, 111, 115, 101] -- "StrobeModeRandomPulseClose"
  | .StrobeModeEffect => [83, 116, 114, 111, 98, 101, 77, 111, 100, 101, 69, 102, 102, 101, 99, 116] -- "StrobeModeEffect"
  | .Iris => [73, 114, 105, 115] -- "Iris"
  | .IrisStrobe => [73, 114, 105, 115, 83, 116, 114, 111, 98, 101] -- "IrisStrobe"
  | .IrisStrobeRandom => [73, 114, 105, 115, 83, 116, 114, 111, 98, 101, 82, 97, 110, 100, 111, 109] -- "IrisStrobeRandom"
  | .IrisPulseClose => [73, 114, 105, 115, 80, 117, 108, 115, 101, 67, 108, 111, 115, 101] -- "IrisPulseClose"
  | .IrisPulseOpen => [73, 114, 105, 115, 80, 117, 108, 115, 101, 79, 112, 101, 110] -- "IrisPulseOpen"
  | .IrisRandomPulseClose => [73, 114, 105, 115, 82, 97, 110, 100, 111, 109, 80, 117, 108, 115, 101, 67, 108, 111, 115, 101] -- "IrisRandomPulseClose"
  | .IrisRandomPulseOpen => [73, 114, 105, 115, 82, 97, 110, 100, 111, 109, 80, 117, 108, 115, 101, 79, 112, 101, 110] -- "IrisRandomPulseOpen"
  | .EffectsSync => [69, 102, 102, 101, 99, 116, 115, 83, 121, 110, 99] -- "EffectsSync"
  | .BeamShaper => [66, 101, 97, 109, 83, 104, 97, 112, 101, 114] -- "BeamShaper"
  | .BeamShaperMacroX => [66, 101, 97, 109, 83, 104, 97, 112, 101, 114, 77, 97, 99, 114, 111] -- "BeamShaperMacro"
  | .BeamShaperPos => [66, 101, 97, 109, 83, 104, 97, 112, 101, 114, 80, 111, 115] -- "BeamShaperPos"
  | .BeamShaperPosRotate => [66, 101, 97, 109, 83, 104, 97, 112, 101, 114, 80, 111, 115, 82, 111, 116, 97, 116, 101] -- "BeamShaperPosRotate"
  | .Zoom => [90, 111, 111, 109] -- "Zoom"
  | .ZoomModeSpot => [90, 111, 111, 109, 77, 111, 100, 101, 83, 112, 111, 116] -- "ZoomModeSpot"
  | .ZoomModeBeam => [90, 111, 111, 109, 77, 111, 100, 101, 66, 101, 97, 109] -- "ZoomModeBeam"
  | .DigitalZoom => [68, 105, 103, 105, 116, 97, 108, 90, 111, 111, 109] -- "DigitalZoom"
  | .DimmerMode => [68, 105, 109, 109, 101, 114, 77, 111, 100, 101] -- "DimmerMode"
  | .DimmerCurve => [68, 105, 109, 109, 101, 114, 67, 117, 114, 118, 101] -- "DimmerCurve"
  | .BlackoutMode => [66, 108, 97, 99, 107, 111, 117, 116, 77, 111, 100, 101] -- "BlackoutMode"
  | .LedFrequency => [76, 101, 100, 70, 114, 101, 113, 117, 101, 110, 99, 121] -- "LedFrequency"
  | .LedZoneMode => [76, 101, 100, 90, 111, 110, 101, 77, 111, 100, 101] -- "LedZoneMode"
  | .PixelMode => [80, 105, 120, 101, 108, 77, 111, 100, 101] -- "PixelMode"
  | .PanMode => [80, 97, 110, 77, 111, 100, 101] -- "PanMode"
  | .TiltMode => [84, 105, 108, 116, 77, 111, 100, 101] -- "TiltMode"
  | .PanTiltMode => [80, 97, 110, 84, 105, 108, 116, 77, 111, 100, 101] -- "PanTiltMode"
  | .PositionModes => [80, 111, 115, 105, 116, 105, 111, 110, 77, 111, 100, 101, 115] -- "PositionModes"
  | .GoboWheelShortcutMode => [71, 111, 98, 111, 87, 104, 101, 101, 108, 83, 104, 111, 114, 116, 99, 117, 116, 77, 111, 100, 101] -- "GoboWheelShortcutMode"
  | .AnimationWheelShortcutMode => [65, 110, 105, 109, 97, 116, 105, 111, 110, 87, 104, 101, 101, 108, 83, 104, 111, 114, 116, 99, 117, 116, 77, 111, 100, 101] -- "AnimationWheelShortcutMode"
  | .ColorWheelShortcutMode => [67, 111, 108, 111, 114, 87, 104, 101, 101, 108, 83, 104, 111, 114, 116, 99, 117, 116, 77, 111, 100, 101] -- "ColorWheelShortcutMode"
  | .CyanMode => [67, 121, 97, 110, 77, 111, 100, 101] -- "CyanMode"
  | .MagentaMode => [77, 97, 103, 101, 110, 116, 97, 77, 111, 100, 101] -- "MagentaMode"
  | .YellowMode => [89, 101, 108, 108, 111, 119, 77, 111, 100, 101] -- "YellowMode"
  | .ColorMixMode => [67, 111, 108, 111, 114, 77, 105, 120, 77, 111, 100, 101] -- "ColorMixMode"
  | .ChromaticMode => [67, 104, 114, 111, 109, 97, 116, 105, 99, 77, 111, 100, 101] -- "ChromaticMode"
  | .ColorCalibrationMode => [67, 111, 108, 111, 114, 67, 97, 108, 105, 98, 114, 97, 116, 105, 111, 110, 77, 111, 100, 101] -- "ColorCalibrationMode"
  | .ColorConsistency => [67, 111, 108, 111, 114, 67, 111, 110, 115, 105, 115, 116, 101, 110, 99, 121] -- "ColorConsistency"
  | .ColorControl => [67, 111, 108, 111, 114, 67, 111, 110, 116, 114, 111, 108] -- "ColorControl"
  | .ColorModelMode => [67, 111, 108, 111, 114, 77, 111, 100, 101, 108, 77, 111, 100, 101] -- "ColorModelMode"
  | .ColorSettingsReset => [67, 111, 108, 111, 114, 83, 101, 116, 116, 105, 110, 103, 115, 82, 101, 115, 101, 116] -- "ColorSettingsReset"
  | .ColorUniformity => [67, 111, 108, 111, 114, 85, 110, 105, 102, 111, 114, 109, 105, 116, 121] -- "ColorUniformity"
  | .CriMode => [67, 114, 105, 77, 111, 100, 101] -- "CriMode"
  | .CustomColor => [67, 117, 115, 116, 111, 109, 67, 111, 108, 111, 114] -- "CustomColor"
  | .UvStability => [85, 118, 83, 116, 97, 98, 105, 108, 105, 116, 121] -- "UvStability"
  | .WavelengthCorrection => [87, 97, 118, 101, 108, 101, 110, 103, 116, 104, 67, 111, 114, 114, 101, 99, 116, 105, 111, 110] -- "WavelengthCorrection"
  | .WhiteCount => [87, 104, 105, 116, 101, 67, 111, 117, 110, 116] -- "WhiteCount"
  | .StrobeMode => [83, 116, 114, 111, 98, 101, 77, 111, 100, 101] -- "StrobeMode"
  | .ZoomMode => [90, 111, 111, 109, 77, 111, 100, 101] -- "ZoomMode"
  | .FocusMode => [70, 111, 99, 117, 115, 77, 111, 100, 101] -- "FocusMode"
  | .IrisMode => [73, 114, 105, 115, 77, 111, 100, 101] -- "IrisMode"
  | .FollowSpotMode => [70, 111, 108, 108, 111, 119, 83, 112, 111, 116, 77, 111, 100, 101] -- "FollowSpotMode"
  | .BeamEffectIndexRotateMode => [66, 101, 97, 109, 69, 102, 102, 101, 99, 116, 73, 110, 100, 101, 120, 82, 111, 116, 97, 116, 101, 77, 111, 100, 101] -- "BeamEffectIndexRotateMode"
  | .IntensityMSpeed => [73, 110, 116, 101, 110, 115, 105, 116, 121, 77, 83, 112, 101, 101, 100] -- "IntensityMSpeed"
  | .PositionMSpeed => [80, 111, 115, 105, 116, 105, 111, 110, 77, 83, 112, 101, 101, 100] -- "PositionMSpeed"
  | .ColorMixMSpeed => [67, 111, 108, 111, 114, 77, 105, 120, 77, 83, 112, 101, 101, 100] -- "ColorMixMSpeed"
  | .ColorWheelSelectMSpeed => [67, 111, 108, 111, 114, 87, 104, 101, 101, 108, 83, 101, 108, 101, 99, 116, 77, 83, 112, 101, 101, 100] -- "ColorWheelSelectMSpeed"
  | .IrisMSpeed => [73, 114, 105, 115, 77, 83, 112, 101, 101, 100] -- "IrisMSpeed"
  | .FocusMSpeed => [70, 111, 99, 117, 115, 77, 83, 112, 101, 101, 100] -- "FocusMSpeed"
  | .ZoomMSpeed => [90, 111, 111, 109, 77, 83, 112, 101, 101, 100] -- "ZoomMSpeed"
  | .FrameMSpeed => [70, 114, 97, 109, 101, 77, 83, 112, 101, 101, 100] -- "FrameMSpeed"
  | .GlobalMSpeed => [71, 108, 111, 98, 97, 108, 77, 83, 112, 101, 101, 100] -- "GlobalMSpeed"
  | .ReflectorAdjust => [82, 101, 102, 108, 101, 99, 116, 111, 114, 65, 100, 106, 117, 115, 116] -- "ReflectorAdjust"
  | .FixtureGlobalReset => [70, 105, 120, 116, 117, 114, 101, 71, 108, 111, 98, 97, 108, 82, 101, 115, 101, 116] -- "FixtureGlobalReset"
  | .DimmerReset => [68, 105, 109, 109, 101, 114, 82, 101, 115, 101, 116] -- "DimmerReset"
  | .ShutterReset => [83, 104, 117, 116, 116, 101, 114, 82, 101, 115, 101, 116] -- "ShutterReset"
  | .BeamReset => [66, 101, 97, 109, 82, 101, 115, 101, 116] -- "BeamReset"
  | .ColorMixReset => [67, 111, 108, 111, 114, 77, 105, 120, 82, 101, 115, 101, 116] -- "ColorMixReset"
  | .ColorWheelReset => [67, 111, 108, 111, 114, 87, 104, 101, 101, 108, 82, 101, 115, 101, 116] -- "ColorWheelReset"
  | .FocusReset => [70, 111, 99, 117, 115, 82, 101, 115, 101, 116] -- "FocusReset"
  | .FrameReset => [70, 114, 97, 109, 101, 82, 101, 115, 101, 116] -- "FrameReset"
  | .GoboWheelReset => [71, 111, 98, 111, 87, 104, 101, 101, 108, 82, 101, 115, 101, 116] -- "GoboWheelReset"
  | .IntensityReset => [73, 110, 116, 101, 110, 115, 105, 116, 121, 82, 101, 115, 101, 116] -- "IntensityReset"
  | .IrisReset => [73, 114, 105, 115, 82, 101, 115, 101, 116] -- "IrisReset"
  | .PositionReset => [80, 111, 115, 105, 116, 105, 111, 110, 82, 101, 115, 101, 116] -- "PositionReset"
  | .PanReset => [80, 97, 110, 82, 101, 115, 101, 116] -- "PanReset"
  | .TiltReset => [84, 105, 108, 116, 82, 101, 115, 101, 116] -- "TiltReset"
  | .ZoomReset => [90, 111, 111, 109, 82, 101, 115, 101, 116] -- "ZoomReset"
  | .CtbReset => [67, 84, 66, 82, 101, 115, 101, 116] -- "CTBReset"
  | .CtoReset => [67, 84, 79, 82, 101, 115, 101, 116] -- "CTOReset"
  | .CtcReset => [67, 84, 67, 82, 101, 115, 101, 116] -- "CTCReset"
  | .AnimationSystemReset => [65, 110, 105, 109, 97, 116, 105, 111, 110, 83, 121, 115, 116, 101, 109, 82, 101, 115, 101, 116] -- "AnimationSystemReset"
  | .FixtureCalibrationReset => [70, 105, 120, 116, 117, 114, 101, 67, 97, 108, 105, 98, 114, 97, 116, 105, 111, 110, 82, 101, 115, 101, 116] -- "FixtureCalibrationReset"
  | .Function => [70, 117, 110, 99, 116, 105, 111, 110] -- "Function"
  | .LampControl => [76, 97, 109, 112, 67, 111, 110, 116, 114, 111, 108] -- "LampControl"
  | .DisplayIntensity => [68, 105, 115, 112, 108, 97, 121, 73, 110, 116, 101, 110, 115, 105, 116, 121] -- "DisplayIntensity"
  | .DmxInput => [68, 77, 88, 73, 110, 112, 117, 116] -- "DMXInput"
  | .NoFeature => [78, 111, 70, 101, 97, 116, 117, 114, 101] -- "NoFeature"
  | .LampPowerMode => [76, 97, 109, 112, 80, 111, 119, 101, 114, 77, 111, 100, 101] -- "LampPowerMode"
  | .Fans => [70, 97, 110, 115] -- "Fans"
  | .ShaperRot => [83, 104, 97, 112, 101, 114, 82, 111, 116] -- "ShaperRot"
  | .ShaperMacros => [83, 104, 97, 112, 101, 114, 77, 97, 99, 114, 111, 115] -- "ShaperMacros"
  | .ShaperMacrosSpeed => [83, 104, 97, 112, 101, 114, 77, 97, 99, 114, 111, 115, 83, 112, 101, 101, 100] -- "ShaperMacrosSpeed"
  | .Video => [86, 105, 100, 101, 111] -- "Video"
  | .VideoBlendMode => [86, 105, 100, 101, 111, 66, 108, 101, 110, 100, 77, 111, 100, 101] -- "VideoBlendMode"
  | .InputSource => [73, 110, 112, 117, 116, 83, 111, 117, 114, 99, 101] -- "InputSource"
  | .FieldOfView => [70, 105, 101, 108, 100, 79, 102, 86, 105, 101, 119] -- "FieldOfView"

/-- `Display` arms of the `u8`-indexed families are `write!(f, "Pre{n}Suf")`;
this is the prefix before the index. -/
def Fam1.dispPre : Fam1 → Str
  | .Gobo => [71, 111, 98, 111] -- "Gobo{n}"
  | .GoboSelectSpin => [71, 111, 98, 111] -- "Gobo{n}SelectSpin"
  | .GoboSelectShake => [71, 111, 98, 111] -- "Gobo{n}SelectShake"
  | .GoboSelectEffects => [71, 111, 98, 111] -- "Gobo{n}SelectEffects"
  | .GoboWheelIndex => [71, 111, 98, 111] -- "Gobo{n}WheelIndex"
  | .GoboWheelSpin => [71, 111, 98, 111] -- "Gobo{n}WheelSpin"
  | .GoboWheelShake => [71, 111, 98, 111] -- "Gobo{n}WheelShake"
  | .GoboWheelRandom => [71, 111, 98, 111] -- "Gobo{n}WheelRandom"
  | .GoboWheelAudio => [71, 111, 98, 111] -- "Gobo{n}WheelAudio"
  | .GoboPos => [71, 111, 98, 111] -- "Gobo{n}Pos"
  | .GoboPosRotate => [71, 111, 98, 111] -- "Gobo{n}PosRotate"
  | .GoboPosShake => [71, 111, 98, 111] -- "Gobo{n}PosShake"
  | .AnimationWheel => [65, 110, 105, 109, 97, 116, 105, 111, 110, 87, 104, 101, 101, 108] -- "AnimationWheel{n}"
  | .AnimationWheelAudio => [65, 110, 105, 109, 97, 116, 105, 111, 110, 87, 104, 101, 101, 108] -- "AnimationWheel{n}Audio"
  | .AnimationWheelMacroX => [65, 110, 105, 109, 97, 116, 105, 111, 110, 87, 104, 101, 101, 108] -- "AnimationWheel{n}Macro"
  | .AnimationWheelRandom => [65, 110, 105, 109, 97, 116, 105, 111, 110, 87, 104, 101, 101, 108] -- "AnimationWheel{n}Random"
  | .AnimationWheelSelectEffects => [65, 110, 105, 109, 97, 116, 105, 111, 110, 87, 104, 101, 101, 108] -- "AnimationWheel{n}SelectEffects"
  | .AnimationWheelSelectShake => [65, 110, 105, 109, 97, 116, 105, 111, 110, 87, 104, 101, 101, 108] -- "AnimationWheel{n}SelectShake"
  | .AnimationWheelSelectSpin => [65, 110, 105, 109, 97, 116, 105, 111, 110, 87, 104, 101, 101, 108] -- "AnimationWheel{n}SelectSpin"
  | .AnimationWheelPos => [65, 110, 105, 109, 97, 116, 105, 111, 110, 87, 104, 101, 101, 108] -- "AnimationWheel{n}Pos"
  | .AnimationWheelPosRotate => [65, 110, 105, 109, 97, 116, 105, 111, 110, 87, 104, 101, 101, 108] -- "AnimationWheel{n}PosRotate"
  | .AnimationWheelPosShake => [65, 110, 105, 109, 97, 116, 105, 111, 110, 87, 104, 101, 101, 108] -- "AnimationWheel{n}PosShake"
  | .AnimationSystem => [65, 110, 105, 109, 97, 116, 105, 111, 110, 83, 121, 115, 116, 101, 109] -- "AnimationSystem{n}"
  | .AnimationSystemRamp => [65, 110, 105, 109, 97, 116, 105, 111, 110, 83, 121, 115, 116, 101, 109] -- "AnimationSystem{n}Ramp"
  | .AnimationSystemShake => [65, 110, 105, 109, 97, 116, 105, 111, 110, 83, 121, 115, 116, 101, 109] -- "AnimationSystem{n}Shake"
  | .AnimationSystemAudio => [65, 110, 105, 109, 97, 116, 105, 111, 110, 83, 121, 115, 116, 101, 109] -- "AnimationSystem{n}Audio"
  | .AnimationSystemRandom => [65, 110, 105, 109, 97, 116, 105, 111, 110, 83, 121, 115, 116, 101, 109] -- "AnimationSystem{n}Random"
  | .AnimationSystemPos => [65, 110, 105, 109, 97, 116, 105, 111, 110, 83, 121, 115, 116, 101, 109] -- "AnimationSystem{n}Pos"
  | .AnimationSystemPosRotate => [65, 110, 105, 109, 97, 116, 105, 111, 110, 83, 121, 115, 116, 101, 109] -- "AnimationSystem{n}PosRotate"
  | .AnimationSystemPosShake => [65, 110, 105, 109, 97, 116, 105, 111, 110, 83, 121, 115, 116, 101, 109] -- "AnimationSystem{n}PosShake"
  | .AnimationSystemPosRandom => [65, 110, 105, 109, 97, 116, 105, 111, 110, 83, 121, 115, 116, 101, 109] -- "AnimationSystem{n}PosRandom"
  | .AnimationSystemPosAudio => [65, 110, 105, 109, 97, 116, 105, 111, 110, 83, 121, 115, 116, 101, 109] -- "AnimationSystem{n}PosAudio"
  | .AnimationSystemMacroX => [65, 110, 105, 109, 97, 116, 105, 111, 110, 83, 121, 115, 116, 101, 109] -- "AnimationSystem{n}Macro"
  | .MediaFolder => [77, 101, 100, 105, 97, 70, 111, 108, 100, 101, 114] -- "MediaFolder{n}"
  | .MediaContent => [77, 101, 100, 105, 97, 67, 111, 110, 116, 101, 110, 116] -- "MediaContent{n}"
  | .ModelFolder => [77, 111, 100, 101, 108, 70, 111, 108, 100, 101, 114] -- "ModelFolder{n}"
  | .ModelContent => [77, 111, 100, 101, 108, 67, 111, 110, 116, 101, 110, 116] -- "ModelContent{n}"
  | .ColorEffects => [67, 111, 108, 111, 114, 69, 102, 102, 101, 99, 116, 115] -- "ColorEffects{n}"
  | .Color => [67, 111, 108, 111, 114] -- "Color{n}"
  | .ColorWheelIndex => [67, 111, 108, 111, 114, 87, 104, 101, 101, 108] -- "ColorWheel{n}Index"
  | .ColorWheelSpin => [67, 111, 108, 111, 114, 87, 104, 101, 101, 108] -- "ColorWheel{n}Spin"
  | .ColorWheelRandom => [67, 111, 108, 111, 114, 87, 104, 101, 101, 108] -- "ColorWheel{n}Random"
  | .ColorWheelAudio => [67, 111, 108, 111, 114, 87, 104, 101, 101, 108] -- "ColorWheel{n}Audio"
  | .ColorMacroX => [67, 111, 108, 111, 114, 77, 97, 99, 114, 111] -- "ColorMacro{n}"
  | .ColorMacroRate => [67, 111, 108, 111, 114, 77, 97, 99, 114, 111, 82, 97, 116, 101] -- "ColorMacroRate{n}"
  | .Shutter => [83, 104, 117, 116, 116, 101, 114] -- "Shutter{n}"
  | .ShutterStrobe => [83, 104, 117, 116, 116, 101, 114] -- "Shutter{n}Strobe"
  | .ShutterStrobePulse => [83, 104, 117, 116, 116, 101, 114] -- "Shutter{n}StrobePulse"
  | .ShutterStrobePulseClose => [83, 104, 117, 116, 116, 101, 114] -- "Shutter{n}StrobePulseClose"
  | .ShutterStrobePulseOpen => [83, 104, 117, 116, 116, 101, 114] -- "Shutter{n}StrobePulseOpen"
  | .ShutterStrobeRandom => [83, 104, 117, 116, 116, 101, 114] -- "Shutter{n}StrobeRandom"
  | .ShutterStrobeRandomPulse => [83, 104, 117, 116, 116, 101, 114] -- "Shutter{n}StrobeRandomPulse"
  | .ShutterStrobeRandomPulseClose => [83, 104, 117, 116, 116, 101, 114] -- "Shutter{n}StrobeRandomPulseClose"
  | .ShutterStrobeRandomPulseOpen => [83, 104, 117, 116, 116, 101, 114] -- "Shutter{n}StrobeRandomPulseOpen"
  | .ShutterStrobeEffect => [83, 104, 117, 116, 116, 101, 114] -- "Shutter{n}StrobeEffect"
  | .Frost => [70, 114, 111, 115, 116] -- "Frost{n}"
  | .FrostPulseOpen => [70, 114, 111, 115, 116] -- "Frost{n}PulseOpen"
  | .FrostPulseClose => [70, 114, 111, 115, 116] -- "Frost{n}PulseClose"
  | .FrostRamp => [70, 114, 111, 115, 116] -- "Frost{n}Ramp"
  | .Prism => [80, 114, 105, 115, 109] -- "Prism{n}"
  | .PrismSelectSpin => [80, 114, 105, 115, 109] -- "Prism{n}SelectSpin"
  | .PrismMacroX => [80, 114, 105, 115, 109] -- "Prism{n}Macro"
  | .PrismPos => [80, 114, 105, 115, 109] -- "Prism{n}Pos"
  | .PrismPosRotate => [80, 114, 105, 115, 109] -- "Prism{n}PosRotate"
  | .Effects => [69, 102, 102, 101, 99, 116, 115] -- "Effects{n}"
  | .EffectsRate => [69, 102, 102, 101, 99, 116, 115] -- "Effects{n}Rate"
  | .EffectsFade => [69, 102, 102, 101, 99, 116, 115] -- "Effects{n}Fade"
  | .EffectsPos => [69, 102, 102, 101, 99, 116, 115] -- "Effects{n}Pos"
  | .EffectsPosRotate => [69, 102, 102, 101, 99, 116, 115] -- "Effects{n}PosRotate"
  | .Focus => [70, 111, 99, 117, 115] -- "Focus{n}"
  | .FocusAdjust => [70, 111, 99, 117, 115] -- "Focus{n}Adjust"
  | .FocusDistance => [70, 111, 99, 117, 115] -- "Focus{n}Distance"
  | .Control => [67, 111, 110, 116, 114, 111, 108] -- "Control{n}"
  | .GoboWheelMode => [71, 111, 98, 111] -- "Gobo{n}WheelMode"
  | .AnimationWheelMode => [65, 110, 105, 109, 97, 116, 105, 111, 110] -- "Animation{n}WheelMode"
  | .ColorMode => [67, 111, 108, 111, 114] -- "Color{n}Mode"
  | .FanMode => [70, 97, 110] -- "Fan{n}Mode"
  | .GoboWheelMSpeed => [71, 111, 98, 111] -- "Gobo{n}WheelMSpeed"
  | .PrismMSpeed => [80, 114, 105, 115, 109] -- "Prism{n}MSpeed"
  | .FrostMSpeed => [70, 114, 111, 115, 116] -- "Frost{n}MSpeed"
  | .Blower => [66, 108, 111, 119, 101, 114] -- "Blower{n}"
  | .Fan => [70, 97, 110] -- "Fan{n}"
  | .Fog => [70, 111, 103] -- "Fog{n}"
  | .Haze => [72, 97, 122, 101] -- "Haze{n}"
  | .BladeA => [66, 108, 97, 100, 101] -- "Blade{n}A"
  | .BladeB => [66, 108, 97, 100, 101] -- "Blade{n}B"
  | .BladeRot => [66, 108, 97, 100, 101] -- "Blade{n}Rot"
  | .BladeSoftA => [66, 108, 97, 100, 101, 83, 111, 102, 116] -- "BladeSoft{n}A"
  | .BladeSoftB => [66, 108, 97, 100, 101, 83, 111, 102, 116] -- "BladeSoft{n}B"
  | .KeyStoneA => [75, 101, 121, 83, 116, 111, 110, 101] -- "KeyStone{n}A"
  | .KeyStoneB => [75, 101, 121, 83, 116, 111, 110, 101] -- "KeyStone{n}B"
  | .VideoEffectType => [86, 105, 100, 101, 111, 69, 102, 102, 101, 99, 116] -- "VideoEffect{n}Type"
  | .VideoCamera => [86, 105, 100, 101, 111, 67, 97, 109, 101, 114, 97] -- "VideoCamera{n}"
  | .VideoSoundVolume => [86, 105, 100, 101, 111, 83, 111, 117, 110, 100, 86, 111, 108, 117, 109, 101] -- "VideoSoundVolume{n}"

/-- The suffix after the index in the `Display` arm (empty when the arm is
`write!(f, "Pre{n}")`). -/
def Fam1.dispSuf : Fam1 → Str
  | .Gobo => [] -- "Gobo{n}"
  | .GoboSelectSpin => [83, 101, 108, 101, 99, 116, 83, 112, 105, 110] -- "Gobo{n}SelectSpin"
  | .GoboSelectShake => [83, 101, 108, 101, 99, 116, 83, 104, 97, 107, 101] -- "Gobo{n}SelectShake"
  | .GoboSelectEffects => [83, 101, 108, 101, 99, 116, 69, 102, 102, 101, 99, 116, 115] -- "Gobo{n}SelectEffects"
  | .GoboWheelIndex => [87, 104, 101, 101, 108, 73, 110, 100, 101, 120] -- "Gobo{n}WheelIndex"
  | .GoboWheelSpin => [87, 104, 101, 101, 108, 83, 112, 105, 110] -- "Gobo{n}WheelSpin"
  | .GoboWheelShake => [87, 104, 101, 101, 108, 83, 104, 97, 107, 101] -- "Gobo{n}WheelShake"
  | .GoboWheelRandom => [87, 104, 101, 101, 108, 82, 97, 110, 100, 111, 109] -- "Gobo{n}WheelRandom"
  | .GoboWheelAudio => [87, 104, 101, 101, 108, 65, 117, 100, 105, 111] -- "Gobo{n}WheelAudio"
  | .GoboPos => [80, 111, 115] -- "Gobo{n}Pos"
  | .GoboPosRotate => [80, 111, 115, 82, 111, 116, 97, 116, 101] -- "Gobo{n}PosRotate"
  | .GoboPosShake => [80, 111, 115, 83, 104, 97, 107, 101] -- "Gobo{n}PosShake"
  | .AnimationWheel => [] -- "AnimationWheel{n}"
  | .AnimationWheelAudio => [65, 117, 100, 105, 111] -- "AnimationWheel{n}Audio"
  | .AnimationWheelMacroX => [77, 97, 99, 114, 111] -- "AnimationWheel{n}Macro"
  | .AnimationWheelRandom => [82, 97, 110, 100, 111, 109] -- "AnimationWheel{n}Random"
  | .AnimationWheelSelectEffects => [83, 101, 108, 101, 99, 116, 69, 102, 102, 101, 99, 116, 115] -- "AnimationWheel{n}SelectEffects"
  | .AnimationWheelSelectShake => [83, 101, 108, 101, 99, 116, 83, 104, 97, 107, 101] -- "AnimationWheel{n}SelectShake"
  | .AnimationWheelSelectSpin => [83, 101, 108, 101, 99, 116, 83, 112, 105, 110] -- "AnimationWheel{n}SelectSpin"
  | .AnimationWheelPos => [80, 111, 115] -- "AnimationWheel{n}Pos"
  | .AnimationWheelPosRotate => [80, 111, 115, 82, 111, 116, 97, 116, 101] -- "AnimationWheel{n}PosRotate"
  | .AnimationWheelPosShake => [80, 111, 115, 83, 104, 97, 107, 101] -- "AnimationWheel{n}PosShake"
  | .AnimationSystem => [] -- "AnimationSystem{n}"
  | .AnimationSystemRamp => [82, 97, 109, 112] -- "AnimationSystem{n}Ramp"
  | .AnimationSystemShake => [83, 104, 97, 107, 101] -- "AnimationSystem{n}Shake"
  | .AnimationSystemAudio => [65, 117, 100, 105, 111] -- "AnimationSystem{n}Audio"
  | .AnimationSystemRandom => [82, 97, 110, 100, 111, 109] -- "AnimationSystem{n}Random"
  | .AnimationSystemPos => [80, 111, 115] -- "AnimationSystem{n}Pos"
  | .AnimationSystemPosRotate => [80, 111, 115, 82, 111, 116, 97, 116, 101] -- "AnimationSystem{n}PosRotate"
  | .AnimationSystemPosShake => [80, 111, 115, 83, 104, 97, 107, 101] -- "AnimationSystem{n}PosShake"
  | .AnimationSystemPosRandom => [80, 111, 115, 82, 97, 110, 100, 111, 109] -- "AnimationSystem{n}PosRandom"
  | .AnimationSystemPosAudio => [80, 111, 115, 65, 117, 100, 105, 111] -- "AnimationSystem{n}PosAudio"
  | .AnimationSystemMacroX => [77, 97, 99, 114, 111] -- "AnimationSystem{n}Macro"
  | .MediaFolder => [] -- "MediaFolder{n}"
  | .MediaContent => [] -- "MediaContent{n}"
  | .ModelFolder => [] -- "ModelFolder{n}"
  | .ModelContent => [] -- "ModelContent{n}"
  | .ColorEffects => [] -- "ColorEffects{n}"
  | .Color => [] -- "Color{n}"
  | .ColorWheelIndex => [73, 110, 100, 101, 120] -- "ColorWheel{n}Index"
  | .ColorWheelSpin => [83, 112, 105, 110] -- "ColorWheel{n}Spin"
  | .ColorWheelRandom => [82, 97, 110, 100, 111, 109] -- "ColorWheel{n}Random"
  | .ColorWheelAudio => [65, 117, 100, 105, 111] -- "ColorWheel{n}Audio"
  | .ColorMacroX => [] -- "ColorMacro{n}"
  | .ColorMacroRate => [] -- "ColorMacroRate{n}"
  | .Shutter => [] -- "Shutter{n}"
  | .ShutterStrobe => [83, 116, 114, 111, 98, 101] -- "Shutter{n}Strobe"
  | .ShutterStrobePulse => [83, 116, 114, 111, 98, 101, 80, 117, 108, 115, 101] -- "Shutter{n}StrobePulse"
  | .ShutterStrobePulseClose => [83, 116, 114, 111, 98, 101, 80, 117, 108, 115, 101, 67, 108, 111, 115, 101] -- "Shutter{n}StrobePulseClose"
  | .ShutterStrobePulseOpen => [83, 116, 114, 111, 98, 101, 80, 117, 108, 115, 101, 79, 112, 101, 110] -- "Shutter{n}StrobePulseOpen"
  | .ShutterStrobeRandom => [83, 116, 114, 111, 98, 101, 82, 97, 110, 100, 111, 109] -- "Shutter{n}StrobeRandom"
  | .ShutterStrobeRandomPulse => [83, 116, 114, 111, 98, 101, 82, 97, 110, 100, 111, 109, 80, 117, 108, 115, 101] -- "Shutter{n}StrobeRandomPulse"
  | .ShutterStrobeRandomPulseClose => [83, 116, 114, 111, 98, 101, 82, 97, 110, 100, 111, 109, 80, 117, 108, 115, 101, 67, 108, 111, 115, 101] -- "Shutter{n}StrobeRandomPulseClose"
  | .ShutterStrobeRandomPulseOpen => [83, 116, 114, 111, 98, 101, 82, 97, 110, 100, 111, 109, 80, 117, 108, 115, 101, 79, 112, 101, 110] -- "Shutter{n}StrobeRandomPulseOpen"
  | .ShutterStrobeEffect => [83, 116, 114, 111, 98, 101, 69, 102, 102, 101, 99, 116] -- "Shutter{n}StrobeEffect"
  | .Frost => [] -- "Frost{n}"
  | .FrostPulseOpen => [80, 117, 108, 115, 101, 79, 112, 101, 110] -- "Frost{n}PulseOpen"
  | .FrostPulseClose => [80, 117, 108, 115, 101, 67, 108, 111, 115, 101] -- "Frost{n}PulseClose"
  | .FrostRamp => [82, 97, 109, 112] -- "Frost{n}Ramp"
  | .Prism => [] -- "Prism{n}"
  | .PrismSelectSpin => [83, 101, 108, 101, 99, 116, 83, 112, 105, 110] -- "Prism{n}SelectSpin"
  | .PrismMacroX => [77, 97, 99, 114, 111] -- "Prism{n}Macro"
  | .PrismPos => [80, 111, 115] -- "Prism{n}Pos"
  | .PrismPosRotate => [80, 111, 115, 82, 111, 116, 97, 116, 101] -- "Prism{n}PosRotate"
  | .Effects => [] -- "Effects{n}"
  | .EffectsRate => [82, 97, 116, 101] -- "Effects{n}Rate"
  | .EffectsFade => [70, 97, 100, 101] -- "Effects{n}Fade"
  | .EffectsPos => [80, 111, 115] -- "Effects{n}Pos"
  | .EffectsPosRotate => [80, 111, 115, 82, 111, 116, 97, 116, 101] -- "Effects{n}PosRotate"
  | .Focus => [] -- "Focus{n}"
  | .FocusAdjust => [65, 100, 106, 117, 115, 116] -- "Focus{n}Adjust"
  | .FocusDistance => [68, 105, 115, 116, 97, 110, 99, 101] -- "Focus{n}Distance"
  | .Control => [] -- "Control{n}"
  | .GoboWheelMode => [87, 104, 101, 101, 108, 77, 111, 100, 101] -- "Gobo{n}WheelMode"
  | .AnimationWheelMode => [87, 104, 101, 101, 108, 77, 111, 100, 101] -- "Animation{n}WheelMode"
  | .ColorMode => [77, 111, 100, 101] -- "Color{n}Mode"
  | .FanMode => [77, 111, 100, 101] -- "Fan{n}Mode"
  | .GoboWheelMSpeed => [87, 104, 101, 101, 108, 77, 83, 112, 101, 101, 100] -- "Gobo{n}WheelMSpeed"
  | .PrismMSpeed => [77, 83, 112, 101, 101, 100] -- "Prism{n}MSpeed"
  | .FrostMSpeed => [77, 83, 112, 101, 101, 100] -- "Frost{n}MSpeed"
  | .Blower => [] -- "Blower{n}"
  | .Fan => [] -- "Fan{n}"
  | .Fog => [] -- "Fog{n}"
  | .Haze => [] -- "Haze{n}"
  | .BladeA => [65] -- "Blade{n}A"
  | .BladeB => [66] -- "Blade{n}B"
  | .BladeRot => [82, 111, 116] -- "Blade{n}Rot"
  | .BladeSoftA => [65] -- "BladeSoft{n}A"
  | .BladeSoftB => [66] -- "BladeSoft{n}B"
  | .KeyStoneA => [65] -- "KeyStone{n}A"
  | .KeyStoneB => [66] -- "KeyStone{n}B"
  | .VideoEffectType => [84, 121, 112, 101] -- "VideoEffect{n}Type"
  | .VideoCamera => [] -- "VideoCamera{n}"
  | .VideoSoundVolume => [] -- "VideoSoundVolume{n}"

/-- `Display` arms of the doubly indexed families are
`write!(f, "Pre{n}Mid{m}")`; the prefix before `n`. -/
def Fam2.dispPre : Fam2 → Str
  | .EffectsAdjust => [69, 102, 102, 101, 99, 116, 115] -- "Effects{n}Adjust{m}"
  | .VideoEffectParameter => [86, 105, 100, 101, 111, 69, 102, 102, 101, 99, 116] -- "VideoEffect{n}Parameter{m}"

/-- The middle part between `n` and `m` in the `Display` arm. -/
def Fam2.dispMid : Fam2 → Str
  | .EffectsAdjust => [65, 100, 106, 117, 115, 116] -- "Effects{n}Adjust{m}"
  | .VideoEffectParameter => [80, 97, 114, 97, 109, 101, 116, 101, 114] -- "VideoEffect{n}Parameter{m}"

/-- `impl fmt::Display for Attribute` (`src/gdcs/attr.rs`). -/
def Attribute.display : Attribute → Str
  | .Custom s => s
  | .plain p => p.display
  | .fam1 f n => f.dispPre ++ natDigits n.val ++ f.dispSuf
  | .fam2 f n m => f.dispPre ++ natDigits n.val ++ f.dispMid ++ natDigits m.val

/-- The literal arms of `impl FromStr for Attribute`: the `match` on fixed
strings, in source order. -/
def attrLiterals1 : List (Str × Attribute) :=
  [
   ([68, 105, 109, 109, 101, 114], .plain .Dimmer), -- "Dimmer"
   ([80, 97, 110], .plain .Pan), -- "Pan"
   ([84, 105, 108, 116], .plain .Tilt), -- "Tilt"
   ([80, 97, 110, 82, 111, 116, 97, 116, 101], .plain .PanRotate), -- "PanRotate"
   ([84, 105, 108, 116, 82, 111, 116, 97, 116, 101], .plain .TiltRotate), -- "TiltRotate"
   ([80, 111, 115, 105, 116, 105, 111, 110, 69, 102, 102, 101, 99, 116], .plain .PositionEffect), -- "PositionEffect"
   ([80, 111, 115, 105, 116, 105, 111, 110, 69, 102, 102, 101, 99, 116, 82, 97, 116, 101], .plain .PositionEffectRate), -- "PositionEffectRate"
   ([80, 111, 115, 105, 116, 105, 111, 110, 69, 102, 102, 101, 99, 116, 70, 97, 100, 101], .plain .PositionEffectFade), -- "PositionEffectFade"
   ([88, 89, 90, 95, 88], .plain .XyzX), -- "XYZ_X"
   ([88, 89, 90, 95, 89], .plain .XyzY), -- "XYZ_Y"
   ([88, 89, 90, 95, 90], .plain .XyzZ), -- "XYZ_Z"
   ([82, 111, 116, 95, 88], .plain .RotX), -- "Rot_X"
   ([82, 111, 116, 95, 89], .plain .RotY), -- "Rot_Y"
   ([82, 111, 116, 95, 90], .plain .RotZ), -- "Rot_Z"
   ([83, 99, 97, 108, 101, 95, 88], .plain .ScaleX), -- "Scale_X"
   ([83, 99, 97, 108, 101, 95, 89], .plain .ScaleY), -- "Scale_Y"
   ([83, 99, 97, 108, 101, 95, 90], .plain .ScaleZ), -- "Scale_Z"
   ([83, 99, 97, 108, 101, 95, 88, 89, 90], .plain .ScaleXYZ), -- "Scale_XYZ"
   ([80, 108, 97, 121, 77, 111, 100, 101], .plain .PlayMode), -- "PlayMode"
   ([80, 108, 97, 121, 66, 101, 103, 105, 110], .plain .PlayBegin), -- "PlayBegin"
   ([80, 108, 97, 121, 69, 110, 100], .plain .PlayEnd), -- "PlayEnd"
   ([80, 108, 97, 121, 83, 112, 101, 101, 100], .plain .PlaySpeed), -- "PlaySpeed"
   ([67, 111, 108, 111, 114, 65, 100, 100, 95, 82], .plain .ColorAddR), -- "ColorAdd_R"
   ([67, 111, 108, 111, 114, 65, 100, 100, 95, 71], .plain .ColorAddG), -- "ColorAdd_G"
   ([67, 111, 108, 111, 114, 65, 100, 100, 95, 66], .plain .ColorAddB), -- "ColorAdd_B"
   ([67, 111, 108, 111, 114, 65, 100, 100, 95, 67], .plain .ColorAddC), -- "ColorAdd_C"
   ([67, 111, 108, 111, 114, 65, 100, 100, 95, 77], .plain .ColorAddM), -- "ColorAdd_M"
   ([67, 111, 108, 111, 114, 65, 100, 100, 95, 89], .plain .ColorAddY), -- "ColorAdd_Y"
   ([67, 111, 108, 111, 114, 65, 100, 100, 95, 82, 89], .plain .ColorAddRY), -- "ColorAdd_RY"
   ([67, 111, 108, 111, 114, 65, 100, 100, 95, 71, 89], .plain .ColorAddGY), -- "ColorAdd_GY"
   ([67, 111, 108, 111, 114, 65, 100, 100, 95, 71, 67], .plain .ColorAddGC), -- "ColorAdd_GC"
   ([67, 111, 108, 111, 114, 65, 100, 100, 95, 66, 67], .plain .ColorAddBC), -- "ColorAdd_BC"
   ([67, 111, 108, 111, 114, 65, 100, 100, 95, 66, 77], .plain .ColorAddBM), -- "ColorAdd_BM"
   ([67, 111, 108, 111, 114, 65, 100, 100, 95, 82, 77], .plain .ColorAddRM), -- "ColorAdd_RM"
   ([67, 111, 108, 111, 114, 65, 100, 100, 95, 87], .plain .ColorAddW), -- "ColorAdd_W"
   ([67, 111, 108, 111, 114, 65, 100, 100, 95, 87, 87], .plain .ColorAddWW), -- "ColorAdd_WW"
   ([67, 111, 108, 111, 114, 65, 100, 100, 95, 67, 87], .plain .ColorAddCW), -- "ColorAdd_CW"
   ([67, 111, 108, 111, 114, 65, 100, 100, 95, 85, 86], .plain .ColorAddUV), -- "ColorAdd_UV"
   ([67, 111, 108, 111, 114, 83, 117, 98, 95, 82], .plain .ColorSubR), -- "ColorSub_R"
   ([67, 111, 108, 111, 114, 83, 117, 98, 95, 71], .plain .ColorSubG), -- "ColorSub_G"
   ([67, 111, 108, 111, 114, 83, 117, 98, 95, 66], .plain .ColorSubB), -- "ColorSub_B"
   ([67, 111, 108, 111, 114, 83, 117, 98, 95, 67], .plain .ColorSubC), -- "ColorSub_C"
   ([67, 111, 108, 111, 114, 83, 117, 98, 95, 77], .plain .ColorSubM), -- "ColorSub_M"
   ([67, 111, 108, 111, 114, 83, 117, 98, 95, 89], .plain .ColorSubY), -- "ColorSub_Y"
   ([67, 84, 79], .plain .Cto), -- "CTO"
   ([67, 84, 67], .plain .Ctc)] -- "CTC"

def attrLiterals2 : List (Str × Attribute) :=
  [
   ([67, 84, 66], .plain .Ctb), -- "CTB"
   ([84, 105, 110, 116], .plain .Tint), -- "Tint"
   ([72, 83, 66, 95, 72, 117, 101], .plain .HsbHue), -- "HSB_Hue"
   ([72, 83, 66, 95, 83, 97, 116, 117, 114, 97, 116, 105, 111, 110], .plain .HsbSaturation), -- "HSB_Saturation"
   ([72, 83, 66, 95, 66, 114, 105, 103, 104, 116, 110, 101, 115, 115], .plain .HsbBrightness), -- "HSB_Brightness"
   ([72, 83, 66, 95, 81, 117, 97, 108, 105, 116, 121], .plain .HsbQuality), -- "HSB_Quality"
   ([67, 73, 69, 95, 88], .plain .CieX), -- "CIE_X"
   ([67, 73, 69, 95, 89], .plain .CieY), -- "CIE_Y"
   ([67, 73, 69, 95, 66, 114, 105, 103, 104, 116, 110, 101, 115, 115], .plain .CieBrightness), -- "CIE_Brightness"
   ([67, 111, 108, 111, 114, 82, 71, 66, 95, 82, 101, 100], .plain .ColorRgbRed), -- "ColorRGB_Red"
   ([67, 111, 108, 111, 114, 82, 71, 66, 95, 71, 114, 101, 101, 110], .plain .ColorRgbGreen), -- "ColorRGB_Green"
   ([67, 111, 108, 111, 114, 82, 71, 66, 95, 66, 108, 117, 101], .plain .ColorRgbBlue), -- "ColorRGB_Blue"
   ([67, 111, 108, 111, 114, 82, 71, 66, 95, 67, 121, 97, 110], .plain .ColorRgbCyan), -- "ColorRGB_Cyan"
   ([67, 111, 108, 111, 114, 82, 71, 66, 95, 77, 97, 103, 101, 110, 116, 97], .plain .ColorRgbMagenta), -- "ColorRGB_Magenta"
   ([67, 111, 108, 111, 114, 82, 71, 66, 95, 89, 101, 108, 108, 111, 119], .plain .ColorRgbYellow), -- "ColorRGB_Yellow"
   ([67, 111, 108, 111, 114, 82, 71, 66, 95, 81, 117, 97, 108, 105, 116, 121], .plain .ColorRgbQuality), -- "ColorRGB_Quality"
   ([86, 105, 100, 101, 111, 66, 111, 111, 115, 116, 95, 82], .plain .VideoBoostR), -- "VideoBoost_R"
   ([86, 105, 100, 101, 111, 66, 111, 111, 115, 116, 95, 71], .plain .VideoBoostG), -- "VideoBoost_G"
   ([86, 105, 100, 101, 111, 66, 111, 111, 115, 116, 95, 66], .plain .VideoBoostB), -- "VideoBoost_B"
   ([86, 105, 100, 101, 111, 72, 117, 101, 83, 104, 105, 102, 116], .plain .VideoHueShift), -- "VideoHueShift"
   ([86, 105, 100, 101, 111, 83, 97, 116, 117, 114, 97, 116, 105, 111, 110], .plain .VideoSaturation), -- "VideoSaturation"
   ([86, 105, 100, 101, 111, 66, 114, 105, 103, 104, 116, 110, 101, 115, 115], .plain .VideoBrightness), -- "VideoBrightness"
   ([86, 105, 100, 101, 111, 67, 111, 110, 116, 114, 97, 115, 116], .plain .VideoContrast), -- "VideoContrast"
   ([86, 105, 100, 101, 111, 75, 101, 121, 67, 111, 108, 111, 114, 95, 82], .plain .VideoKeyColorR), -- "VideoKeyColor_R"
   ([86, 105, 100, 101, 111, 75, 101, 121, 67, 111, 108, 111, 114, 95, 71], .plain .VideoKeyColorG), -- "VideoKeyColor_G"
   ([86, 105, 100, 101, 111, 75, 101, 121, 67, 111, 108, 111, 114, 95, 66], .plain .VideoKeyColorB), -- "VideoKeyColor_B"
   ([86, 105, 100, 101, 111, 75, 101, 121, 73, 110, 116, 101, 110, 115, 105, 116, 121], .plain .VideoKeyIntensity), -- "VideoKeyIntensity"
   ([86, 105, 100, 101, 111, 75, 101, 121, 84, 111, 108, 101, 114, 97, 110, 99, 101], .plain .VideoKeyTolerance), -- "VideoKeyTolerance"
   ([83, 116, 114, 111, 98, 101, 68, 117, 114, 97, 116, 105, 111, 110], .plain .StrobeDuration), -- "StrobeDuration"
   ([83, 116, 114, 111, 98, 101, 82, 97, 116, 101], .plain .StrobeRate), -- "StrobeRate"
   ([83, 116, 114, 111, 98, 101, 70, 114, 101, 113, 117, 101, 110, 99, 121], .plain .StrobeFrequency), -- "StrobeFrequency"
   ([83, 116, 114, 111, 98, 101, 77, 111, 100, 101, 83, 104, 117, 116, 116, 101, 114], .plain .StrobeModeShutter), -- "StrobeModeShutter"
   ([83, 116, 114, 111, 98, 101, 77, 111, 100, 101, 83, 116, 114, 111, 98, 101], .plain .StrobeModeStrobe), -- "StrobeModeStrobe"
   ([83, 116, 114, 111, 98, 101, 77, 111, 100, 101, 80, 117, 108, 115, 101], .plain .StrobeModePulse), -- "StrobeModePulse"
   ([83, 116, 114, 111, 98, 101, 77, 111, 100, 101, 80, 117, 108, 115, 101, 79, 112, 101, 110], .plain .StrobeModePulseOpen), -- "StrobeModePulseOpen"
   ([83, 116, 114, 111, 98, 101, 77, 111, 100, 101, 80, 117, 108, 115, 101, 67, 108, 111, 115, 101], .plain .StrobeModePulseClose), -- "StrobeModePulseClose"
   ([83, 116, 114, 111, 98, 101, 77, 111, 100, 101, 82, 97, 110, 100, 111, 109], .plain .StrobeModeRandom), -- "StrobeModeRandom"
   ([83, 116, 114, 111, 98, 101, 77, 111, 100, 101, 82, 97, 110, 100, 111, 109, 80, 117, 108, 115, 101], .plain .StrobeModeRandomPulse), -- "StrobeModeRandomPulse"
   ([83, 116, 114, 111, 98, 101, 77, 111, 100, 101, 82, 97, 110, 100, 111, 109, 80, 117, 108, 115, 101, 79, 112, 101, 110], .plain .StrobeModeRandomPulseOpen), -- "StrobeModeRandomPulseOpen"
   ([83, 116, 114, 111, 98, 101, 77, 111, 100, 101, 82, 97, 110, 100, 111, 109, 80, 117, 108, 115, 101, 67, 108, 111, 115, 101], .plain .StrobeModeRandomPulseClose), -- "StrobeModeRandomPulseClose"
   ([83, 116, 114, 111, 98, 101, 77, 111, 100, 101, 69, 102, 102, 101, 99, 116], .plain .StrobeModeEffect), -- "StrobeModeEffect"
   ([73, 114, 105, 115], .plain .Iris), -- "Iris"
   ([73, 114, 105, 115, 83, 116, 114, 111, 98, 101], .plain .IrisStrobe), -- "IrisStrobe"
   ([73, 114, 105, 115, 83, 116, 114, 111, 98, 101, 82, 97, 110, 100, 111, 109], .plain .IrisStrobeRandom), -- "IrisStrobeRandom"
   ([73, 114, 105, 115, 80, 117, 108, 115, 101, 67, 108, 111, 115, 101], .plain .IrisPulseClose), -- "IrisPulseClose"
   ([73, 114, 105, 115, 80, 117, 108, 115, 101, 79, 112, 101, 110], .plain .IrisPulseOpen)] -- "IrisPulseOpen"

def attrLiterals3 : List (Str × Attribute) :=
  [
   ([73, 114, 105, 115, 82, 97, 110, 100, 111, 109, 80, 117, 108, 115, 101, 67, 108, 111, 115, 101], .plain .IrisRandomPulseClose), -- "IrisRandomPulseClose"
   ([73, 114, 105, 115, 82, 97, 110, 100, 111, 109, 80, 117, 108, 115, 101, 79, 112, 101, 110], .plain .IrisRandomPulseOpen), -- "IrisRandomPulseOpen"
   ([69, 102, 102, 101, 99, 116, 115, 83, 121, 110, 99], .plain .EffectsSync), -- "EffectsSync"
   ([66, 101, 97, 109, 83, 104, 97, 112, 101, 114], .plain .BeamShaper), -- "BeamShaper"
   ([66, 101, 97, 109, 83, 104, 97, 112, 101, 114, 77, 97, 99, 114, 111], .plain .BeamShaperMacroX), -- "BeamShaperMacro"
   ([66, 101, 97, 109, 83, 104, 97, 112, 101, 114, 80, 111, 115], .plain .BeamShaperPos), -- "BeamShaperPos"
   ([66, 101, 97, 109, 83, 104, 97, 112, 101, 114, 80, 111, 115, 82, 111, 116, 97, 116, 101], .plain .BeamShaperPosRotate), -- "BeamShaperPosRotate"
   ([90, 111, 111, 109], .plain .Zoom), -- "Zoom"
   ([90, 111, 111, 109, 77, 111, 100, 101, 83, 112, 111, 116], .plain .ZoomModeSpot), -- "ZoomModeSpot"
   ([90, 111, 111, 109, 77, 111, 100, 101, 66, 101, 97, 109], .plain .ZoomModeBeam), -- "ZoomModeBeam"
   ([68, 105, 103, 105, 116, 97, 108, 90, 111, 111, 109], .plain .DigitalZoom), -- "DigitalZoom"
   ([68, 105, 109, 109, 101, 114, 77, 111, 100, 101], .plain .DimmerMode), -- "DimmerMode"
   ([68, 105, 109, 109, 101, 114, 67, 117, 114, 118, 101], .plain .DimmerCurve), -- "DimmerCurve"
   ([66, 108, 97, 99, 107, 111, 117, 116, 77, 111, 100, 101], .plain .BlackoutMode), -- "BlackoutMode"
   ([76, 69, 68, 70, 114, 101, 113, 117, 101, 110, 99, 121], .plain .LedFrequency), -- "LEDFrequency"
   ([76, 69, 68, 90, 111, 110, 101, 77, 111, 100, 101], .plain .LedZoneMode), -- "LEDZoneMode"
   ([80, 105, 120, 101, 108, 77, 111, 100, 101], .plain .PixelMode), -- "PixelMode"
   ([80, 97, 110, 77, 111, 100, 101], .plain .PanMode), -- "PanMode"
   ([84, 105, 108, 116, 77, 111, 100, 101], .plain .TiltMode), -- "TiltMode"
   ([80, 97, 110, 84, 105, 108, 116, 77, 111, 100, 101], .plain .PanTiltMode), -- "PanTiltMode"
   ([80, 111, 115, 105, 116, 105, 111, 110, 77, 111, 100, 101, 115], .plain .PositionModes), -- "PositionModes"
   ([71, 111, 98, 111, 87, 104, 101, 101, 108, 83, 104, 111, 114, 116, 99, 117, 116, 77, 111, 100, 101], .plain .GoboWheelShortcutMode), -- "GoboWheelShortcutMode"
   ([65, 110, 105, 109, 97, 116, 105, 111, 110, 87, 104, 101, 101, 108, 83, 104, 111, 114, 116, 99, 117, 116, 77, 111, 100, 101], .plain .AnimationWheelShortcutMode), -- "AnimationWheelShortcutMode"
   ([67, 111, 108, 111, 114, 87, 104, 101, 101, 108, 83, 104, 111, 114, 116, 99, 117, 116, 77, 111, 100, 101], .plain .ColorWheelShortcutMode), -- "ColorWheelShortcutMode"
   ([67, 121, 97, 110, 77, 111, 100, 101], .plain .CyanMode), -- "CyanMode"
   ([77, 97, 103, 101, 110, 116, 97, 77, 111, 100, 101], .plain .MagentaMode), -- "MagentaMode"
   ([89, 101, 108, 108, 111, 119, 77, 111, 100, 101], .plain .YellowMode), -- "YellowMode"
   ([67, 111, 108, 111, 114, 77, 105, 120, 77, 111, 100, 101], .plain .ColorMixMode), -- "ColorMixMode"
   ([67, 104, 114, 111, 109, 97, 116, 105, 99, 77, 111, 100, 101], .plain .ChromaticMode), -- "ChromaticMode"
   ([67, 111, 108, 111, 114, 67, 97, 108, 105, 98, 114, 97, 116, 105, 111, 110, 77, 111, 100, 101], .plain .ColorCalibrationMode), -- "ColorCalibrationMode"
   ([67, 111, 108, 111, 114, 67, 111, 110, 115, 105, 115, 116, 101, 110, 99, 121], .plain .ColorConsistency), -- "ColorConsistency"
   ([67, 111, 108, 111, 114, 67, 111, 110, 116, 114, 111, 108], .plain .ColorControl), -- "ColorControl"
   ([67, 111, 108, 111, 114, 77, 111, 100, 101, 108, 77, 111, 100, 101], .plain .ColorModelMode), -- "ColorModelMode"
   ([67, 111, 108, 111, 114, 83, 101, 116, 116, 105, 110, 103, 115, 82, 101, 115, 101, 116], .plain .ColorSettingsReset), -- "ColorSettingsReset"
   ([67, 111, 108, 111, 114, 85, 110, 105, 102, 111, 114, 109, 105, 116, 121], .plain .ColorUniformity), -- "ColorUniformity"
   ([67, 82, 73, 77, 111, 100, 101], .plain .CriMode), -- "CRIMode"
   ([67, 117, 115, 116, 111, 109, 67, 111, 108, 111, 114], .plain .CustomColor), -- "CustomColor"
   ([85, 86, 83, 116, 97, 98, 105, 108, 105, 116, 121], .plain .UvStability), -- "UVStability"
   ([87, 97, 118, 101, 108, 101, 110, 103, 116, 104, 67, 111, 114, 114, 101, 99, 116, 105, 111, 110], .plain .WavelengthCorrection), -- "WavelengthCorrection"
   ([87, 104, 105, 116, 101, 67, 111, 117, 110, 116], .plain .WhiteCount), -- "WhiteCount"
   ([83, 116, 114, 111, 98, 101, 77, 111, 100, 101], .plain .StrobeMode), -- "StrobeMode"
   ([90, 111, 111, 109, 77, 111, 100, 101], .plain .ZoomMode), -- "ZoomMode"
   ([70, 111, 99, 117, 115, 77, 111, 100, 101], .plain .FocusMode), -- "FocusMode"
   ([73, 114, 105, 115, 77, 111, 100, 101], .plain .IrisMode), -- "IrisMode"
   ([70, 111, 108, 108, 111, 119, 83, 112, 111, 116, 77, 111, 100, 101], .plain .FollowSpotMode), -- "FollowSpotMode"
   ([66, 101, 97, 109, 69, 102, 102, 101, 99, 116, 73, 110, 100, 101, 120, 82, 111, 116, 97, 116, 101, 77, 111, 100, 101], .plain .BeamEffectIndexRotateMode)] -- "BeamEffectIndexRotateMode"

def attrLiterals4 : List (Str × Attribute) :=
  [
   ([73, 110, 116, 101, 110, 115, 105, 116, 121, 77, 83, 112, 101, 101, 100], .plain .IntensityMSpeed), -- "IntensityMSpeed"
   ([80, 111, 115, 105, 116, 105, 111, 110, 77, 83, 112, 101, 101, 100], .plain .PositionMSpeed), -- "PositionMSpeed"
   ([67, 111, 108, 111, 114, 77, 105, 120, 77, 83, 112, 101, 101, 100], .plain .ColorMixMSpeed), -- "ColorMixMSpeed"
   ([67, 111, 108, 111, 114, 87, 104, 101, 101, 108, 83, 101, 108, 101, 99, 116, 77, 83, 112, 101, 101, 100], .plain .ColorWheelSelectMSpeed), -- "ColorWheelSelectMSpeed"
   ([73, 114, 105, 115, 77, 83, 112, 101, 101, 100], .plain .IrisMSpeed), -- "IrisMSpeed"
   ([70, 111, 99, 117, 115, 77, 83, 112, 101, 101, 100], .plain .FocusMSpeed), -- "FocusMSpeed"
   ([90, 111, 111, 109, 77, 83, 112, 101, 101, 100], .plain .ZoomMSpeed), -- "ZoomMSpeed"
   ([70, 114, 97, 109, 101, 77, 83, 112, 101, 101, 100], .plain .FrameMSpeed), -- "FrameMSpeed"
   ([71, 108, 111, 98, 97, 108, 77, 83, 112, 101, 101, 100], .plain .GlobalMSpeed), -- "GlobalMSpeed"
   ([82, 101, 102, 108, 101, 99, 116, 111, 114, 65, 100, 106, 117, 115, 116], .plain .ReflectorAdjust), -- "ReflectorAdjust"
   ([70, 105, 120, 116, 117, 114, 101, 71, 108, 111, 98, 97, 108, 82, 101, 115, 101, 116], .plain .FixtureGlobalReset), -- "FixtureGlobalReset"
   ([68, 105, 109, 109, 101, 114, 82, 101, 115, 101, 116], .plain .DimmerReset), -- "DimmerReset"
   ([83, 104, 117, 116, 116, 101, 114, 82, 101, 115, 101, 116], .plain .ShutterReset), -- "ShutterReset"
   ([66, 101, 97, 109, 82, 101, 115, 101, 116], .plain .BeamReset), -- "BeamReset"
   ([67, 111, 108, 111, 114, 77, 105, 120, 82, 101, 115, 101, 116], .plain .ColorMixReset), -- "ColorMixReset"
   ([67, 111, 108, 111, 114, 87, 104, 101, 101, 108, 82, 101, 115, 101, 116], .plain .ColorWheelReset), -- "ColorWheelReset"
   ([70, 111, 99, 117, 115, 82, 101, 115, 101, 116], .plain .FocusReset), -- "FocusReset"
   ([70, 114, 97, 109, 101, 82, 101, 115, 101, 116], .plain .FrameReset), -- "FrameReset"
   ([71, 111, 98, 111, 87, 104, 101, 101, 108, 82, 101, 115, 101, 116], .plain .GoboWheelReset), -- "GoboWheelReset"
   ([73, 110, 116, 101, 110, 115, 105, 116, 121, 82, 101, 115, 101, 116], .plain .IntensityReset), -- "IntensityReset"
   ([73, 114, 105, 115, 82, 101, 115, 101, 116], .plain .IrisReset), -- "IrisReset"
   ([80, 111, 115, 105, 116, 105, 111, 110, 82, 101, 115, 101, 116], .plain .PositionReset), -- "PositionReset"
   ([80, 97, 110, 82, 101, 115, 101, 116], .plain .PanReset), -- "PanReset"
   ([84, 105, 108, 116, 82, 101, 115, 101, 116], .plain .TiltReset), -- "TiltReset"
   ([90, 111, 111, 109, 82, 101, 115, 101, 116], .plain .ZoomReset), -- "ZoomReset"
   ([67, 84, 66, 82, 101, 115, 101, 116], .plain .CtbReset), -- "CTBReset"
   ([67, 84, 79, 82, 101, 115, 101, 116], .plain .CtoReset), -- "CTOReset"
   ([67, 84, 67, 82, 101, 115, 101, 116], .plain .CtcReset), -- "CTCReset"
   ([65, 110, 105, 109, 97, 116, 105, 111, 110, 83, 121, 115, 116, 101, 109, 82, 101, 115, 101, 116], .plain .AnimationSystemReset), -- "AnimationSystemReset"
   ([70, 105, 120, 116, 117, 114, 101, 67, 97, 108, 105, 98, 114, 97, 116, 105, 111, 110, 82, 101, 115, 101, 116], .plain .FixtureCalibrationReset), -- "FixtureCalibrationReset"
   ([70, 117, 110, 99, 116, 105, 111, 110], .plain .Function), -- "Function"
   ([76, 97, 109, 112, 67, 111, 110, 116, 114, 111, 108], .plain .LampControl), -- "LampControl"
   ([68, 105, 115, 112, 108, 97, 121, 73, 110, 116, 101, 110, 115, 105, 116, 121], .plain .DisplayIntensity), -- "DisplayIntensity"
   ([68, 77, 88, 73, 110, 112, 117, 116], .plain .DmxInput), -- "DMXInput"
   ([78, 111, 70, 101, 97, 116, 117, 114, 101], .plain .NoFeature), -- "NoFeature"
   ([76, 97, 109, 112, 80, 111, 119, 101, 114, 77, 111, 100, 101], .plain .LampPowerMode), -- "LampPowerMode"
   ([70, 97, 110, 115], .plain .Fans), -- "Fans"
   ([83, 104, 97, 112, 101, 114, 82, 111, 116], .plain .ShaperRot), -- "ShaperRot"
   ([83, 104, 97, 112, 101, 114, 77, 97, 99, 114, 111, 115], .plain .ShaperMacros), -- "ShaperMacros"
   ([83, 104, 97, 112, 101, 114, 77, 97, 99, 114, 111, 115, 83, 112, 101, 101, 100], .plain .ShaperMacrosSpeed), -- "ShaperMacrosSpeed"
   ([86, 105, 100, 101, 111], .plain .Video), -- "Video"
   ([86, 105, 100, 101, 111, 66, 108, 101, 110, 100, 77, 111, 100, 101], .plain .VideoBlendMode), -- "VideoBlendMode"
   ([73, 110, 112, 117, 116, 83, 111, 117, 114, 99, 101], .plain .InputSource), -- "InputSource"
   ([70, 105, 101, 108, 100, 79, 102, 86, 105, 101, 119], .plain .FieldOfView)] -- "FieldOfView"

def attrLiterals : List (Str × Attribute) :=
  attrLiterals1 ++ attrLiterals2 ++ attrLiterals3 ++ attrLiterals4

/-- One fallback family pattern of `FromStr`: either an `extract_attr_n`
attempt (prefix, optional suffix, target family) or an `extract_attr_n_m`
attempt (prefix, middle, target family; both call sites pass `None` for
the suffix parameter). -/
inductive FamPat where
  | one (pre : Str) (suf : Option Str) (f : Fam1)
  | two (pre mid : Str) (f : Fam2)
  deriving DecidableEq

/-- The `FromStr` fallback chain: the `if let Some(n) = extract_attr_n(..)`
cascade, in source order. -/
def attrChain1 : List FamPat :=
  [
   .one [71, 111, 98, 111] none .Gobo, -- "Gobo" + n
   .one [71, 111, 98, 111] (some [83, 101, 108, 101, 99, 116, 83, 112, 105, 110]) .GoboSelectSpin, -- "Gobo" + n + "SelectSpin"
   .one [71, 111, 98, 111] (some [83, 101, 108, 101, 99, 116, 83, 104, 97, 107, 101]) .GoboSelectShake, -- "Gobo" + n + "SelectShake"
   .one [71, 111, 98, 111] (some [83, 101, 108, 101, 99, 116, 69, 102, 102, 101, 99, 116, 115]) .GoboSelectEffects, -- "Gobo" + n + "SelectEffects"
   .one [71, 111, 98, 111] (some [87, 104, 101, 101, 108, 73, 110, 100, 101, 120]) .GoboWheelIndex, -- "Gobo" + n + "WheelIndex"
   .one [71, 111, 98, 111] (some [87, 104, 101, 101, 108, 83, 112, 105, 110]) .GoboWheelSpin, -- "Gobo" + n + "WheelSpin"
   .one [71, 111, 98, 111] (some [87, 104, 101, 101, 108, 83, 104, 97, 107, 101]) .GoboWheelShake, -- "Gobo" + n + "WheelShake"
   .one [71, 111, 98, 111] (some [87, 104, 101, 101, 108, 82, 97, 110, 100, 111, 109]) .GoboWheelRandom, -- "Gobo" + n + "WheelRandom"
   .one [71, 111, 98, 111] (some [87, 104, 101, 101, 108, 65, 117, 100, 105, 111]) .GoboWheelAudio, -- "Gobo" + n + "WheelAudio"
   .one [71, 111, 98, 111] (some [80, 111, 115]) .GoboPos, -- "Gobo" + n + "Pos"
   .one [71, 111, 98, 111] (some [80, 111, 115, 82, 111, 116, 97, 116, 101]) .GoboPosRotate, -- "Gobo" + n + "PosRotate"
   .one [71, 111, 98, 111] (some [80, 111, 115, 83, 104, 97, 107, 101]) .GoboPosShake, -- "Gobo" + n + "PosShake"
   .one [65, 110, 105, 109, 97, 116, 105, 111, 110, 87, 104, 101, 101, 108] none .AnimationWheel, -- "AnimationWheel" + n
   .one [65, 110, 105, 109, 97, 116, 105, 111, 110, 87, 104, 101, 101, 108] (some [65, 117, 100, 105, 111]) .AnimationWheelAudio, -- "AnimationWheel" + n + "Audio"
   .one [65, 110, 105, 109, 97, 116, 105, 111, 110, 87, 104, 101, 101, 108] (some [77, 97, 99, 114, 111]) .AnimationWheelMacroX, -- "AnimationWheel" + n + "Macro"
   .one [65, 110, 105, 109, 97, 116, 105, 111, 110, 87, 104, 101, 101, 108] (some [82, 97, 110, 100, 111, 109]) .AnimationWheelRandom, -- "AnimationWheel" + n + "Random"
   .one [65, 110, 105, 109, 97, 116, 105, 111, 110, 87, 104, 101, 101, 108] (some [83, 101, 108, 101, 99, 116, 69, 102, 102, 101, 99, 116, 115]) .AnimationWheelSelectEffects, -- "AnimationWheel" + n + "SelectEffects"
   .one [65, 110, 105, 109, 97, 116, 105, 111, 110, 87, 104, 101, 101, 108] (some [83, 101, 108, 101, 99, 116, 83, 104, 97, 107, 101]) .AnimationWheelSelectShake, -- "AnimationWheel" + n + "SelectShake"
   .one [65, 110, 105, 109, 97, 116, 105, 111, 110, 87, 104, 101, 101, 108] (some [83, 101, 108, 101, 99, 116, 83, 112, 105, 110]) .AnimationWheelSelectSpin, -- "AnimationWheel" + n + "SelectSpin"
   .one [65, 110, 105, 109, 97, 116, 105, 111, 110, 87, 104, 101, 101, 108] (some [80, 111, 115]) .AnimationWheelPos, -- "AnimationWheel" + n + "Pos"
   .one [65, 110, 105, 109, 97, 116, 105, 111, 110, 87, 104, 101, 101, 108] (some [80, 111, 115, 82, 111, 116, 97, 116, 101]) .AnimationWheelPosRotate, -- "AnimationWheel" + n + "PosRotate"
   .one [65, 110, 105, 109, 97, 116, 105, 111, 110, 87, 104, 101, 101, 108] (some [80, 111, 115, 83, 104, 97, 107, 101]) .AnimationWheelPosShake, -- "AnimationWheel" + n + "PosShake"
   .one [65, 110, 105, 109, 97, 116, 105, 111, 110, 83, 121, 115, 116, 101, 109] none .AnimationSystem, -- "AnimationSystem" + n
   .one [65, 110, 105, 109, 97, 116, 105, 111, 110, 83, 121, 115, 116, 101, 109] (some [82, 97, 109, 112]) .AnimationSystemRamp, -- "AnimationSystem" + n + "Ramp"
   .one [65, 110, 105, 109, 97, 116, 105, 111, 110, 83, 121, 115, 116, 101, 109] (some [83, 104, 97, 107, 101]) .AnimationSystemShake, -- "AnimationSystem" + n + "Shake"
   .one [65, 110, 105, 109, 97, 116, 105, 111, 110, 83, 121, 115, 116, 101, 109] (some [65, 117, 100, 105, 111]) .AnimationSystemAudio, -- "AnimationSystem" + n + "Audio"
   .one [65, 110, 105, 109, 97, 116, 105, 111, 110, 83, 121, 115, 116, 101, 109] (some [82, 97, 110, 100, 111, 109]) .AnimationSystemRandom, -- "AnimationSystem" + n + "Random"
   .one [65, 110, 105, 109, 97, 116, 105, 111, 110, 83, 121, 115, 116, 101, 109] (some [80, 111, 115]) .AnimationSystemPos, -- "AnimationSystem" + n + "Pos"
   .one [65, 110, 105, 109, 97, 116, 105, 111, 110, 83, 121, 115, 116, 101, 109] (some [80, 111, 115, 82, 111, 116, 97, 116, 101]) .AnimationSystemPosRotate, -- "AnimationSystem" + n + "PosRotate"
   .one [65, 110, 105, 109, 97, 116, 105, 111, 110, 83, 121, 115, 116, 101, 109] (some [80, 111, 115, 83, 104, 97, 107, 101]) .AnimationSystemPosShake, -- "AnimationSystem" + n + "PosShake"
   .one [65, 110, 105, 109, 97, 116, 105, 111, 110, 83, 121, 115, 116, 101, 109] (some [80, 111, 115, 82, 97, 110, 100, 111, 109]) .AnimationSystemPosRandom, -- "AnimationSystem" + n + "PosRandom"
   .one [65, 110, 105, 109, 97, 116, 105, 111, 110, 83, 121, 115, 116, 101, 109] (some [80, 111, 115, 65, 117, 100, 105, 111]) .AnimationSystemPosAudio, -- "AnimationSystem" + n + "PosAudio"
   .one [65, 110, 105, 109, 97, 116, 105, 111, 110, 83, 121, 115, 116, 101, 109] (some [77, 97, 99, 114, 111]) .AnimationSystemMacroX, -- "AnimationSystem" + n + "Macro"
   .one [77, 101, 100, 105, 97, 70, 111, 108, 100, 101, 114] none .MediaFolder, -- "MediaFolder" + n
   .one [77, 101, 100, 105, 97, 67, 111, 110, 116, 101, 110, 116] none .MediaContent, -- "MediaContent" + n
   .one [77, 111, 100, 101, 108, 70, 111, 108, 100, 101, 114] none .ModelFolder, -- "ModelFolder" + n
   .one [77, 111, 100, 101, 108, 67, 111, 110, 116, 101, 110, 116] none .ModelContent, -- "ModelContent" + n
   .one [67, 111, 108, 111, 114, 69, 102, 102, 101, 99, 116, 115] none .ColorEffects, -- "ColorEffects" + n
   .one [67, 111, 108, 111, 114] none .Color, -- "Color" + n
   .one [67, 111, 108, 111, 114] (some [87, 104, 101, 101, 108, 73, 110, 100, 101, 120]) .ColorWheelIndex, -- "Color" + n + "WheelIndex"
   .one [67, 111, 108, 111, 114] (some [87, 104, 101, 101, 108, 83, 112, 105, 110]) .ColorWheelSpin, -- "Color" + n + "WheelSpin"
   .one [67, 111, 108, 111, 114] (some [87, 104, 101, 101, 108, 82, 97, 110, 100, 111, 109]) .ColorWheelRandom, -- "Color" + n + "WheelRandom"
   .one [67, 111, 108, 111, 114] (some [87, 104, 101, 101, 108, 65, 117, 100, 105, 111]) .ColorWheelAudio, -- "Color" + n + "WheelAudio"
   .one [67, 111, 108, 111, 114, 77, 97, 99, 114, 111] none .ColorMacroX, -- "ColorMacro" + n
   .one [67, 111, 108, 111, 114, 77, 97, 99, 114, 111] (some [82, 97, 116, 101]) .ColorMacroRate, -- "ColorMacro" + n + "Rate"
   .one [83, 104, 117, 116, 116, 101, 114] none .Shutter, -- "Shutter" + n
   .one [83, 104, 117, 116, 116, 101, 114] (some [83, 116, 114, 111, 98, 101]) .ShutterStrobe, -- "Shutter" + n + "Strobe"
   .one [83, 104, 117, 116, 116, 101, 114] (some [83, 116, 114, 111, 98, 101, 80, 117, 108, 115, 101]) .ShutterStrobePulse] -- "Shutter" + n + "StrobePulse"

def attrChain2 : List FamPat :=
  [
   .one [83, 104, 117, 116, 116, 101, 114] (some [83, 116, 114, 111, 98, 101, 80, 117, 108, 115, 101, 67, 108, 111, 115, 101]) .ShutterStrobePulseClose, -- "Shutter" + n + "StrobePulseClose"
   .one [83, 104, 117, 116, 116, 101, 114] (some [83, 116, 114, 111, 98, 101, 80, 117, 108, 115, 101, 79, 112, 101, 110]) .ShutterStrobePulseOpen, -- "Shutter" + n + "StrobePulseOpen"
   .one [83, 104, 117, 116, 116, 101, 114] (some [83, 116, 114, 111, 98, 101, 82, 97, 110, 100, 111, 109]) .ShutterStrobeRandom, -- "Shutter" + n + "StrobeRandom"
   .one [83, 104, 117, 116, 116, 101, 114] (some [83, 116, 114, 111, 98, 101, 82, 97, 110, 100, 111, 109, 80, 117, 108, 115, 101]) .ShutterStrobeRandomPulse, -- "Shutter" + n + "StrobeRandomPulse"
   .one [83, 104, 117, 116, 116, 101, 114] (some [83, 116, 114, 111, 98, 101, 82, 97, 110, 100, 111, 109, 80, 117, 108, 115, 101, 67, 108, 111, 115, 101]) .ShutterStrobeRandomPulseClose, -- "Shutter" + n + "StrobeRandomPulseClose"
   .one [83, 104, 117, 116, 116, 101, 114] (some [83, 116, 114, 111, 98, 101, 82, 97, 110, 100, 111, 109, 80, 117, 108, 115, 101, 79, 112, 101, 110]) .ShutterStrobeRandomPulseOpen, -- "Shutter" + n + "StrobeRandomPulseOpen"
   .one [83, 104, 117, 116, 116, 101, 114] (some [83, 116, 114, 111, 98, 101, 69, 102, 102, 101, 99, 116]) .ShutterStrobeEffect, -- "Shutter" + n + "StrobeEffect"
   .one [70, 114, 111, 115, 116] none .Frost, -- "Frost" + n
   .one [70, 114, 111, 115, 116] (some [80, 117, 108, 115, 101, 79, 112, 101, 110]) .FrostPulseOpen, -- "Frost" + n + "PulseOpen"
   .one [70, 114, 111, 115, 116] (some [80, 117, 108, 115, 101, 67, 108, 111, 115, 101]) .FrostPulseClose, -- "Frost" + n + "PulseClose"
   .one [70, 114, 111, 115, 116] (some [82, 97, 109, 112]) .FrostRamp, -- "Frost" + n + "Ramp"
   .one [80, 114, 105, 115, 109] none .Prism, -- "Prism" + n
   .one [80, 114, 105, 115, 109] (some [83, 101, 108, 101, 99, 116, 83, 112, 105, 110]) .PrismSelectSpin, -- "Prism" + n + "SelectSpin"
   .one [80, 114, 105, 115, 109] (some [77, 97, 99, 114, 111]) .PrismMacroX, -- "Prism" + n + "Macro"
   .one [80, 114, 105, 115, 109] (some [80, 111, 115]) .PrismPos, -- "Prism" + n + "Pos"
   .one [80, 114, 105, 115, 109] (some [80, 111, 115, 82, 111, 116, 97, 116, 101]) .PrismPosRotate, -- "Prism" + n + "PosRotate"
   .two [69, 102, 102, 101, 99, 116, 115] [65, 100, 106, 117, 115, 116] .EffectsAdjust, -- "Effects" + n + "Adjust" + m
   .one [69, 102, 102, 101, 99, 116, 115] none .Effects, -- "Effects" + n
   .one [69, 102, 102, 101, 99, 116, 115] (some [82, 97, 116, 101]) .EffectsRate, -- "Effects" + n + "Rate"
   .one [69, 102, 102, 101, 99, 116, 115] (some [70, 97, 100, 101]) .EffectsFade, -- "Effects" + n + "Fade"
   .one [69, 102, 102, 101, 99, 116, 115] (some [80, 111, 115]) .EffectsPos, -- "Effects" + n + "Pos"
   .one [69, 102, 102, 101, 99, 116, 115] (some [80, 111, 115, 82, 111, 116, 97, 116, 101]) .EffectsPosRotate, -- "Effects" + n + "PosRotate"
   .one [70, 111, 99, 117, 115] none .Focus, -- "Focus" + n
   .one [70, 111, 99, 117, 115] (some [65, 100, 106, 117, 115, 116]) .FocusAdjust, -- "Focus" + n + "Adjust"
   .one [70, 111, 99, 117, 115] (some [68, 105, 115, 116, 97, 110, 99, 101]) .FocusDistance, -- "Focus" + n + "Distance"
   .one [67, 111, 110, 116, 114, 111, 108] none .Control, -- "Control" + n
   .one [71, 111, 98, 111] (some [87, 104, 101, 101, 108, 77, 111, 100, 101]) .GoboWheelMode, -- "Gobo" + n + "WheelMode"
   .one [65, 110, 105, 109, 97, 116, 105, 111, 110, 87, 104, 101, 101, 108] (some [77, 111, 100, 101]) .AnimationWheelMode, -- "AnimationWheel" + n + "Mode"
   .one [67, 111, 108, 111, 114] (some [77, 111, 100, 101]) .ColorMode, -- "Color" + n + "Mode"
   .one [70, 97, 110] (some [77, 111, 100, 101]) .FanMode, -- "Fan" + n + "Mode"
   .one [71, 111, 98, 111, 87, 104, 101, 101, 108] (some [77, 83, 112, 101, 101, 100]) .GoboWheelMSpeed, -- "GoboWheel" + n + "MSpeed"
   .one [80, 114, 105, 115, 109] (some [77, 83, 112, 101, 101, 100]) .PrismMSpeed, -- "Prism" + n + "MSpeed"
   .one [70, 114, 111, 115, 116] (some [77, 83, 112, 101, 101, 100]) .FrostMSpeed, -- "Frost" + n + "MSpeed"
   .one [66, 108, 111, 119, 101, 114] none .Blower, -- "Blower" + n
   .one [70, 97, 110] none .Fan, -- "Fan" + n
   .one [70, 111, 103] none .Fog, -- "Fog" + n
   .one [72, 97, 122, 101] none .Haze, -- "Haze" + n
   .one [66, 108, 97, 100, 101] (some [65]) .BladeA, -- "Blade" + n + "A"
   .one [66, 108, 97, 100, 101] (some [66]) .BladeB, -- "Blade" + n + "B"
   .one [66, 108, 97, 100, 101] (some [82, 111, 116]) .BladeRot, -- "Blade" + n + "Rot"
   .one [66, 108, 97, 100, 101, 83, 111, 102, 116] (some [65]) .BladeSoftA, -- "BladeSoft" + n + "A"
   .one [66, 108, 97, 100, 101, 83, 111, 102, 116] (some [66]) .BladeSoftB, -- "BladeSoft" + n + "B"
   .one [75, 101, 121, 83, 116, 111, 110, 101] (some [65]) .KeyStoneA, -- "KeyStone" + n + "A"
   .one [75, 101, 121, 83, 116, 111, 110, 101] (some [66]) .KeyStoneB, -- "KeyStone" + n + "B"
   .one [86, 105, 100, 101, 111, 69, 102, 102, 101, 99, 116] (some [84, 121, 112, 101]) .VideoEffectType, -- "VideoEffect" + n + "Type"
   .two [86, 105, 100, 101, 111, 69, 102, 102, 101, 99, 116] [80, 97, 114, 97, 109, 101, 116, 101, 114] .VideoEffectParameter, -- "VideoEffect" + n + "Parameter" + m
   .one [86, 105, 100, 101, 111, 67, 97, 109, 101, 114, 97] none .VideoCamera, -- "VideoCamera" + n
   .one [86, 105, 100, 101, 111, 83, 111, 117, 110, 100, 86, 111, 108, 117, 109, 101] none .VideoSoundVolume] -- "VideoSoundVolume" + n

def attrChain : List FamPat :=
  attrChain1 ++ attrChain2

/-- The parameterless variants whose `Display` string differs from the
string `FromStr` matches on (so the round trip lands in `Custom`). -/
def brokenPlain : PlainAttr → Bool
  | .LedFrequency => true
  | .LedZoneMode => true
  | .CriMode => true
  | .UvStability => true
  | _ => false

/-- The indexed families whose `Display` form never matches the pattern
`FromStr` looks for (so the round trip lands in `Custom`). -/
def brokenFam1 : Fam1 → Bool
  | .ColorWheelIndex => true
  | .ColorWheelSpin => true
  | .ColorWheelRandom => true
  | .ColorWheelAudio => true
  | .ColorMacroRate => true
  | .AnimationWheelMode => true
  | .GoboWheelMSpeed => true
  | _ => false


/-- Try one fallback pattern (`if let Some(n) = extract_attr_n(..)`); the
extracted `u8` is below 256 by construction of `parseU8`. -/
def tryFamPat (s : Str) : FamPat → Option Attribute
  | .one pre suf f =>
    (extractAttrN s pre suf).bind fun n =>
      if h : n < 256 then some (.fam1 f ⟨n, h⟩) else none
  | .two pre mid f =>
    (extractAttrNM s pre mid none).bind fun nm =>
      if h : nm.1 < 256 ∧ nm.2 < 256 then some (.fam2 f ⟨nm.1, h.1⟩ ⟨nm.2, h.2⟩)
      else none

/-- The `FromStr` fallback cascade: first pattern that extracts wins. -/
def parseChain (s : Str) : List FamPat → Option Attribute
  | [] => none
  | p :: ps =>
    match tryFamPat s p with
    | some a => some a
    | none => parseChain s ps

/-- The literal `match` arms of `FromStr`. -/
def findLit (s : Str) : Option Attribute :=
  (attrLiterals.find? (fun kv => kv.fst = s)).map (·.snd)

/-- `impl FromStr for Attribute`: literals first, then the family cascade,
then `Custom(s)`.  Parsing is total. -/
def Attribute.parse (s : Str) : Attribute :=
  match findLit s with
  | some a => a
  | none =>
    match parseChain s attrChain with
    | some a => a
    | none => .Custom s

/-- Writing a list of `(Address, Value)` pairs into a multiverse in order. -/
def Multiverse.set_values (m : Multiverse) : List (Address × Nat) → Multiverse
  | [] => m
  | (a, v) :: rest => (m.set_value a v).set_values rest


/-! ## Fixtures, patch and relations
(`crates/zeevonk/src/show/fixture.rs`, `crates/zeevonk/src/state/patch.rs`)

A `FixturePath` is a bounded nonempty sequence of nonzero fixture ids; the
embedding uses the id list.  Maps (`BTreeMap`/`HashMap`) are embedded as
association lists; where a claim needs the map property, it carries a
`Nodup` hypothesis on the keys. -/

abbrev FixturePath := List Nat

inductive RelationKind where
  | Multiply
  | Override
  deriving DecidableEq

/-- A relation of a virtual channel function: kind, follower path and
follower attribute. -/
structure Relation where
  kind : RelationKind
  fixture_path : FixturePath
  attr : Attribute   -- the `attribute` field (`attribute` is a Lean keyword)
  deriving DecidableEq

inductive FixtureChannelFunctionKind where
  | Physical (addresses : List Address)
  | Virtual (relations : List Relation)
  deriving DecidableEq

structure FixtureChannelFunction where
  kind : FixtureChannelFunctionKind
  min : ClampedValue
  max : ClampedValue
  dfault : ClampedValue   -- the `default` field (`default` is reserved in Lean)
  deriving DecidableEq

/-- The per-fixture data the resolver reads: the attribute → channel
function map.  (The remaining `Fixture` fields — name, base address, GDTF
ids, sub-fixture paths — play no role in the resolver.) -/
structure Fixture where
  channel_functions : List (Attribute × FixtureChannelFunction)

/-- `Fixture::channel_function`. -/
def Fixture.channel_function (f : Fixture) (a : Attribute) :
    Option FixtureChannelFunction :=
  (f.channel_functions.find? (fun kv => kv.fst = a)).map (·.snd)

structure Patch where
  fixtures : List (FixturePath × Fixture)
  default_multiverse : Multiverse

/-- `patch.fixtures.get(path)`. -/
def Patch.fixture? (p : Patch) (path : FixturePath) : Option Fixture :=
  (p.fixtures.find? (fun kv => kv.fst = path)).map (·.snd)

/-- Look up the channel function for a `(path, attribute)` pair in the
patch, as the resolver's deferred pass does. -/
def Patch.channel_function? (p : Patch) (path : FixturePath) (a : Attribute) :
    Option FixtureChannelFunction :=
  (p.fixture? path).bind (fun f => f.channel_function a)

/-! ## Pending attribute values (`crates/zeevonk/src/packet/mod.rs`) -/

/-- `AttributeValues`: a `HashMap<(FixturePath, Attribute), ClampedValue>`,
embedded as an association list. -/
abbrev AttributeValues := List ((FixturePath × Attribute) × ClampedValue)

/-- `AttributeValues::get`. -/
def AttributeValues.get (av : AttributeValues) (path : FixturePath)
    (a : Attribute) : Option ClampedValue :=
  (av.find? (fun kv => kv.fst = (path, a))).map (·.snd)

/-- `AttributeValues::set` / `HashMap::insert`: replace the binding if the
key is present, otherwise add it. -/
def AttributeValues.set (av : AttributeValues) (path : FixturePath)
    (a : Attribute) (v : ClampedValue) : AttributeValues :=
  if (av.find? (fun kv => kv.fst = (path, a))).isSome then
    av.map (fun kv => if kv.fst = (path, a) then (kv.fst, v) else kv)
  else
    av ++ [((path, a), v)]

/-! ## The resolver (`crates/zeevonk/src/server/resolver.rs`)

The resolver walks the fixtures, writes the byte encoding of each pending
value of a physical channel function into the multiverse, and defers
relation writes of virtual channel functions to a second pass.  The same
routine appears in `src/gdcs/resolver.rs` and `src/core/gdcs/resolver.rs`;
the three revisions differ only in the multiverse the resolution starts
from (`Multiverse::new()`, the patch's default multiverse, or the server's
persistent output multiverse), which is the explicit `m0` argument of
`Resolver.resolve` here. -/

structure ResolverState where
  multiverse : Multiverse
  deferred : List (Relation × ClampedValue)

namespace Resolver

/-- `Resolver::set_channel_function_value`: physical channel functions are
written directly; virtual ones enqueue one deferred write per relation
(`Override` defers the value itself, `Multiply` defers the product with the
follower's pending value and is skipped when the follower has none). -/
def set_channel_function_value (av : AttributeValues)
    (cf : FixtureChannelFunction) (value : ClampedValue)
    (s : ResolverState) : ResolverState :=
  match cf.kind with
  | .Physical addresses =>
    { s with multiverse := s.multiverse.set_values (value.to_address_values addresses) }
  | .Virtual relations =>
    { s with deferred := s.deferred ++ relations.filterMap (fun rel =>
        match rel.kind with
        | .Multiply =>
          (av.get rel.fixture_path rel.attr).map (fun follower_value =>
            (rel, ClampedValue.new (follower_value.as_f32 * value.as_f32)))
        | .Override => some (rel, value)) }

/-- `Resolver::resolve_fixture`: apply every channel function of one
fixture that has an explicit pending value. -/
def resolve_fixture (av : AttributeValues) (path : FixturePath) (f : Fixture)
    (s : ResolverState) : ResolverState :=
  f.channel_functions.foldl (fun s acf =>
    match av.get path acf.fst with
    | some value => set_channel_function_value av acf.snd value s
    | none => s) s

/-- The first pass of `Resolver::resolve`: every fixture of the patch. -/
def first_pass (av : AttributeValues) (patch : Patch) (m0 : Multiverse) :
    ResolverState :=
  patch.fixtures.foldl (fun s pf => resolve_fixture av pf.fst pf.snd s)
    ⟨m0, []⟩

/-- `Resolver::resolve`: the fixture pass followed by the deferred-relation
pass.  The deferred list is taken (`std::mem::take`) before the second
pass; writes the second pass itself defers are dropped when the resolver
returns. -/
def resolve (av : AttributeValues) (patch : Patch) (m0 : Multiverse) :
    Multiverse :=
  let s1 := first_pass av patch m0
  let s2 := s1.deferred.foldl (fun s rv =>
    match patch.channel_function? rv.fst.fixture_path rv.fst.attr with
    | some cf => set_channel_function_value av cf rv.snd s
    | none => s) ⟨s1.multiverse, []⟩
  s2.multiverse

end Resolver

/-! ## The server (`crates/zeevonk/src/server/mod.rs`) -/

/-- The server state the packet handlers touch: the built patch (from the
show data), the pending values and the output multiverse.
`ServerState::new` starts with no pending values and an *empty* output
multiverse. -/
structure ServerState where
  patch : Patch
  pending_attribute_values : AttributeValues
  output_multiverse : Multiverse

/-- `ServerState::new`. -/
def ServerState.new (patch : Patch) : ServerState :=
  ⟨patch, [], Multiverse.new⟩

/-- `Inner::resolve_values`: run the resolver against the pending values
and patch; the resolver writes into the persistent output multiverse. -/
def ServerState.resolve_values (s : ServerState) : ServerState :=
  { s with output_multiverse :=
      Resolver.resolve s.pending_attribute_values s.patch s.output_multiverse }

/-- `process_packet`, `RequestSetAttributeValues` arm: insert every pair of
the request into the pending map, then resolve. -/
def ServerState.process_set_attribute_values (s : ServerState)
    (values : AttributeValues) : ServerState :=
  let av := values.foldl (fun av kv => av.set kv.fst.fst kv.fst.snd kv.snd)
    s.pending_attribute_values
  let s' := { s with pending_attribute_values := av }
  s'.resolve_values

/-- `process_packet`, `RequestDmxOutput` arm: resolve, then reply with a
clone of the output multiverse. -/
def ServerState.process_dmx_output (s : ServerState) :
    ServerState × Multiverse :=
  let s' := s.resolve_values
  (s', s'.output_multiverse)

/-! ## Fixture registration (`src/gdcs/mod.rs`)

`register_fixture` builds a fixture tree from its GDTF description; the
embedding abstracts the GDTF-driven `FixtureBuilder` as the data the
collision check reads: the root id, the base address (absolute), the DMX
mode's channel count, and the absolute addresses of the tree's physical
channel functions (all of which lie in `[base, base + channel_count)`, the
highest being attained, by `calculate_channel_count_for_dmx_mode`). -/

structure GdcsFixture where
  root_id : Nat
  base : Nat
  channel_count : Nat
  phys : List Nat
  deriving DecidableEq

structure Gdcs where
  fixtures : List GdcsFixture
  deriving DecidableEq

def Gdcs.empty : Gdcs := ⟨[]⟩

/-- `GeneralizedDmxControlSystem::address_available`: true iff the given
absolute address lies in no registered fixture's
`[base, base + channel_count)` range.  Note the check is applied only to
the *base* address of a new fixture. -/
def Gdcs.address_available (g : Gdcs) (addr : Nat) : Bool :=
  !g.fixtures.any (fun f => f.base ≤ addr && addr < f.base + f.channel_count)

inductive GdcsError where
  | FixtureAlreadyExists
  | AddressAlreadyMapped
  deriving DecidableEq

/-- `GeneralizedDmxControlSystem::register_fixture` (collision-relevant
part): reject a duplicate root id, reject when the *base address* is
already mapped, otherwise insert.  (Missing fixture types / DMX modes also
error in the source; they are orthogonal to the collision claim.) -/
def Gdcs.register_fixture (g : Gdcs) (fx : GdcsFixture) :
    Except GdcsError Gdcs :=
  if g.fixtures.any (fun f => f.root_id = fx.root_id) then
    .error .FixtureAlreadyExists
  else if !g.address_available fx.base then
    .error .AddressAlreadyMapped
  else
    .ok ⟨g.fixtures ++ [fx]⟩

/-- Run a sequence of registrations; a failed registration leaves the
system unchanged (the source returns before mutating on every error). -/
def Gdcs.register_all (g : Gdcs) (l : List GdcsFixture) : Gdcs :=
  l.foldl (fun g fx =>
    match g.register_fixture fx with
    | .ok g' => g'
    | .error _ => g) g

/-! ## `f32` special values and `ClampedValue` bounds
(`src/core/gdcs/util.rs`)

For the bounds claim the float cannot be an exact rational: NaN and the
infinities matter.  `Float32` models an `f32` as NaN, a signed infinity,
or a finite value (exact rational in place of the finite float).  `le` is
Rust's `<=` (false whenever NaN is involved); `clamp` is `f32::clamp`,
which propagates NaN. -/

inductive Float32 where
  | nan
  | inf (neg : Bool)
  | fin (q : ℚ)
  deriving DecidableEq

/-- Rust `f32` `<=`: NaN compares false with everything. -/
def Float32.le : Float32 → Float32 → Bool
  | .nan, _ => false
  | _, .nan => false
  | .inf true, _ => true
  | .inf false, y => y = .inf false
  | .fin _, .inf b => !b
  | .fin q, .fin r => q ≤ r

/-- `f32::clamp(0.0, 1.0)`: `max` when above, `min` when below, NaN stays
NaN. -/
def Float32.clamp01 : Float32 → Float32
  | .nan => .nan
  | .inf false => .fin 1
  | .inf true => .fin 0
  | .fin q => .fin (min 1 (max 0 q))

/-- `f32` multiplication on the modelled values (finite products are exact;
NaN propagates; `0 * ∞` is NaN). -/
def Float32.mul : Float32 → Float32 → Float32
  | .nan, _ => .nan
  | _, .nan => .nan
  | .inf a, .inf b => .inf (a != b)
  | .inf a, .fin q => if q = 0 then .nan else .inf (a != decide (q < 0))
  | .fin q, .inf b => if q = 0 then .nan else .inf (b != decide (q < 0))
  | .fin q, .fin r => .fin (q * r)

/-- `f32` 1 - t and addition, for `lerp`. -/
def Float32.sub1 : Float32 → Float32
  | .nan => .nan
  | .inf b => .inf (!b)
  | .fin q => .fin (1 - q)

def Float32.add : Float32 → Float32 → Float32
  | .nan, _ => .nan
  | _, .nan => .nan
  | .inf a, .inf b => if a = b then .inf a else .nan
  | .inf a, .fin _ => .inf a
  | .fin _, .inf b => .inf b
  | .fin q, .fin r => .fin (q + r)

/-- `ClampedValue` over modelled `f32` values, for the bounds claim. -/
structure ClampedValue32 where
  val : Float32
  deriving DecidableEq

/-- `ClampedValue::new`. -/
def ClampedValue32.new (v : Float32) : ClampedValue32 :=
  ⟨v.clamp01⟩

/-- `ClampedValue::set`. -/
def ClampedValue32.set (_ : ClampedValue32) (v : Float32) : ClampedValue32 :=
  ⟨v.clamp01⟩

/-- `ClampedValue::lerp`: `t` is clamped, then
`Self::new(self.0 * (1.0 - t) + other.0 * t)`. -/
def ClampedValue32.lerp (a b : ClampedValue32) (t : Float32) : ClampedValue32 :=
  let t := t.clamp01
  ClampedValue32.new ((a.val.mul t.sub1).add (b.val.mul t))

/-- The product the resolver forms for a `Multiply` relation:
`ClampedValue::new(follower_value.as_f32() * value.as_f32())`. -/
def ClampedValue32.relMul (a b : ClampedValue32) : ClampedValue32 :=
  ClampedValue32.new (a.val.mul b.val)

/-- The claimed invariant: `0.0 <= value <= 1.0` (Rust comparisons, so
false for NaN). -/
def ClampedValue32.inRange (v : ClampedValue32) : Bool :=
  (Float32.fin 0).le v.val && v.val.le (.fin 1)

/-! ## RPC frame decoders (`src/packet/codec.rs`, `src/packet.rs`)

Frames are a 4-byte little-endian payload length followed by the payload.
The decoders run over a `BytesMut` receive buffer; decoding returns the
optional frame payload and the buffer as the decoder leaves it.  Payload
deserialisation (MessagePack) is outside the framing layer and is left
abstract: the decoded item is the raw byte slice handed to
`decode_payload_bytes`. -/

def MAX_PACKET_LENGTH : Nat := 8 * 1024 * 1024

/-- Little-endian `u32` of the first four bytes. -/
def leU32 (l : List Nat) : Nat :=
  l.getD 0 0 + 256 * l.getD 1 0 + 65536 * l.getD 2 0 + 16777216 * l.getD 3 0

inductive CodecError where
  | PacketTooLarge
  deriving DecidableEq

/-- `PacketDecoder::decode` (`src/packet/codec.rs`): note that
`try_get_u32_le` *consumes* the length prefix from the buffer before the
buffer is checked for a complete payload. -/
def PacketDecoder.decode (src : List Nat) :
    Except CodecError (Option (List Nat) × List Nat) :=
  if src.length < 4 then
    .ok (none, src)
  else
    let payload_length := leU32 (src.take 4)
    let src := src.drop 4
    if src.length < payload_length then
      .ok (none, src)
    else if MAX_PACKET_LENGTH < payload_length then
      .error .PacketTooLarge
    else
      .ok (some (src.take payload_length), src.drop payload_length)

/-- `ServerboundPacketDecoder::decode` (`src/packet.rs`): the length prefix
is read by copy, the buffer is only split once the full frame has arrived
(the split-off frame, prefix included, is handed to
`decode_payload_bytes`). -/
def ServerboundPacketDecoder.decode (src : List Nat) :
    Except CodecError (Option (List Nat) × List Nat) :=
  if src.length < 4 then
    .ok (none, src)
  else
    let payload_length := leU32 (src.take 4)
    if MAX_PACKET_LENGTH < payload_length then
      .error .PacketTooLarge
    else if src.length < 4 + payload_length then
      .ok (none, src)
    else
      .ok (some (src.take (4 + payload_length)), src.drop (4 + payload_length))

/-! ## sACN (E1.31) packet framing
(`src/server/sacn/packet/*.rs`, `crates/zeevonk/src/server/protocols/sacn/`)

Byte strings are `List Nat`; slicing `bytes[i]` is `getD i 0` (out-of-range
indexing panics in the source and reads 0 here; every in-contract use is
in range). -/

inductive PacketError where
  | InvalidLength
  | InvalidFramingLayerVector
  | InvalidDmpLayerVector
  | InvalidDmpAddressType
  | InvalidDmpFirstPropertyAddress
  | InvalidDmpAddressIncrement
  | InvalidUniverseDiscoveryLayerVector
  | InvalidRootLayerSize
  | InvalidRootLayerVector
  | InvalidPacket
  | InvalidSourceNameLength
  | InvalidPriority
  deriving DecidableEq

/-- `flags_and_length`: high nibble `0x7`, low 12 bits the PDU length.
`0x7 << 12 | (length & 0xFFF)` equals this sum since the two operands
occupy disjoint bits. -/
def flagsAndLength (length : Nat) : Nat :=
  0x7000 + length % 4096

/-- `u16::to_be_bytes`. -/
def be16 (v : Nat) : List Nat :=
  [v / 256 % 256, v % 256]

/-- `u16::from_be_bytes`. -/
def unbe16 (hi lo : Nat) : Nat := 256 * hi + lo

/-- `source_name_from_str`: names longer than 64 bytes fail fast, shorter
ones are NUL-padded to exactly 64 bytes. -/
def source_name_from_str (s : List Nat) : Except PacketError (List Nat) :=
  if 64 < s.length then .error .InvalidSourceNameLength
  else .ok (s ++ List.replicate (64 - s.length) 0)

/-- The DMP layer of a data packet: the start-code slot followed by the
data slots (`ArrayVec<Slot, 513>`). -/
structure Dmp where
  property_values : List Nat
  deriving DecidableEq

def Dmp.size (d : Dmp) : Nat := 10 + d.property_values.length

def Dmp.encode (d : Dmp) : List Nat :=
  be16 (flagsAndLength d.size) ++ [0x02, 0xa1, 0x00, 0x00, 0x00, 0x01]
    ++ be16 d.property_values.length ++ d.property_values

def Dmp.decode (bytes : List Nat) : Except PacketError Dmp :=
  if bytes.getD 2 0 ≠ 0x02 then .error .InvalidDmpLayerVector
  else if bytes.getD 3 0 ≠ 0xa1 then .error .InvalidDmpAddressType
  else if bytes.getD 4 0 ≠ 0 ∨ bytes.getD 5 0 ≠ 0 then
    .error .InvalidDmpFirstPropertyAddress
  else if bytes.getD 6 0 ≠ 0 ∨ bytes.getD 7 0 ≠ 1 then
    .error .InvalidDmpAddressIncrement
  else
    let property_value_count := unbe16 (bytes.getD 8 0) (bytes.getD 9 0)
    .ok ⟨(bytes.drop 10).take property_value_count⟩

/-- An E1.31 Data Packet framing layer. -/
structure DataFraming where
  source_name : List Nat
  priority : Nat
  synchronization_address : Nat
  sequence_number : Nat
  options : Nat
  univ : Nat      -- the `universe` field (`universe` is a Lean keyword)
  dmp : Dmp
  deriving DecidableEq

/-- `DataFraming::new`: validates the source name and the priority and
packs the three option bits. -/
def DataFraming.new (source_name : List Nat) (priority : Nat)
    (synchronization_address sequence_number : Nat)
    (preview_data stream_terminated force_synchronization : Bool)
    (univ : Nat) (dmp : Dmp) : Except PacketError DataFraming := do
  let source_name ← source_name_from_str source_name
  if 200 ≤ priority then
    .error .InvalidPriority
  else
    let options := (if preview_data then 0x80 else 0)
      + (if stream_terminated then 0x40 else 0)
      + (if force_synchronization then 0x20 else 0)
    .ok ⟨source_name, priority, synchronization_address, sequence_number,
      options, univ, dmp⟩

def DataFraming.size (d : DataFraming) : Nat := 77 + d.dmp.size

def DataFraming.encode (d : DataFraming) : List Nat :=
  be16 (flagsAndLength d.size) ++ [0x00, 0x00, 0x00, 0x02]
    ++ d.source_name ++ [d.priority] ++ be16 d.synchronization_address
    ++ [d.sequence_number] ++ [d.options] ++ be16 d.univ ++ d.dmp.encode

def DataFraming.decode (bytes : List Nat) : Except PacketError DataFraming :=
  if bytes.length < 77 then .error .InvalidLength
  else if (bytes.drop 2).take 4 ≠ [0x00, 0x00, 0x00, 0x02] then
    .error .InvalidFramingLayerVector
  else
    match Dmp.decode (bytes.drop 77) with
    | .error e => .error e
    | .ok dmp =>
      .ok ⟨(bytes.drop 6).take 64, bytes.getD 70 0,
        unbe16 (bytes.getD 71 0) (bytes.getD 72 0), bytes.getD 73 0,
        bytes.getD 74 0, unbe16 (bytes.getD 75 0) (bytes.getD 76 0), dmp⟩

/-- An E1.31 Synchronization framing layer. -/
structure SyncFraming where
  sequence_number : Nat
  synchronization_address : Nat
  deriving DecidableEq

def SyncFraming.size (_ : SyncFraming) : Nat := 11

def SyncFraming.encode (s : SyncFraming) : List Nat :=
  be16 (flagsAndLength s.size) ++ [0x00, 0x00, 0x00, 0x01]
    ++ [s.sequence_number] ++ be16 s.synchronization_address ++ [0x00, 0x00]

def SyncFraming.decode (bytes : List Nat) : Except PacketError SyncFraming :=
  if (bytes.drop 2).take 4 ≠ [0x00, 0x00, 0x00, 0x01] then
    .error .InvalidFramingLayerVector
  else
    .ok ⟨bytes.getD 6 0, unbe16 (bytes.getD 7 0) (bytes.getD 8 0)⟩

/-- The universe-discovery sub-PDU. -/
structure UniverseDiscovery where
  page : Nat
  last : Nat
  list_of_universes : List Nat
  deriving DecidableEq

/-- `UniverseDiscovery::new` truncates to 512 universes and sorts. -/
def UniverseDiscovery.new (page last : Nat) (l : List Nat) :
    UniverseDiscovery :=
  ⟨page, last, (l.take 512).mergeSort (· ≤ ·)⟩

def UniverseDiscovery.size (u : UniverseDiscovery) : Nat :=
  8 + u.list_of_universes.length * 2

def UniverseDiscovery.encode (u : UniverseDiscovery) : List Nat :=
  be16 (flagsAndLength u.size) ++ [0x00, 0x00, 0x00, 0x01]
    ++ [u.page, u.last] ++ u.list_of_universes.flatMap be16

/-- `chunks_exact(2)` over the remaining bytes (a trailing odd byte is
dropped). -/
def u16Chunks : List Nat → List Nat
  | a :: b :: rest => unbe16 a b :: u16Chunks rest
  | _ => []

def UniverseDiscovery.decode (bytes : List Nat) :
    Except PacketError UniverseDiscovery :=
  if (bytes.drop 2).take 4 ≠ [0x00, 0x00, 0x00, 0x01] then
    .error .InvalidUniverseDiscoveryLayerVector
  else
    .ok ⟨bytes.getD 6 0, bytes.getD 7 0, u16Chunks (bytes.drop 8)⟩

/-- An E1.31 Universe Discovery framing layer. -/
structure DiscoveryFraming where
  source_name : List Nat
  universe_discovery : UniverseDiscovery
  deriving DecidableEq

def DiscoveryFraming.size (d : DiscoveryFraming) : Nat :=
  74 + d.universe_discovery.size

def DiscoveryFraming.encode (d : DiscoveryFraming) : List Nat :=
  be16 (flagsAndLength d.size) ++ [0x00, 0x00, 0x00, 0x02]
    ++ d.source_name ++ [0x00, 0x00, 0x00, 0x00]
    ++ d.universe_discovery.encode

def DiscoveryFraming.decode (bytes : List Nat) :
    Except PacketError DiscoveryFraming :=
  if (bytes.drop 2).take 4 ≠ [0x00, 0x00, 0x00, 0x02] then
    .error .InvalidUniverseDiscoveryLayerVector
  else
    match UniverseDiscovery.decode (bytes.drop 74) with
    | .error e => .error e
    | .ok ud => .ok ⟨(bytes.drop 6).take 64, ud⟩

/-- Any E1.31 PDU. -/
inductive Pdu where
  | DataFraming (pdu : DataFraming)
  | SyncFraming (pdu : SyncFraming)
  | DiscoveryFraming (pdu : DiscoveryFraming)
  deriving DecidableEq

def Pdu.size : Pdu → Nat
  | .DataFraming p => p.size
  | .SyncFraming p => p.size
  | .DiscoveryFraming p => p.size

def Pdu.encode : Pdu → List Nat
  | .DataFraming p => p.encode
  | .SyncFraming p => p.encode
  | .DiscoveryFraming p => p.encode

/-- `Pdu::decode`: try data, then sync, then discovery. -/
def Pdu.decode (data : List Nat) : Except PacketError Pdu :=
  match DataFraming.decode data with
  | .ok p => .ok (.DataFraming p)
  | .error _ =>
    match SyncFraming.decode data with
    | .ok p => .ok (.SyncFraming p)
    | .error _ =>
      match DiscoveryFraming.decode data with
      | .ok p => .ok (.DiscoveryFraming p)
      | .error _ => .error .InvalidPacket

/-- An E1.31 Root Layer. -/
structure RootLayer where
  cid : List Nat
  extended : Bool
  pdu : Pdu
  deriving DecidableEq

/-- `MIN_ROOT_LAYER_SIZE (38) + pdu.size() - Preamble::SIZE (16)
- postamble (0)`. -/
def RootLayer.size (r : RootLayer) : Nat := 38 + r.pdu.size - 16

def RootLayer.encode (r : RootLayer) : List Nat :=
  be16 (flagsAndLength r.size)
    ++ (if r.extended then [0x00, 0x00, 0x00, 0x08] else [0x00, 0x00, 0x00, 0x04])
    ++ r.cid ++ r.pdu.encode

def RootLayer.decode (data : List Nat) : Except PacketError RootLayer :=
  if data.length < 38 then .error .InvalidRootLayerSize
  else
    let vector := (data.drop 18).take 4
    if vector = [0x00, 0x00, 0x00, 0x04] then
      match Pdu.decode (data.drop 38) with
      | .error e => .error e
      | .ok pdu => .ok ⟨(data.drop 22).take 16, false, pdu⟩
    else if vector = [0x00, 0x00, 0x00, 0x08] then
      match Pdu.decode (data.drop 38) with
      | .error e => .error e
      | .ok pdu => .ok ⟨(data.drop 22).take 16, true, pdu⟩
    else .error .InvalidRootLayerVector

/-- The fixed 16-byte E1.31 preamble. -/
def preambleBytes : List Nat :=
  [0x00, 0x10, 0x00, 0x00, 0x41, 0x53, 0x43, 0x2d,
   0x45, 0x31, 0x2e, 0x31, 0x37, 0x00, 0x00, 0x00]

/-- An E1.31 `Packet` (preamble, one root-layer PDU, empty postamble). -/
structure Packet where
  root : RootLayer
  deriving DecidableEq

/-- `Packet::new`: data PDUs use the plain root vector, sync and discovery
the extended one. -/
def Packet.new (cid : List Nat) (pdu : Pdu) : Packet :=
  let extended := match pdu with
    | .DataFraming _ => false
    | .SyncFraming _ | .DiscoveryFraming _ => true
  ⟨⟨cid, extended, pdu⟩⟩

/-- `Packet::encode`: preamble, root layer, (empty) postamble. -/
def Packet.encode (p : Packet) : List Nat :=
  preambleBytes ++ p.root.encode

/-- `Packet::decode`: decodes the root layer from the full datagram (the
root-layer decoder reads at the absolute offsets past the preamble). -/
def Packet.decode (data : List Nat) : Except PacketError Packet :=
  match RootLayer.decode data with
  | .ok root => .ok ⟨root⟩
  | .error e => .error e

/-! ## Spec-side definitions

These follow the specification's wording, to be compared with the
source-side definitions above. -/

/-- Spec-side encoding (specification wording): the big-endian bytes of
`round(v * (2^(8k) - 1))`, most-significant first. -/
def specBytes (v : ℚ) (k : Nat) : List Nat :=
  (List.range k).map (fun i =>
    (rustRound (v * (2 ^ (8 * k) - 1))).toNat / 256 ^ (k - 1 - i) % 256)

/-! ## Concrete example data

A two-fixture patch: fixture `[1]` carries a virtual `Dimmer` whose single
relation targets fixture `[2]`'s physical `Dimmer` (one address, 8-bit),
as in the specification's end-to-end scenarios 3 and 4. -/

def dimmerA : Attribute := .plain .Dimmer

def addrB : Address := ⟨1, 5⟩

def cv (q : ℚ) : ClampedValue := ⟨q⟩

/-- Fixture `[2]`'s physical `Dimmer` channel function. -/
def cfPhysB : FixtureChannelFunction := ⟨.Physical [addrB], cv 0, cv 1, cv 0⟩

/-- Fixture `[1]`'s virtual `Dimmer`: one relation to `([2], Dimmer)`. -/
def cfVirtA (k : RelationKind) : FixtureChannelFunction :=
  ⟨.Virtual [⟨k, [2], dimmerA⟩], cv 0, cv 1, cv 0⟩

def patchRel (k : RelationKind) : Patch :=
  ⟨[([1], ⟨[(dimmerA, cfVirtA k)]⟩), ([2], ⟨[(dimmerA, cfPhysB)]⟩)],
    Multiverse.new⟩

/-- A one-fixture patch whose physical `Dimmer` has default `0.5`; its
default multiverse carries the deposited byte `128` at the channel
function's address, as `build_from_showfile` produces. -/
def patchDefault : Patch :=
  ⟨[([1], ⟨[(dimmerA, ⟨.Physical [addrB], cv 0, cv 1, cv (1/2)⟩)]⟩)],
    Multiverse.new.set_value addrB 128⟩

/-! ## Verification-side criteria for the attribute codec

Decidable sufficient conditions under which a fallback pattern fails on
every display string of a family (`preI ++ digits ++ sufI`, digits
nonempty), and under which no literal arm matches such a string.  Their
soundness is proved below; `fam1Check`/`fam2Check` bundle the conditions
a family needs for its round trip. -/

/-- A byte on which `parseU8` must stop: neither a digit nor `+`. -/
def isStopChar (c : Nat) : Bool := !isDigitCode c && !(c = 43)

def hasStopChar (l : Str) : Bool := l.any isStopChar

/-- Criterion: `stripPrefixStr (preI ++ d ++ x) preJ` fails for every
nonempty digit string `d` (given `preJ` is not a prefix of `preI`). -/
def prefixFails (preJ preI : Str) : Bool :=
  match stripPrefixStr preJ preI with
  | some [] => false
  | some (c :: _) => !isDigitCode c
  | none => (stripPrefixStr preI preJ).isNone

/-- Criterion: a `.one` pattern fails on every `preI ++ d ++ sufI`. -/
def oneFailsOnN (preJ : Str) (sufJ : Option Str) (preI sufI : Str) : Bool :=
  match stripPrefixStr preI preJ with
  | none => prefixFails preJ preI
  | some restI =>
    match sufJ with
    | none => hasStopChar restI || hasStopChar sufI
    | some t =>
      match stripSuffixStr sufI t with
      | some sufI2 => hasStopChar restI || hasStopChar sufI2
      | none =>
        match stripSuffixStr t sufI with
        | some [] => false
        | some (c :: t2) => !isDigitCode ((c :: t2).getLastD 0)
        | none => true

/-- Criterion: a `.one` pattern fails on every `preI ++ d ++ midI ++ e`
(`d`, `e` nonempty digit strings). -/
def oneFailsOnNM (preJ : Str) (sufJ : Option Str) (preI midI : Str) : Bool :=
  match stripPrefixStr preI preJ with
  | none => prefixFails preJ preI
  | some restI =>
    match sufJ with
    | none => hasStopChar restI || hasStopChar midI
    | some [] => hasStopChar restI || hasStopChar midI
    | some (c :: t) => !isDigitCode ((c :: t).getLastD 0)

/-- Criterion: a `.two` pattern fails on every `preI ++ d ++ sufI`. -/
def twoFailsOnN (preJ midJ : Str) (preI sufI : Str) : Bool :=
  match stripPrefixStr preI preJ with
  | none => prefixFails preJ preI
  | some [] =>
    match midJ with
    | [] => false
    | c :: _ => !isDigitCode c && (findSub sufI midJ).isNone
  | some (_ :: _) => false

/-- Criterion: a `.two` pattern fails on every `preI ++ d ++ midI ++ e`. -/
def twoFailsOnNM (preJ _midJ : Str) (preI _midI : Str) : Bool :=
  match stripPrefixStr preI preJ with
  | none => prefixFails preJ preI
  | some _ => false

def patFailsOnN (p : FamPat) (preI sufI : Str) : Bool :=
  match p with
  | .one preJ sufJ _ => oneFailsOnN preJ sufJ preI sufI
  | .two preJ midJ _ => twoFailsOnN preJ midJ preI sufI

def patFailsOnNM (p : FamPat) (preI midI : Str) : Bool :=
  match p with
  | .one preJ sufJ _ => oneFailsOnNM preJ sufJ preI midI
  | .two preJ midJ _ => twoFailsOnNM preJ midJ preI midI

/-- Does a literal key have the form `preI ++ d ++ sufI` with `d` a
nonempty digit string? -/
def litMatchesN (preI sufI key : Str) : Bool :=
  match stripPrefixStr key preI with
  | some r =>
    match stripSuffixStr r sufI with
    | some mid => !mid.isEmpty && mid.all isDigitCode
    | none => false
  | none => false

/-- Does a literal key have the form `preI ++ d ++ midI ++ e` with `d`,
`e` nonempty digit strings? -/
def litMatchesNM (preI midI key : Str) : Bool :=
  match stripPrefixStr key preI with
  | some r =>
    let d := r.takeWhile isDigitCode
    let rest := r.dropWhile isDigitCode
    !d.isEmpty &&
      (match stripPrefixStr rest midI with
       | some e => !e.isEmpty && e.all isDigitCode
       | none => false)
  | none => false

/-- The part of the chain strictly before the first occurrence of `pat`. -/
def chainSplit (pat : FamPat) : List FamPat → Option (List FamPat)
  | [] => none
  | p :: ps => if p = pat then some [] else (chainSplit pat ps).map (p :: ·)

/-- The chain pattern a one-index family's display form corresponds to. -/
def fam1Pat (f : Fam1) : FamPat :=
  .one f.dispPre (if f.dispSuf.isEmpty then none else some f.dispSuf) f

/-- The round-trip conditions for a one-index family: its pattern occurs
in the chain, every earlier pattern fails on its display shape, and no
literal arm captures the display shape. -/
def fam1Check (f : Fam1) : Bool :=
  match chainSplit (fam1Pat f) attrChain with
  | none => false
  | some pre =>
    pre.all (fun p => patFailsOnN p f.dispPre f.dispSuf)
      && attrLiterals.all (fun kv => !litMatchesN f.dispPre f.dispSuf kv.fst)

def fam2Pat (f : Fam2) : FamPat := .two f.dispPre f.dispMid f

/-- The round-trip conditions for a two-index family. -/
def fam2Check (f : Fam2) : Bool :=
  match chainSplit (fam2Pat f) attrChain with
  | none => false
  | some pre =>
    pre.all (fun p => patFailsOnNM p f.dispPre f.dispMid)
      && attrLiterals.all (fun kv => !litMatchesNM f.dispPre f.dispMid kv.fst)
      && (match f.dispMid with
          | [] => false
          | c :: _ => !isDigitCode c)

def Attribute.isCustom : Attribute → Bool
  | .Custom _ => true
  | _ => false

/-- The variants excluded by the corrected round-trip claim: exactly those
whose display and parse forms disagree. -/
def Attribute.excepted : Attribute → Bool
  | .plain p => brokenPlain p
  | .fam1 f _ => brokenFam1 f
  | _ => false

/-- The pending map after merging a request's values, as
`process_set_attribute_values` produces it (named for use in hypotheses). -/
def ServerState.merged_values (s : ServerState) (v : AttributeValues) :
    AttributeValues :=
  v.foldl (fun av kv => av.set kv.fst.fst kv.fst.snd kv.snd)
    s.pending_attribute_values

/-- The pairwise relation the registration check actually maintains: the
later fixture's *base* address lies outside the earlier fixture's
`[base, base + channel_count)` range. -/
def baseDisjoint (f g : GdcsFixture) : Prop :=
  ¬(f.base ≤ g.base ∧ g.base < f.base + f.channel_count)

/-! # Theorems -/

theorem Multiverse.get_set_same (m : Multiverse) (a : Address) (v : Nat) :
    (m.set_value a v).get_value a = v := by
  simp [Multiverse.set_value, Multiverse.get_value, Universe.set_value,
    Universe.get_value]

theorem Multiverse.get_set_other (m : Multiverse) (a b : Address) (v : Nat)
    (h : b ≠ a) : (m.set_value a v).get_value b = m.get_value b := by
  unfold Multiverse.set_value Multiverse.get_value Universe.set_value Universe.get_value
  by_cases hu : b.univ = a.univ
  · have hc : b.channel ≠ a.channel := by
      intro hc; exact h (by cases a; cases b; simp_all)
    simp only [hu, if_pos rfl]
    cases m a.univ <;> simp [Universe.new, hc]
  · simp [hu]

/-- Writing a pair list leaves every address outside it unchanged. -/
theorem Multiverse.get_set_values_of_not_mem (l : List (Address × Nat))
    (m : Multiverse) (a : Address) (h : ∀ p ∈ l, p.fst ≠ a) :
    (m.set_values l).get_value a = m.get_value a := by
  induction l generalizing m with
  | nil => rfl
  | cons p rest ih =>
    obtain ⟨b, v⟩ := p
    have hb : a ≠ b := Ne.symm (h (b, v) (List.mem_cons_self _ _))
    rw [Multiverse.set_values, ih _ (fun q hq => h q (List.mem_cons_of_mem _ hq)),
      Multiverse.get_set_other m b a v hb]

/-- Writing a pair list with distinct addresses realises each pair. -/
theorem Multiverse.get_set_values_of_mem (l : List (Address × Nat))
    (m : Multiverse) (a : Address) (b : Nat)
    (hnd : (l.map Prod.fst).Nodup) (hm : (a, b) ∈ l) :
    (m.set_values l).get_value a = b := by
  induction l generalizing m with
  | nil => cases hm
  | cons p rest ih =>
    obtain ⟨c, v⟩ := p
    rw [List.map_cons, List.nodup_cons] at hnd
    rcases List.mem_cons.mp hm with heq | hmem
    · obtain ⟨rfl, rfl⟩ : a = c ∧ b = v :=
        ⟨congrArg Prod.fst heq, congrArg Prod.snd heq⟩
      rw [Multiverse.set_values,
        Multiverse.get_set_values_of_not_mem rest _ a
          (fun q hq hqa => hnd.1 (List.mem_map.mpr ⟨q, hq, hqa⟩)),
        Multiverse.get_set_same]
    · rw [Multiverse.set_values]
      exact ih (m.set_value c v) hnd.2 hmem

/-- `rustRound` of a value in `[0, N]` lands in `[0, N]`. -/
theorem rustRound_mem (q : ℚ) (N : Nat) (h0 : 0 ≤ q) (h1 : q ≤ (N : ℚ)) :
    0 ≤ rustRound q ∧ rustRound q ≤ (N : ℤ) := by
  rw [rustRound, if_pos h0]
  constructor
  · exact Int.le_floor.mpr (by push_cast; linarith)
  · rw [Int.floor_le_iff]; push_cast; linarith

/-- For in-range inputs the clamp after rounding is the identity. -/
theorem roundClamp_eq (q : ℚ) (N : Nat) (h0 : 0 ≤ q) (h1 : q ≤ (N : ℚ)) :
    roundClamp q N = (rustRound q).toNat ∧ (rustRound q).toNat ≤ N := by
  obtain ⟨hl, hr⟩ := rustRound_mem q N h0 h1
  rw [roundClamp, min_eq_left hr]
  omega


theorem to_address_values_1 (v : ClampedValue) (addresses : List Address)
    (h : addresses.length = 1) :
    v.to_address_values addresses = addresses.zip [v.to_u8] := by
  unfold ClampedValue.to_address_values; rw [h]

theorem to_address_values_2 (v : ClampedValue) (addresses : List Address)
    (h : addresses.length = 2) :
    v.to_address_values addresses = addresses.zip v.to_u16_bytes := by
  unfold ClampedValue.to_address_values; rw [h]

theorem to_address_values_3 (v : ClampedValue) (addresses : List Address)
    (h : addresses.length = 3) :
    v.to_address_values addresses = addresses.zip v.to_u24_bytes := by
  unfold ClampedValue.to_address_values; rw [h]

theorem to_address_values_4 (v : ClampedValue) (addresses : List Address)
    (h : addresses.length = 4) :
    v.to_address_values addresses = addresses.zip v.to_u32_bytes := by
  unfold ClampedValue.to_address_values; rw [h]

theorem to_address_values_other (v : ClampedValue) (addresses : List Address)
    (h : ¬(addresses.length = 1 ∨ addresses.length = 2 ∨
        addresses.length = 3 ∨ addresses.length = 4)) :
    v.to_address_values addresses = [] := by
  unfold ClampedValue.to_address_values
  generalize hn : addresses.length = n at h
  rcases n with _ | _ | _ | _ | _ | n
  · rfl
  · exact absurd (Or.inl rfl) h
  · exact absurd (Or.inr (Or.inl rfl)) h
  · exact absurd (Or.inr (Or.inr (Or.inl rfl))) h
  · exact absurd (Or.inr (Or.inr (Or.inr rfl))) h
  · rfl

/-- **C1..C4 groundwork / C5**: for an in-range value, the byte lists the
source produces are the specification's big-endian digits. -/
theorem bytes_eq_spec (v : ClampedValue) (h0 : 0 ≤ v.val) (h1 : v.val ≤ 1) :
    [v.to_u8] = specBytes v.val 1 ∧
    v.to_u16_bytes = specBytes v.val 2 ∧
    v.to_u24_bytes = specBytes v.val 3 ∧
    v.to_u32_bytes = specBytes v.val 4 := by
  refine ⟨?_, ?_, ?_, ?_⟩
  · obtain ⟨he, hle⟩ := roundClamp_eq (v.val * 255) 255
      (mul_nonneg h0 (by norm_num)) (by push_cast; linarith)
    simp only [ClampedValue.to_u8, specBytes, List.range_succ, List.range_zero,
      List.map_append, List.map_cons, List.map_nil, List.nil_append]
    norm_num
    rw [he, Nat.mod_eq_of_lt (by omega)]
  · obtain ⟨he, hle⟩ := roundClamp_eq (v.val * 65535) 65535
      (mul_nonneg h0 (by norm_num)) (by push_cast; linarith)
    simp only [ClampedValue.to_u16_bytes, specBytes, List.range_succ,
      List.range_zero, List.map_append, List.map_cons, List.map_nil,
      List.nil_append]
    norm_num
    rw [he]
    constructor
    · rw [Nat.mod_eq_of_lt (by omega)]
    · rfl
  · obtain ⟨he, hle⟩ := roundClamp_eq (v.val * 16777215) 16777215
      (mul_nonneg h0 (by norm_num)) (by push_cast; linarith)
    simp only [ClampedValue.to_u24_bytes, specBytes, List.range_succ,
      List.range_zero, List.map_append, List.map_cons, List.map_nil,
      List.nil_append]
    norm_num
    rw [he]
    exact ⟨rfl, rfl, rfl⟩
  · obtain ⟨he, hle⟩ := roundClamp_eq (v.val * 4294967295) 4294967295
      (mul_nonneg h0 (by norm_num)) (by push_cast; linarith)
    simp only [ClampedValue.to_u32_bytes, specBytes, List.range_succ,
      List.range_zero, List.map_append, List.map_cons, List.map_nil,
      List.nil_append]
    norm_num
    rw [he]
    exact ⟨rfl, rfl, rfl, rfl⟩

/-- **C5** (confirmed): encoding a `ClampedValue` onto a list of `k`
addresses writes, for `k ∈ {1,2,3,4}`, the big-endian bytes of
`round(v * (2^(8k) - 1))` in order, most-significant byte to the first
address; for every other list length it writes nothing to the
multiverse. -/
theorem claim_C5_encoding (v : ClampedValue) (addresses : List Address)
    (h0 : 0 ≤ v.val) (h1 : v.val ≤ 1) :
    (∀ k, addresses.length = k → k = 1 ∨ k = 2 ∨ k = 3 ∨ k = 4 →
      v.to_address_values addresses = addresses.zip (specBytes v.val k)) ∧
    (¬(addresses.length = 1 ∨ addresses.length = 2 ∨ addresses.length = 3 ∨
        addresses.length = 4) →
      ∀ (m : Multiverse) (a : Address),
        (m.set_values (v.to_address_values addresses)).get_value a =
          m.get_value a) := by
  obtain ⟨hb1, hb2, hb3, hb4⟩ := bytes_eq_spec v h0 h1
  constructor
  · rintro k hk (rfl | rfl | rfl | rfl)
    · rw [to_address_values_1 v addresses hk, hb1]
    · rw [to_address_values_2 v addresses hk, hb2]
    · rw [to_address_values_3 v addresses hk, hb3]
    · rw [to_address_values_4 v addresses hk, hb4]
  · intro h m a
    rw [to_address_values_other v addresses h, Multiverse.set_values]

/-- Witness for C5 at `v = 0.5` on a two-address (16-bit) channel. -/
theorem claim_C5_encoding_witness :
    (cv (1/2)).to_address_values [⟨1, 1⟩, ⟨1, 2⟩] =
      [(⟨1, 1⟩ : Address), ⟨1, 2⟩].zip (specBytes (1/2) 2) :=
  (claim_C5_encoding (cv (1/2)) [⟨1, 1⟩, ⟨1, 2⟩]
      (by norm_num [cv]) (by norm_num [cv])).1 2 rfl (by norm_num)

/-- Evaluate `to_u8` by exhibiting the rounded integer. -/
theorem to_u8_eval (c : ClampedValue) (n : Nat) (h0 : 0 ≤ c.val)
    (h1 : (n : ℚ) ≤ c.val * 255 + 1/2) (h2 : c.val * 255 + 1/2 < n + 1)
    (hn : n ≤ 255) : c.to_u8 = n := by
  have hr : rustRound (c.val * 255) = (n : ℤ) := by
    rw [rustRound, if_pos (mul_nonneg h0 (by norm_num)), Int.floor_eq_iff]
    constructor
    · push_cast; linarith
    · push_cast; linarith
  rw [ClampedValue.to_u8, roundClamp, hr,
    min_eq_left (by exact_mod_cast hn : (n : ℤ) ≤ (255 : Nat))]
  omega

/-- The `Override` scenario of the example patch evaluates to a single
write of the leader value at fixture `[2]`'s address. -/
theorem resolve_override_eval (v : ClampedValue) :
    Resolver.resolve [(([1], dimmerA), v)] (patchRel .Override) Multiverse.new
      = Multiverse.new.set_value addrB v.to_u8 := rfl

/-- The `Multiply` scenario evaluates to fixture `[2]`'s own write followed
by the deferred product write. -/
theorem resolve_multiply_eval (v w : ClampedValue) :
    Resolver.resolve [(([1], dimmerA), v), (([2], dimmerA), w)]
        (patchRel .Multiply) Multiverse.new
      = (Multiverse.new.set_value addrB w.to_u8).set_value addrB
          (ClampedValue.new (w.as_f32 * v.as_f32)).to_u8 := rfl

/-- **C3** (confirmed): on the two-fixture example patch — fixture `[1]`
carries a virtual `Dimmer` whose single relation targets fixture `[2]`'s
physical single-address `Dimmer` — an `Override` relation with pending
value `0.25` for `[1]` makes the resolver write `round(0.25 * 255) = 64`
to `[2]`'s address and nothing anywhere else; a `Multiply` relation with
pending values `0.5` for both fixtures ends with `round(0.25 * 255) = 64`
at `[2]`'s address. -/
theorem claim_C3_relations :
    ((Resolver.resolve [(([1], dimmerA), cv (1/4))] (patchRel .Override)
        Multiverse.new).get_value addrB = 64
      ∧ ∀ a : Address, a ≠ addrB →
        (Resolver.resolve [(([1], dimmerA), cv (1/4))] (patchRel .Override)
          Multiverse.new).get_value a = 0)
    ∧ (Resolver.resolve [(([1], dimmerA), cv (1/2)), (([2], dimmerA), cv (1/2))]
        (patchRel .Multiply) Multiverse.new).get_value addrB = 64 := by
  refine ⟨⟨?_, ?_⟩, ?_⟩
  · rw [resolve_override_eval, Multiverse.get_set_same]
    exact to_u8_eval _ 64 (by norm_num [cv]) (by norm_num [cv])
      (by norm_num [cv]) (by norm_num)
  · intro a ha
    rw [resolve_override_eval, Multiverse.get_set_other _ _ _ _ ha]
    rfl
  · rw [resolve_multiply_eval, Multiverse.get_set_same]
    exact to_u8_eval _ 64 (by norm_num [ClampedValue.new])
      (by norm_num [ClampedValue.new, ClampedValue.as_f32, cv])
      (by norm_num [ClampedValue.new, ClampedValue.as_f32, cv]) (by norm_num)

/-- Witness for the universal part of C3: an address other than `[2]`'s is
untouched. -/
theorem claim_C3_relations_witness :
    (Resolver.resolve [(([1], dimmerA), cv (1/4))] (patchRel .Override)
      Multiverse.new).get_value ⟨1, 6⟩ = 0 :=
  claim_C3_relations.1.2 ⟨1, 6⟩ (by decide)

/-- The deferred pass only changes the multiverse through `Physical`
targets; deferrals it generates itself never reach the multiverse. -/
theorem second_pass_multiverse (av : AttributeValues) (patch : Patch) :
    ∀ (l : List (Relation × ClampedValue)) (s : ResolverState),
      (l.foldl (fun s rv =>
        match patch.channel_function? rv.fst.fixture_path rv.fst.attr with
        | some cf => Resolver.set_channel_function_value av cf rv.snd s
        | none => s) s).multiverse
      = l.foldl (fun m rv =>
        match patch.channel_function? rv.fst.fixture_path rv.fst.attr with
        | some cf =>
          match cf.kind with
          | .Physical addresses =>
            m.set_values (rv.snd.to_address_values addresses)
          | .Virtual _ => m
        | none => m) s.multiverse := by
  intro l
  induction l with
  | nil => intro s; rfl
  | cons rv rest ih =>
    intro s
    rw [List.foldl_cons, List.foldl_cons, ih]
    congr 1
    cases hcf : patch.channel_function? rv.fst.fixture_path rv.fst.attr with
    | none => rfl
    | some cf => obtain ⟨k, mn, mx, df⟩ := cf; cases k <;> rfl

/-- **C4** (confirmed): the resolver is exactly one pass over the fixtures
followed by one pure drain of the deferred list collected in that pass:
a deferred write whose target channel function is `Virtual` leaves the
multiverse unchanged (its relations are only re-deferred, and the
resolver drops that second-level list on return), so no deferral chain of
any length is followed further. -/
theorem claim_C4_one_pass (av : AttributeValues) (patch : Patch)
    (m0 : Multiverse) :
    Resolver.resolve av patch m0 =
      (Resolver.first_pass av patch m0).deferred.foldl (fun m rv =>
        match patch.channel_function? rv.fst.fixture_path rv.fst.attr with
        | some cf =>
          match cf.kind with
          | .Physical addresses =>
            m.set_values (rv.snd.to_address_values addresses)
          | .Virtual _ => m
        | none => m) (Resolver.first_pass av patch m0).multiverse :=
  second_pass_multiverse av patch _ _

/-- **C2** (refuted — the code never reads the default multiverse): on a
patch whose only channel function has default `0.5` and whose default
multiverse carries the corresponding byte `128`, a fresh server answers a
DMX-output request with byte `0` at the channel function's address: the
output multiverse starts empty and no resolve seeds it from
`patch.default_multiverse`. -/
theorem claim_C2_default_not_seeded :
    ((ServerState.new patchDefault).process_dmx_output).2.get_value addrB = 0
    ∧ patchDefault.default_multiverse.get_value addrB = 128
    ∧ (patchDefault.channel_function? [1] dimmerA).map (fun cf => cf.dfault)
        = some (cv (1/2))
    ∧ (0 : Nat) ≠ 128 := by
  refine ⟨rfl, rfl, rfl, by decide⟩

/-- **C8** (refuted — the length prefix is consumed): on a buffer holding
the 4-byte length prefix (`5`) and one of the five payload bytes,
`PacketDecoder::decode` returns no packet but leaves only the single
payload byte in the buffer — the prefix is gone — so when the remaining
four bytes arrive, the stale payload byte is parsed as a length prefix
(here `101124105`) and the frame is never produced.  The sibling `ServerboundPacketDecoder` keeps the buffer
intact as the specification describes. -/
theorem claim_C8_prefix_consumed :
    PacketDecoder.decode [5, 0, 0, 0, 9] = .ok (none, [9])
    ∧ [9] ≠ [5, 0, 0, 0, 9]
    ∧ PacketDecoder.decode [9, 8, 7, 6, 5] = .ok (none, [5])
    ∧ ServerboundPacketDecoder.decode [5, 0, 0, 0, 9]
        = .ok (none, [5, 0, 0, 0, 9])
    ∧ ServerboundPacketDecoder.decode [5, 0, 0, 0, 9, 8, 7, 6, 5]
        = .ok (some [5, 0, 0, 0, 9, 8, 7, 6, 5], []) := by
  refine ⟨rfl, by decide, by rfl, rfl, by rfl⟩

/-- A successful registration appends a fixture whose base is outside
every registered range, preserving the pairwise base-disjointness. -/
theorem register_preserves_pairwise (g : Gdcs) (fx : GdcsFixture) (g' : Gdcs)
    (hreg : g.register_fixture fx = .ok g')
    (hp : g.fixtures.Pairwise baseDisjoint) :
    g'.fixtures.Pairwise baseDisjoint := by
  unfold Gdcs.register_fixture at hreg
  split_ifs at hreg with h1 h2
  cases hreg
  have havail : g.address_available fx.base = true := by
    revert h2; cases g.address_available fx.base <;> simp
  rw [Gdcs.address_available] at havail
  simp only [Bool.not_eq_true', List.any_eq_false, Bool.and_eq_true,
    decide_eq_true_eq, not_and] at havail
  refine List.pairwise_append.mpr ⟨hp, List.pairwise_singleton _ _, ?_⟩
  intro a ha b hb
  rw [List.mem_singleton] at hb
  subst hb
  intro hc
  exact havail a ha hc.1 hc.2

/-- After any registration sequence the pairwise base-disjointness
invariant holds. -/
theorem register_all_pairwise (l : List GdcsFixture) :
    ∀ g : Gdcs, g.fixtures.Pairwise baseDisjoint →
      ((g.register_all l).fixtures).Pairwise baseDisjoint := by
  induction l with
  | nil => intro g hp; exact hp
  | cons fx rest ih =>
    intro g hp
    have heq : Gdcs.register_all g (fx :: rest)
        = Gdcs.register_all (match g.register_fixture fx with
            | .ok g' => g' | .error _ => g) rest := rfl
    rw [heq]
    cases hreg : g.register_fixture fx with
    | ok g' => exact ih g' (register_preserves_pairwise g fx g' hreg hp)
    | error e => exact ih g hp

/-- **C9** counterexample: two fixtures whose occupied address sets overlap
(absolute address `10` lies in both) both register successfully, because
`address_available` is consulted only for the *base* address of the new
fixture: fixture `2` has base `8`, outside fixture `1`'s range `[10, 13)`,
even though its three channels reach into it. -/
theorem claim_C9_counterexample :
    (Gdcs.empty.register_all [⟨1, 10, 3, [10, 12]⟩, ⟨2, 8, 3, [8, 10]⟩]).fixtures
        = [⟨1, 10, 3, [10, 12]⟩, ⟨2, 8, 3, [8, 10]⟩]
    ∧ ((⟨[⟨1, 10, 3, [10, 12]⟩]⟩ : Gdcs).register_fixture ⟨2, 8, 3, [8, 10]⟩
        = .ok ⟨[⟨1, 10, 3, [10, 12]⟩, ⟨2, 8, 3, [8, 10]⟩]⟩)
    ∧ 10 ∈ (⟨1, 10, 3, [10, 12]⟩ : GdcsFixture).phys
    ∧ 10 ∈ (⟨2, 8, 3, [8, 10]⟩ : GdcsFixture).phys
    ∧ (⟨1, 10, 3, [10, 12]⟩ : GdcsFixture).root_id
        ≠ (⟨2, 8, 3, [8, 10]⟩ : GdcsFixture).root_id :=
  ⟨rfl, rfl, by decide, by decide, by decide⟩

/-- **C9** (corrected): what registration actually guarantees is the
weaker pairwise invariant that a later fixture's *base* address lies
outside every earlier fixture's `[base, base + channel_count)` range —
overlap of the occupied ranges themselves is not prevented (see the
counterexample) — and a fixture whose base address *is* already mapped is
rejected with `AddressAlreadyMapped`, leaving the system unchanged. -/
theorem claim_C9_amended :
    (∀ l : List GdcsFixture,
      ((Gdcs.empty.register_all l).fixtures).Pairwise baseDisjoint)
    ∧ (∀ (g : Gdcs) (fx : GdcsFixture),
        (∀ f ∈ g.fixtures, f.root_id ≠ fx.root_id) →
        g.address_available fx.base = false →
        g.register_fixture fx = .error .AddressAlreadyMapped) := by
  constructor
  · intro l
    exact register_all_pairwise l Gdcs.empty List.Pairwise.nil
  · intro g fx hroot havail
    have h1 : g.fixtures.any (fun f => f.root_id = fx.root_id) = false := by
      simp only [List.any_eq_false, decide_eq_true_eq]
      exact hroot
    rw [Gdcs.register_fixture, h1, havail]
    rfl

/-- Witness for C9: the overlapping pair keeps bases disjoint, and a new
fixture whose base `11` falls inside the registered range `[10, 13)` is
rejected. -/
theorem claim_C9_amended_witness :
    ((Gdcs.empty.register_all
        [⟨1, 10, 3, [10, 12]⟩, ⟨2, 8, 3, [8, 10]⟩]).fixtures).Pairwise
      baseDisjoint
    ∧ (⟨[⟨1, 10, 3, [10, 12]⟩]⟩ : Gdcs).register_fixture ⟨2, 11, 2, [11, 12]⟩
        = .error .AddressAlreadyMapped :=
  ⟨claim_C9_amended.1 _, claim_C9_amended.2 _ _ (by decide) (by decide)⟩

/-- `clamp01` of a non-NaN float is a finite value in `[0, 1]`. -/
theorem clamp01_fin (x : Float32) (h : x ≠ .nan) :
    ∃ q : ℚ, x.clamp01 = .fin q ∧ 0 ≤ q ∧ q ≤ 1 := by
  cases x with
  | nan => exact absurd rfl h
  | inf b =>
    cases b with
    | false => exact ⟨1, rfl, by norm_num, le_refl 1⟩
    | true => exact ⟨0, rfl, le_refl 0, by norm_num⟩
  | fin q =>
    exact ⟨min 1 (max 0 q), rfl, le_min (by norm_num) (le_max_left 0 q),
      min_le_left 1 _⟩

/-- An in-range clamped value is finite with value in `[0, 1]`. -/
theorem inRange_fin (c : ClampedValue32) (h : c.inRange = true) :
    ∃ q : ℚ, c.val = .fin q ∧ 0 ≤ q ∧ q ≤ 1 := by
  obtain ⟨v⟩ := c
  cases v with
  | nan => exact absurd h (by decide)
  | inf b => cases b <;> exact absurd h (by decide)
  | fin q =>
    have h' : 0 ≤ q ∧ q ≤ 1 := by
      simpa [ClampedValue32.inRange, Float32.le] using h
    exact ⟨q, rfl, h'.1, h'.2⟩

/-- `ClampedValue::new` of a non-NaN float is in range. -/
theorem new_inRange (x : Float32) (h : x ≠ .nan) :
    (ClampedValue32.new x).inRange = true := by
  obtain ⟨q, hq, h0, h1⟩ := clamp01_fin x h
  show (⟨x.clamp01⟩ : ClampedValue32).inRange = true
  rw [hq]
  simp [ClampedValue32.inRange, Float32.le, h0, h1]

/-- **C10** counterexample: `f32::clamp` propagates NaN, so the
`ClampedValue` constructed from NaN does *not* satisfy
`0.0 <= value <= 1.0` (both Rust comparisons are false for NaN). -/
theorem claim_C10_counterexample :
    (ClampedValue32.new .nan).inRange = false
    ∧ (ClampedValue32.new .nan).val = .nan :=
  ⟨rfl, rfl⟩

/-- **C10** (corrected): for every *non-NaN* input — including both
infinities — construction and `set` produce a value in `[0, 1]`, and the
bound is preserved by `lerp` (for non-NaN `t`) and by the relation
product; the NaN input is the sole exception (see the counterexample). -/
theorem claim_C10_amended :
    (∀ x : Float32, x ≠ .nan → (ClampedValue32.new x).inRange = true)
    ∧ (∀ (c : ClampedValue32) (x : Float32), x ≠ .nan →
        (c.set x).inRange = true)
    ∧ (∀ (a b : ClampedValue32) (t : Float32), a.inRange = true →
        b.inRange = true → t ≠ .nan → (a.lerp b t).inRange = true)
    ∧ (∀ a b : ClampedValue32, a.inRange = true → b.inRange = true →
        (a.relMul b).inRange = true) := by
  refine ⟨fun x h => new_inRange x h, fun c x h => new_inRange x h,
    ?_, ?_⟩
  · intro a b t ha hb ht
    obtain ⟨qa, hqa, _, _⟩ := inRange_fin a ha
    obtain ⟨qb, hqb, _, _⟩ := inRange_fin b hb
    obtain ⟨qt, hqt, _, _⟩ := clamp01_fin t ht
    show (ClampedValue32.new
      ((a.val.mul t.clamp01.sub1).add (b.val.mul t.clamp01))).inRange = true
    rw [hqa, hqb, hqt]
    exact new_inRange _ (by simp [Float32.mul, Float32.sub1, Float32.add])
  · intro a b ha hb
    obtain ⟨qa, hqa, _, _⟩ := inRange_fin a ha
    obtain ⟨qb, hqb, _, _⟩ := inRange_fin b hb
    show (ClampedValue32.new (a.val.mul b.val)).inRange = true
    rw [hqa, hqb]
    exact new_inRange _ (by simp [Float32.mul])

/-- Witness for C10 at `x = +∞` and at two finite in-range values. -/
theorem claim_C10_amended_witness :
    (ClampedValue32.new (.inf false)).inRange = true
    ∧ ((⟨.fin (1/2)⟩ : ClampedValue32).relMul ⟨.fin (1/2)⟩).inRange = true :=
  ⟨claim_C10_amended.1 _ (by simp),
   claim_C10_amended.2.2.2 _ _
     (by norm_num [ClampedValue32.inRange, Float32.le])
     (by norm_num [ClampedValue32.inRange, Float32.le])⟩

/-- **C1** counterexample: the pending physical value of fixture `[2]`'s
`Dimmer` (1.0, encoding 255) is clobbered by the deferred `Override`
relation write of fixture `[1]`'s virtual `Dimmer` (0.25, encoding 64):
the returned multiverse holds 64 at `[2]`'s address, not 255. -/
theorem claim_C1_counterexample :
    (patchRel .Override).channel_function? [2] dimmerA = some cfPhysB
    ∧ cfPhysB.kind = .Physical [addrB]
    ∧ (cv 1).to_address_values [addrB] = [(addrB, 255)]
    ∧ (((ServerState.new (patchRel .Override)).process_set_attribute_values
          [(([1], dimmerA), cv (1/4)), (([2], dimmerA), cv 1)]
        ).process_dmx_output).2.get_value addrB = 64
    ∧ (64 : Nat) ≠ 255 := by
  have h255 : (cv 1).to_u8 = 255 :=
    to_u8_eval _ 255 (by norm_num [cv]) (by norm_num [cv]) (by norm_num [cv])
      (by norm_num)
  have h64 : (cv (1/4)).to_u8 = 64 :=
    to_u8_eval _ 64 (by norm_num [cv]) (by norm_num [cv]) (by norm_num [cv])
      (by norm_num)
  refine ⟨rfl, rfl, ?_, ?_, by decide⟩
  · rw [to_address_values_1 (cv 1) [addrB] rfl, h255]
    rfl
  · have heval : (((ServerState.new (patchRel .Override)).process_set_attribute_values
          [(([1], dimmerA), cv (1/4)), (([2], dimmerA), cv 1)]
        ).process_dmx_output).2
        = ((((Multiverse.new.set_value addrB (cv 1).to_u8).set_value addrB
            (cv (1/4)).to_u8).set_value addrB (cv 1).to_u8).set_value addrB
            (cv (1/4)).to_u8) := rfl
    rw [heval, Multiverse.get_set_same, h64]

/-- The first entry of an association list with `Nodup` keys whose key
matches is the entry itself. -/
theorem find_eq_of_mem_nodup {α β : Type} [DecidableEq α]
    (l : List (α × β)) (hnd : (l.map Prod.fst).Nodup) (x : α) (y : β)
    (h : (x, y) ∈ l) :
    l.find? (fun kv => kv.fst = x) = some (x, y) := by
  induction l with
  | nil => cases h
  | cons p rest ih =>
    rw [List.map_cons, List.nodup_cons] at hnd
    rcases List.mem_cons.mp h with heq | hmem
    · subst heq
      exact List.find?_cons_of_pos _ (by simp)
    · have hx : p.fst ≠ x := by
        intro hpx
        exact hnd.1 (by rw [hpx]; exact List.mem_map.mpr ⟨(x, y), hmem, rfl⟩)
      rw [List.find?_cons_of_neg _ (by simp [hx])]
      exact ih hnd.2 hmem

theorem AttributeValues.get_of_mem (av : AttributeValues)
    (hnd : (av.map Prod.fst).Nodup) (path : FixturePath) (a : Attribute)
    (val : ClampedValue) (h : ((path, a), val) ∈ av) :
    av.get path a = some val := by
  rw [AttributeValues.get, find_eq_of_mem_nodup av hnd _ _ h]
  rfl

/-- The channel function `Nodup` association lists hold for a member. -/
theorem Patch.channel_function?_of_mem (patch : Patch) (path : FixturePath)
    (f : Fixture) (a : Attribute) (cf : FixtureChannelFunction)
    (hnd1 : (patch.fixtures.map Prod.fst).Nodup)
    (hf : (path, f) ∈ patch.fixtures)
    (hnd2 : (f.channel_functions.map Prod.fst).Nodup)
    (hcf : (a, cf) ∈ f.channel_functions) :
    patch.channel_function? path a = some cf := by
  rw [Patch.channel_function?, Patch.fixture?,
    find_eq_of_mem_nodup _ hnd1 _ _ hf]
  show f.channel_function a = some cf
  rw [Fixture.channel_function, find_eq_of_mem_nodup _ hnd2 _ _ hcf]
  rfl

/-- `set` on a list whose head key differs passes the head through. -/
theorem AttributeValues.set_cons_ne (kv : (FixturePath × Attribute) × ClampedValue)
    (rest : AttributeValues) (path : FixturePath) (a : Attribute)
    (v : ClampedValue) (h : kv.fst ≠ (path, a)) :
    AttributeValues.set (kv :: rest) path a v
      = kv :: AttributeValues.set rest path a v := by
  rw [AttributeValues.set, AttributeValues.set,
    List.find?_cons_of_neg _ (by simp [h])]
  by_cases hf : (rest.find? (fun kv => kv.fst = (path, a))).isSome
  · rw [if_pos hf, if_pos hf, List.map_cons, if_neg h]
  · rw [if_neg hf, if_neg hf]
    rfl

theorem AttributeValues.set_cons_eq (kv : (FixturePath × Attribute) × ClampedValue)
    (rest : AttributeValues) (path : FixturePath) (a : Attribute)
    (v : ClampedValue) (h : kv.fst = (path, a)) :
    AttributeValues.set (kv :: rest) path a v
      = (kv.fst, v)
          :: rest.map (fun kv' => if kv'.fst = (path, a) then (kv'.fst, v) else kv') := by
  rw [AttributeValues.set]
  rw [if_pos (by rw [List.find?_cons_of_pos _ (by simp [h])]; rfl)]
  rw [List.map_cons, if_pos h]

theorem AttributeValues.av_get_set_same (av : AttributeValues) (path : FixturePath)
    (a : Attribute) (v : ClampedValue) :
    (av.set path a v).get path a = some v := by
  induction av with
  | nil => simp [AttributeValues.set, AttributeValues.get]
  | cons kv rest ih =>
    by_cases hk : kv.fst = (path, a)
    · rw [AttributeValues.set_cons_eq kv rest path a v hk, AttributeValues.get,
        List.find?_cons_of_pos _ (by simp [hk])]
      rfl
    · rw [AttributeValues.set_cons_ne kv rest path a v hk, AttributeValues.get,
        List.find?_cons_of_neg _ (by simp [hk])]
      simpa [AttributeValues.get] using ih

theorem AttributeValues.get_set_ne (av : AttributeValues) (p' : FixturePath)
    (a' : Attribute) (v' : ClampedValue) (path : FixturePath) (a : Attribute)
    (h : (p', a') ≠ (path, a)) :
    (av.set p' a' v').get path a = av.get path a := by
  induction av with
  | nil =>
    simp [AttributeValues.set, AttributeValues.get, h]
  | cons kv rest ih =>
    by_cases hk : kv.fst = (p', a')
    · have hkv : kv.fst ≠ (path, a) := by rw [hk]; exact h
      rw [AttributeValues.set_cons_eq kv rest p' a' v' hk, AttributeValues.get,
        List.find?_cons_of_neg _ (by simp [hkv]), AttributeValues.get,
        List.find?_cons_of_neg _ (by simp [hkv]), List.find?_map]
      have hco : ((fun kv => decide (kv.fst = (path, a))) ∘
          (fun kv' : (FixturePath × Attribute) × ClampedValue =>
            if kv'.fst = (p', a') then (kv'.fst, v') else kv'))
          = (fun kv : (FixturePath × Attribute) × ClampedValue =>
              decide (kv.fst = (path, a))) := by
        funext kv'
        by_cases hc : kv'.fst = (p', a') <;> simp [hc]
      rw [hco]
      cases hfr : rest.find? (fun kv => decide (kv.fst = (path, a))) with
      | none => rfl
      | some kv1 =>
        have h1 : kv1.fst = (path, a) := by simpa using List.find?_some hfr
        have h2 : kv1.fst ≠ (p', a') := by rw [h1]; exact Ne.symm h
        simp [h2]
    · rw [AttributeValues.set_cons_ne kv rest p' a' v' hk]
      by_cases hkv : kv.fst = (path, a)
      · rw [AttributeValues.get, List.find?_cons_of_pos _ (by simp [hkv]),
          AttributeValues.get, List.find?_cons_of_pos _ (by simp [hkv])]
      · rw [AttributeValues.get, List.find?_cons_of_neg _ (by simp [hkv]),
          AttributeValues.get, List.find?_cons_of_neg _ (by simp [hkv])]
        simpa [AttributeValues.get] using ih

/-- Folding a request with `Nodup` keys into the pending map realises each
of its entries. -/
theorem get_foldl_set (v av0 : AttributeValues) (path : FixturePath)
    (a : Attribute) (val : ClampedValue)
    (hv : ((path, a), val) ∈ v) (hnd : (v.map Prod.fst).Nodup) :
    (v.foldl (fun av kv => av.set kv.fst.fst kv.fst.snd kv.snd) av0).get path a
      = some val := by
  obtain ⟨pre, post, rfl⟩ := List.append_of_mem hv
  rw [List.foldl_append, List.foldl_cons]
  rw [List.map_append, List.map_cons] at hnd
  have hpost : ∀ kv ∈ post, kv.fst ≠ (path, a) := by
    intro kv hkv heq
    exact (List.nodup_cons.mp (List.nodup_append.mp hnd).2.1).1
      (heq ▸ List.mem_map.mpr ⟨kv, hkv, rfl⟩)
  have hstep : ∀ (post' : AttributeValues),
      (∀ kv ∈ post', kv.fst ≠ (path, a)) → ∀ av' : AttributeValues,
      av'.get path a = some val →
      (post'.foldl (fun av kv => av.set kv.fst.fst kv.fst.snd kv.snd)
        av').get path a = some val := by
    intro post'
    induction post' with
    | nil => intro _ av' h'; exact h'
    | cons kv rest ih =>
      intro hne av' h'
      rw [List.foldl_cons]
      refine ih (fun x hx => hne x (List.mem_cons_of_mem _ hx)) _ ?_
      rw [AttributeValues.get_set_ne _ _ _ _ _ _
        (hne kv (List.mem_cons_self _ _))]
      exact h'
  exact hstep post hpost _ (by rw [AttributeValues.av_get_set_same])

/-- Every pair the encoder emits targets one of the given addresses. -/
theorem mem_to_address_values_fst (v : ClampedValue) (addrs : List Address)
    (pr : Address × Nat) (h : pr ∈ v.to_address_values addrs) :
    pr.fst ∈ addrs := by
  obtain ⟨x, y⟩ := pr
  by_cases h14 : addrs.length = 1 ∨ addrs.length = 2 ∨ addrs.length = 3 ∨
      addrs.length = 4
  · rcases h14 with h1 | h2 | h3 | h4
    · rw [to_address_values_1 v addrs h1] at h; exact (List.of_mem_zip h).1
    · rw [to_address_values_2 v addrs h2] at h; exact (List.of_mem_zip h).1
    · rw [to_address_values_3 v addrs h3] at h; exact (List.of_mem_zip h).1
    · rw [to_address_values_4 v addrs h4] at h; exact (List.of_mem_zip h).1
  · rw [to_address_values_other v addrs h14] at h
    cases h

/-- Distinct addresses give the emitted pair list distinct addresses. -/
theorem to_address_values_fst_nodup (v : ClampedValue) (addrs : List Address)
    (hnd : addrs.Nodup) :
    ((v.to_address_values addrs).map Prod.fst).Nodup := by
  by_cases h14 : addrs.length = 1 ∨ addrs.length = 2 ∨ addrs.length = 3 ∨
      addrs.length = 4
  · rcases h14 with h1 | h2 | h3 | h4
    · rw [to_address_values_1 v addrs h1,
        List.map_fst_zip _ _ (by rw [h1]; exact Nat.le_refl 1)]
      exact hnd
    · rw [to_address_values_2 v addrs h2,
        List.map_fst_zip _ _ (by rw [h2]; exact Nat.le_refl 2)]
      exact hnd
    · rw [to_address_values_3 v addrs h3,
        List.map_fst_zip _ _ (by rw [h3]; exact Nat.le_refl 3)]
      exact hnd
    · rw [to_address_values_4 v addrs h4,
        List.map_fst_zip _ _ (by rw [h4]; exact Nat.le_refl 4)]
      exact hnd
  · rw [to_address_values_other v addrs h14]
    simp

/-- The multiverse component of one channel-function application. -/
theorem scfv_multiverse (av : AttributeValues) (cf : FixtureChannelFunction)
    (value : ClampedValue) (s : ResolverState) :
    (Resolver.set_channel_function_value av cf value s).multiverse
      = match cf.kind with
        | .Physical addrs => s.multiverse.set_values (value.to_address_values addrs)
        | .Virtual _ => s.multiverse := by
  obtain ⟨k, mn, mx, df⟩ := cf
  cases k <;> rfl

/-- The deferred component of one channel-function application. -/
theorem scfv_deferred (av : AttributeValues) (cf : FixtureChannelFunction)
    (value : ClampedValue) (s : ResolverState) :
    (Resolver.set_channel_function_value av cf value s).deferred
      = match cf.kind with
        | .Physical _ => s.deferred
        | .Virtual relations => s.deferred ++ relations.filterMap (fun rel =>
            match rel.kind with
            | .Multiply =>
              (av.get rel.fixture_path rel.attr).map (fun follower_value =>
                (rel, ClampedValue.new (follower_value.as_f32 * value.as_f32)))
            | .Override => some (rel, value)) := by
  obtain ⟨k, mn, mx, df⟩ := cf
  cases k <;> rfl

/-- A channel-function application whose physical writes avoid address `c`
leaves the byte at `c` unchanged. -/
theorem scfv_get_preserved (av : AttributeValues) (cf : FixtureChannelFunction)
    (value : ClampedValue) (s : ResolverState) (c : Address)
    (h : ∀ addrs, cf.kind = .Physical addrs →
      ∀ pr ∈ value.to_address_values addrs, pr.fst ≠ c) :
    (Resolver.set_channel_function_value av cf value s).multiverse.get_value c
      = s.multiverse.get_value c := by
  rw [scfv_multiverse]
  cases hk : cf.kind with
  | Physical addrs =>
    exact Multiverse.get_set_values_of_not_mem _ _ _ (h addrs hk)
  | Virtual rels => rfl

/-- A fold whose every step preserves the byte at `c` preserves it. -/
theorem foldl_preserve_get {α : Type} (step : ResolverState → α → ResolverState)
    (c : Address) :
    ∀ (l : List α),
      (∀ x ∈ l, ∀ s : ResolverState,
        (step s x).multiverse.get_value c = s.multiverse.get_value c) →
      ∀ s : ResolverState,
        (l.foldl step s).multiverse.get_value c = s.multiverse.get_value c := by
  intro l
  induction l with
  | nil => intro _ s; rfl
  | cons x rest ih =>
    intro H s
    rw [List.foldl_cons, ih (fun y hy => H y (List.mem_cons_of_mem _ hy)) _,
      H x (List.mem_cons_self _ _) s]

/-- A fixture none of whose pending physical writes touches `c` leaves the
byte at `c` unchanged. -/
theorem resolve_fixture_get_preserved (av : AttributeValues)
    (path : FixturePath) (f : Fixture) (s : ResolverState) (c : Address)
    (H : ∀ acf ∈ f.channel_functions, ∀ val', av.get path acf.fst = some val' →
      ∀ addrs, acf.snd.kind = .Physical addrs →
      ∀ pr ∈ val'.to_address_values addrs, pr.fst ≠ c) :
    (Resolver.resolve_fixture av path f s).multiverse.get_value c
      = s.multiverse.get_value c := by
  rw [Resolver.resolve_fixture]
  refine foldl_preserve_get _ c f.channel_functions ?_ s
  intro acf hacf s'
  cases hv : av.get path acf.fst with
  | none => rfl
  | some val' =>
    exact scfv_get_preserved av acf.snd val' s' c
      (fun addrs hk => H acf hacf val' hv addrs hk)

/-- The fixture pass over a list of fixtures none of whose pending physical
writes touches `c` leaves the byte at `c` unchanged. -/
theorem fixtures_fold_get_preserved (av : AttributeValues) (c : Address)
    (l : List (FixturePath × Fixture))
    (H : ∀ pf ∈ l, ∀ acf ∈ pf.snd.channel_functions, ∀ val',
      av.get pf.fst acf.fst = some val' →
      ∀ addrs, acf.snd.kind = .Physical addrs →
      ∀ pr ∈ val'.to_address_values addrs, pr.fst ≠ c)
    (s : ResolverState) :
    (l.foldl (fun s pf => Resolver.resolve_fixture av pf.fst pf.snd s)
      s).multiverse.get_value c = s.multiverse.get_value c := by
  refine foldl_preserve_get _ c l ?_ s
  intro pf hpf s'
  exact resolve_fixture_get_preserved av pf.fst pf.snd s' c (H pf hpf)

/-- An entry produced by the relation `filterMap` carries one of the
relations. -/
theorem mem_filterMap_rel (av : AttributeValues) (value : ClampedValue)
    (rels : List Relation) (rv : Relation × ClampedValue)
    (h : rv ∈ rels.filterMap (fun rel =>
      match rel.kind with
      | .Multiply =>
        (av.get rel.fixture_path rel.attr).map (fun follower_value =>
          (rel, ClampedValue.new (follower_value.as_f32 * value.as_f32)))
      | .Override => some (rel, value))) :
    rv.fst ∈ rels := by
  obtain ⟨rel, hrel, hf⟩ := List.mem_filterMap.mp h
  cases hk : rel.kind with
  | Multiply =>
    rw [hk] at hf
    obtain ⟨fv, _, hfv⟩ := Option.map_eq_some'.mp hf
    rw [← hfv]
    exact hrel
  | Override =>
    rw [hk] at hf
    cases hf
    exact hrel

/-- A deferred entry added by one channel-function application stems from
that function's relation list. -/
theorem scfv_deferred_mem (av : AttributeValues) (cf : FixtureChannelFunction)
    (value : ClampedValue) (s : ResolverState) (rv : Relation × ClampedValue)
    (h : rv ∈ (Resolver.set_channel_function_value av cf value s).deferred) :
    rv ∈ s.deferred ∨ ∃ rels, cf.kind = .Virtual rels ∧ rv.fst ∈ rels := by
  rw [scfv_deferred] at h
  cases hk : cf.kind with
  | Physical addrs => rw [hk] at h; exact Or.inl h
  | Virtual rels =>
    rw [hk] at h
    rcases List.mem_append.mp h with h1 | h2
    · exact Or.inl h1
    · exact Or.inr ⟨rels, rfl, mem_filterMap_rel av value rels rv h2⟩

/-- Deferred entries of one fixture's pass stem from one of its pending
virtual channel functions. -/
theorem resolve_fixture_deferred_mem (av : AttributeValues)
    (path : FixturePath) :
    ∀ (l : List (Attribute × FixtureChannelFunction)) (s : ResolverState)
      (rv : Relation × ClampedValue),
      rv ∈ (l.foldl (fun s acf =>
        match av.get path acf.fst with
        | some value => Resolver.set_channel_function_value av acf.snd value s
        | none => s) s).deferred →
      rv ∈ s.deferred ∨ ∃ acf ∈ l, ∃ val', av.get path acf.fst = some val' ∧
        ∃ rels, acf.snd.kind = .Virtual rels ∧ rv.fst ∈ rels := by
  intro l
  induction l with
  | nil => intro s rv h; exact Or.inl h
  | cons acf rest ih =>
    intro s rv h
    rw [List.foldl_cons] at h
    rcases ih _ rv h with h1 | ⟨acf', hacf', val', hval', rels, hk, hrel⟩
    · rcases hv : av.get path acf.fst with _ | value
      · rw [hv] at h1
        exact Or.inl h1
      · rw [hv] at h1
        rcases scfv_deferred_mem av acf.snd value s rv h1 with h2 | ⟨rels, hk, hrel⟩
        · exact Or.inl h2
        · exact Or.inr ⟨acf, List.mem_cons_self _ _, value, hv, rels, hk, hrel⟩
    · exact Or.inr
        ⟨acf', List.mem_cons_of_mem _ hacf', val', hval', rels, hk, hrel⟩

/-- Every deferred entry of the first pass stems from some pending virtual
channel function of some fixture. -/
theorem first_pass_deferred_mem (av : AttributeValues) (patch : Patch)
    (m0 : Multiverse) (rv : Relation × ClampedValue)
    (h : rv ∈ (Resolver.first_pass av patch m0).deferred) :
    ∃ pf ∈ patch.fixtures, ∃ acf ∈ pf.snd.channel_functions, ∃ val',
      av.get pf.fst acf.fst = some val' ∧
      ∃ rels, acf.snd.kind = .Virtual rels ∧ rv.fst ∈ rels := by
  have main : ∀ (l : List (FixturePath × Fixture)) (s : ResolverState),
      rv ∈ (l.foldl (fun s pf => Resolver.resolve_fixture av pf.fst pf.snd s)
        s).deferred →
      rv ∈ s.deferred ∨ ∃ pf ∈ l, ∃ acf ∈ pf.snd.channel_functions, ∃ val',
        av.get pf.fst acf.fst = some val' ∧
        ∃ rels, acf.snd.kind = .Virtual rels ∧ rv.fst ∈ rels := by
    intro l
    induction l with
    | nil => intro s h'; exact Or.inl h'
    | cons pf rest ih =>
      intro s h'
      rw [List.foldl_cons] at h'
      rcases ih _ h' with h1 | ⟨pf', hm, rest'⟩
      · rcases resolve_fixture_deferred_mem av pf.fst pf.snd.channel_functions
            s rv h1 with h2 | ⟨acf, hacf, rest''⟩
        · exact Or.inl h2
        · exact Or.inr ⟨pf, List.mem_cons_self _ _, acf, hacf, rest''⟩
      · exact Or.inr ⟨pf', List.mem_cons_of_mem _ hm, rest'⟩
  rcases main patch.fixtures ⟨m0, []⟩ h with h1 | h2
  · cases h1
  · exact h2

/-- The pure deferred drain preserves the byte at `c` when no deferred
write's target addresses include `c`. -/
theorem second_fold_get_preserved (patch : Patch) (c : Address) :
    ∀ (l : List (Relation × ClampedValue)),
      (∀ rv ∈ l, ∀ cf, patch.channel_function? rv.fst.fixture_path rv.fst.attr
          = some cf →
        ∀ addrs, cf.kind = .Physical addrs →
        ∀ pr ∈ rv.snd.to_address_values addrs, pr.fst ≠ c) →
      ∀ m : Multiverse,
        (l.foldl (fun m rv =>
          match patch.channel_function? rv.fst.fixture_path rv.fst.attr with
          | some cf =>
            match cf.kind with
            | .Physical addresses =>
              m.set_values (rv.snd.to_address_values addresses)
            | .Virtual _ => m
          | none => m) m).get_value c = m.get_value c := by
  intro l
  induction l with
  | nil => intro _ m; rfl
  | cons rv rest ih =>
    intro H m
    rw [List.foldl_cons, ih (fun y hy => H y (List.mem_cons_of_mem _ hy))]
    cases hcf : patch.channel_function? rv.fst.fixture_path rv.fst.attr with
    | none => rfl
    | some cf =>
      show (match cf.kind with
        | FixtureChannelFunctionKind.Physical addresses =>
            m.set_values (rv.snd.to_address_values addresses)
        | FixtureChannelFunctionKind.Virtual _ => m).get_value c
          = m.get_value c
      cases hk : cf.kind with
      | Physical addrs =>
        exact Multiverse.get_set_values_of_not_mem _ _ _
          (H rv (List.mem_cons_self _ _) cf hcf addrs hk)
      | Virtual rels => rfl

/-- One fixture's pass writes the target byte when the target channel
function is pending and physical and no other pending physical write of
the fixture touches `c`. -/
theorem resolve_fixture_get_written (av : AttributeValues) (path : FixturePath)
    (f : Fixture) (s : ResolverState) (a : Attribute)
    (cf_t : FixtureChannelFunction) (addrs : List Address)
    (val : ClampedValue) (c : Address) (b : Nat)
    (hcf : (a, cf_t) ∈ f.channel_functions)
    (hnd2 : (f.channel_functions.map Prod.fst).Nodup)
    (hav : av.get path a = some val)
    (hkind : cf_t.kind = .Physical addrs)
    (hnda : addrs.Nodup)
    (hpr : (c, b) ∈ val.to_address_values addrs)
    (Hother : ∀ acf ∈ f.channel_functions, acf.fst ≠ a → ∀ val',
      av.get path acf.fst = some val' →
      ∀ addrs', acf.snd.kind = .Physical addrs' →
      ∀ pr ∈ val'.to_address_values addrs', pr.fst ≠ c) :
    (Resolver.resolve_fixture av path f s).multiverse.get_value c = b := by
  obtain ⟨cpre, cpost, hsplit⟩ := List.append_of_mem hcf
  have hndc := hsplit ▸ hnd2
  rw [List.map_append, List.map_cons] at hndc
  have hpostc : ∀ acf ∈ cpost, acf.fst ≠ a := fun acf hacf heq =>
    (List.nodup_cons.mp (List.nodup_append.mp hndc).2.1).1
      (heq ▸ List.mem_map.mpr ⟨acf, hacf, rfl⟩)
  have hHpost : ∀ acf ∈ cpost, ∀ s' : ResolverState,
      ((fun (s : ResolverState) (acf : Attribute × FixtureChannelFunction) =>
        match av.get path acf.fst with
        | some value => Resolver.set_channel_function_value av acf.snd value s
        | none => s) s' acf).multiverse.get_value c
        = s'.multiverse.get_value c := by
    intro acf hacf s'
    show (match av.get path acf.fst with
      | some value => Resolver.set_channel_function_value av acf.snd value s'
      | none => s').multiverse.get_value c = s'.multiverse.get_value c
    cases hv : av.get path acf.fst with
    | none => rfl
    | some val' =>
      refine scfv_get_preserved av acf.snd val' s' c ?_
      intro addrs' hk' pr hpr2
      exact Hother acf
        (by rw [hsplit]
            exact List.mem_append.mpr (Or.inr (List.mem_cons_of_mem _ hacf)))
        (hpostc acf hacf) val' hv addrs' hk' pr hpr2
  rw [Resolver.resolve_fixture, hsplit, List.foldl_append, List.foldl_cons,
    foldl_preserve_get _ c cpost hHpost _]
  dsimp only
  rw [hav, scfv_multiverse, hkind]
  exact Multiverse.get_set_values_of_mem _ _ _ _
    (to_address_values_fst_nodup val addrs hnda) hpr

/-- The resolve-level form of the amended C1: a pending physical channel
function's bytes survive to the returned multiverse when no other pending
physical write and no deferred relation write targets its addresses. -/
theorem resolve_get_target (av : AttributeValues) (patch : Patch)
    (m0 : Multiverse) (path : FixturePath) (a : Attribute)
    (val : ClampedValue) (f_t : Fixture) (cf_t : FixtureChannelFunction)
    (addrs : List Address)
    (hf : (path, f_t) ∈ patch.fixtures)
    (hcf : (a, cf_t) ∈ f_t.channel_functions)
    (hav : av.get path a = some val)
    (hkind : cf_t.kind = .Physical addrs)
    (hnd1 : (patch.fixtures.map Prod.fst).Nodup)
    (hnd2 : (f_t.channel_functions.map Prod.fst).Nodup)
    (hnda : addrs.Nodup)
    (Hphys : ∀ p' f', (p', f') ∈ patch.fixtures →
      ∀ a' cf', (a', cf') ∈ f'.channel_functions →
      ¬(p' = path ∧ a' = a) → ∀ val', av.get p' a' = some val' →
      ∀ addrs', cf'.kind = .Physical addrs' → ∀ ad ∈ addrs', ad ∉ addrs)
    (Hvirt : ∀ p' f', (p', f') ∈ patch.fixtures →
      ∀ a' cf', (a', cf') ∈ f'.channel_functions →
      ∀ val', av.get p' a' = some val' →
      ∀ rels, cf'.kind = .Virtual rels → ∀ rel ∈ rels,
      ∀ cf'', patch.channel_function? rel.fixture_path rel.attr = some cf'' →
      ∀ addrs'', cf''.kind = .Physical addrs'' → ∀ ad ∈ addrs'', ad ∉ addrs) :
    ∀ pr ∈ val.to_address_values addrs,
      (Resolver.resolve av patch m0).get_value pr.fst = pr.snd := by
  intro pr hpr
  obtain ⟨c, b⟩ := pr
  have hc : c ∈ addrs := mem_to_address_values_fst val addrs (c, b) hpr
  have hres := second_pass_multiverse av patch
    (Resolver.first_pass av patch m0).deferred
    (⟨(Resolver.first_pass av patch m0).multiverse, []⟩ : ResolverState)
  have hdef : ∀ rv ∈ (Resolver.first_pass av patch m0).deferred, ∀ cf,
      patch.channel_function? rv.fst.fixture_path rv.fst.attr = some cf →
      ∀ addrs'', cf.kind = .Physical addrs'' →
      ∀ pr2 ∈ rv.snd.to_address_values addrs'', pr2.fst ≠ c := by
    intro rv hrv cf'' hcf'' addrs'' hk'' pr2 hpr2 heq
    obtain ⟨pf, hpf, acf, hacf, val', hval', rels, hkv, hrel⟩ :=
      first_pass_deferred_mem av patch m0 rv hrv
    have hnot : pr2.fst ∉ addrs :=
      Hvirt pf.fst pf.snd hpf acf.fst acf.snd hacf val' hval' rels hkv
        rv.fst hrel cf'' hcf'' addrs'' hk'' pr2.fst
        (mem_to_address_values_fst _ _ _ hpr2)
    exact hnot (heq ▸ hc)
  show (Resolver.resolve av patch m0).get_value c = b
  have h2 : Resolver.resolve av patch m0
      = (Resolver.first_pass av patch m0).deferred.foldl (fun m rv =>
          match patch.channel_function? rv.fst.fixture_path rv.fst.attr with
          | some cf =>
            match cf.kind with
            | .Physical addresses =>
              m.set_values (rv.snd.to_address_values addresses)
            | .Virtual _ => m
          | none => m) (Resolver.first_pass av patch m0).multiverse := hres
  have hstep : (Resolver.resolve av patch m0).get_value c
      = (Resolver.first_pass av patch m0).multiverse.get_value c := by
    rw [h2]
    exact second_fold_get_preserved patch c _ hdef _
  rw [hstep]
  obtain ⟨fpre, fpost, hsplitf⟩ := List.append_of_mem hf
  have hndf := hsplitf ▸ hnd1
  rw [List.map_append, List.map_cons] at hndf
  have hpostf : ∀ pf ∈ fpost, pf.fst ≠ path := fun pf hpf heq =>
    (List.nodup_cons.mp (List.nodup_append.mp hndf).2.1).1
      (heq ▸ List.mem_map.mpr ⟨pf, hpf, rfl⟩)
  have hHpostf : ∀ pf ∈ fpost, ∀ acf ∈ pf.snd.channel_functions, ∀ val',
      av.get pf.fst acf.fst = some val' →
      ∀ addrs', acf.snd.kind = .Physical addrs' →
      ∀ pr2 ∈ val'.to_address_values addrs', pr2.fst ≠ c := by
    intro pf hpf acf hacf val' hval' addrs' hk' pr2 hpr2 heq
    have hmem : (pf.fst, pf.snd) ∈ patch.fixtures := by
      rw [hsplitf]
      exact List.mem_append.mpr (Or.inr (List.mem_cons_of_mem _ hpf))
    have hnot : pr2.fst ∉ addrs :=
      Hphys pf.fst pf.snd hmem acf.fst acf.snd hacf
        (fun h => hpostf pf hpf h.1) val' hval' addrs' hk' pr2.fst
        (mem_to_address_values_fst _ _ _ hpr2)
    exact hnot (heq ▸ hc)
  have Hother : ∀ acf ∈ f_t.channel_functions, acf.fst ≠ a → ∀ val',
      av.get path acf.fst = some val' →
      ∀ addrs', acf.snd.kind = .Physical addrs' →
      ∀ pr2 ∈ val'.to_address_values addrs', pr2.fst ≠ c := by
    intro acf hacf hne val' hval' addrs' hk' pr2 hpr2 heq
    have hnot : pr2.fst ∉ addrs :=
      Hphys path f_t hf acf.fst acf.snd hacf (fun h => hne h.2) val' hval'
        addrs' hk' pr2.fst (mem_to_address_values_fst _ _ _ hpr2)
    exact hnot (heq ▸ hc)
  rw [Resolver.first_pass, hsplitf, List.foldl_append, List.foldl_cons,
    fixtures_fold_get_preserved av c fpost hHpostf _]
  dsimp only
  exact resolve_fixture_get_written av path f_t _ a cf_t addrs val c b hcf
    hnd2 hav hkind hnda hpr Hother

/-- **C1** (corrected): after `RequestSetAttributeValues(v)` followed by
`RequestDmxOutput`, a `(path, attribute)` of `v` whose channel function is
`Physical` is reflected byte-exact in the returned multiverse — *provided*
no other pending physical channel function and no deferred relation write
of a pending virtual channel function targets any of its addresses (the
unqualified claim is refuted by the counterexample: a deferred `Override`
write clobbers the pending physical value at the same address).  Map keys
are `Nodup` as the source's `HashMap`/`BTreeMap` guarantee. -/
theorem claim_C1_amended (s : ServerState) (v : AttributeValues)
    (path : FixturePath) (a : Attribute) (val : ClampedValue)
    (f_t : Fixture) (cf_t : FixtureChannelFunction) (addrs : List Address)
    (hv : ((path, a), val) ∈ v)
    (hvnd : (v.map Prod.fst).Nodup)
    (hf : (path, f_t) ∈ s.patch.fixtures)
    (hcf : (a, cf_t) ∈ f_t.channel_functions)
    (hkind : cf_t.kind = .Physical addrs)
    (hnd1 : (s.patch.fixtures.map Prod.fst).Nodup)
    (hnd2 : (f_t.channel_functions.map Prod.fst).Nodup)
    (hnda : addrs.Nodup)
    (Hphys : ∀ p' f', (p', f') ∈ s.patch.fixtures →
      ∀ a' cf', (a', cf') ∈ f'.channel_functions →
      ¬(p' = path ∧ a' = a) → ∀ val',
      (s.merged_values v).get p' a' = some val' →
      ∀ addrs', cf'.kind = .Physical addrs' → ∀ ad ∈ addrs', ad ∉ addrs)
    (Hvirt : ∀ p' f', (p', f') ∈ s.patch.fixtures →
      ∀ a' cf', (a', cf') ∈ f'.channel_functions →
      ∀ val', (s.merged_values v).get p' a' = some val' →
      ∀ rels, cf'.kind = .Virtual rels → ∀ rel ∈ rels,
      ∀ cf'', s.patch.channel_function? rel.fixture_path rel.attr = some cf'' →
      ∀ addrs'', cf''.kind = .Physical addrs'' → ∀ ad ∈ addrs'', ad ∉ addrs) :
    ∀ pr ∈ val.to_address_values addrs,
      (((s.process_set_attribute_values v).process_dmx_output).2).get_value
        pr.fst = pr.snd := by
  intro pr hpr
  have hout : ((s.process_set_attribute_values v).process_dmx_output).2
      = Resolver.resolve (s.merged_values v) s.patch
          (Resolver.resolve (s.merged_values v) s.patch
            s.output_multiverse) := rfl
  rw [hout]
  exact resolve_get_target (s.merged_values v) s.patch _ path a val f_t cf_t
    addrs hf hcf (get_foldl_set v s.pending_attribute_values path a val hv hvnd)
    hkind hnd1 hnd2 hnda Hphys Hvirt pr hpr

/-- Witness for the amended C1: a lone pending physical value on the
example patch survives to the output. -/
theorem claim_C1_amended_witness :
    (((ServerState.new (patchRel .Override)).process_set_attribute_values
        [(([2], dimmerA), cv 1)]).process_dmx_output).2.get_value addrB
      = (cv 1).to_u8 := by
  have Hphys : ∀ p' f',
      (p', f') ∈ (ServerState.new (patchRel .Override)).patch.fixtures →
      ∀ a' cf', (a', cf') ∈ f'.channel_functions →
      ¬(p' = [2] ∧ a' = dimmerA) → ∀ val',
      ((ServerState.new (patchRel .Override)).merged_values
        [(([2], dimmerA), cv 1)]).get p' a' = some val' →
      ∀ addrs', cf'.kind = .Physical addrs' →
      ∀ ad ∈ addrs', ad ∉ [addrB] := by
    intro p' f' hm a' cf' hm2 hne val' hval' addrs' hk' ad had
    rcases List.mem_cons.mp hm with h1 | hm'
    · injection h1 with hp hfe
      subst hp; subst hfe
      rcases List.mem_cons.mp hm2 with h2 | h2
      · injection h2 with ha hcfe
        subst ha; subst hcfe
        exact absurd hk' (by simp [cfVirtA])
      · exact absurd h2 (List.not_mem_nil _)
    · rcases List.mem_cons.mp hm' with h1 | h1
      · injection h1 with hp hfe
        subst hp; subst hfe
        rcases List.mem_cons.mp hm2 with h2 | h2
        · injection h2 with ha hcfe
          subst ha; subst hcfe
          exact absurd ⟨rfl, rfl⟩ hne
        · exact absurd h2 (List.not_mem_nil _)
      · exact absurd h1 (List.not_mem_nil _)
  have Hvirt : ∀ p' f',
      (p', f') ∈ (ServerState.new (patchRel .Override)).patch.fixtures →
      ∀ a' cf', (a', cf') ∈ f'.channel_functions →
      ∀ val', ((ServerState.new (patchRel .Override)).merged_values
        [(([2], dimmerA), cv 1)]).get p' a' = some val' →
      ∀ rels, cf'.kind = .Virtual rels → ∀ rel ∈ rels,
      ∀ cf'', (ServerState.new (patchRel .Override)).patch.channel_function?
        rel.fixture_path rel.attr = some cf'' →
      ∀ addrs'', cf''.kind = .Physical addrs'' →
      ∀ ad ∈ addrs'', ad ∉ [addrB] := by
    intro p' f' hm a' cf' hm2 val' hval' rels hk' rel hrel cf'' hcf'' addrs''
      hk'' ad had
    rcases List.mem_cons.mp hm with h1 | hm'
    · injection h1 with hp hfe
      subst hp; subst hfe
      rcases List.mem_cons.mp hm2 with h2 | h2
      · injection h2 with ha hcfe
        subst ha; subst hcfe
        rw [show ((ServerState.new (patchRel .Override)).merged_values
          [(([2], dimmerA), cv 1)]).get [1] dimmerA = none from rfl] at hval'
        cases hval'
      · exact absurd h2 (List.not_mem_nil _)
    · rcases List.mem_cons.mp hm' with h1 | h1
      · injection h1 with hp hfe
        subst hp; subst hfe
        rcases List.mem_cons.mp hm2 with h2 | h2
        · injection h2 with ha hcfe
          subst ha; subst hcfe
          exact absurd hk' (by simp [cfPhysB])
        · exact absurd h2 (List.not_mem_nil _)
      · exact absurd h1 (List.not_mem_nil _)
  exact claim_C1_amended (ServerState.new (patchRel .Override))
    [(([2], dimmerA), cv 1)] [2] dimmerA (cv 1)
    ⟨[(dimmerA, cfPhysB)]⟩ cfPhysB [addrB]
    (List.mem_singleton.mpr rfl) (by decide)
    (List.mem_cons_of_mem _ (List.mem_cons_self _ _))
    (List.mem_cons_self _ _) rfl (by decide) (by decide) (by decide)
    Hphys Hvirt (addrB, (cv 1).to_u8) (List.mem_singleton.mpr rfl)

/-! Byte-slicing helpers for the sACN round trip. -/

theorem drop_append1 (A B : List Nat) (n : Nat) (h : A.length = n) :
    (A ++ B).drop n = B := by
  subst h
  exact List.drop_left A B

theorem take_append1 (A B : List Nat) (n : Nat) (h : A.length = n) :
    (A ++ B).take n = A :=
  List.take_left' h

theorem drop_at (l : List Nat) (m n j : Nat) (h : m + n = j) :
    l.drop j = (l.drop m).drop n := by
  subst h
  exact (List.drop_drop n m l).symm

theorem getD_drop_nat (l : List Nat) (n i : Nat) :
    (l.drop n).getD i 0 = l.getD (n + i) 0 := by
  induction n generalizing l with
  | zero => simp
  | succ m ih =>
    cases l with
    | nil => simp
    | cons x t =>
      rw [List.drop_succ_cons, ih t]
      have h : m + 1 + i = (m + i) + 1 := by omega
      rw [h, List.getD_cons_succ]

theorem getD_at (l : List Nat) (n i j : Nat) (h : n + i = j) :
    l.getD j 0 = (l.drop n).getD i 0 := by
  subst h
  exact (getD_drop_nat l n i).symm

/-- A source name that passes validation is padded to exactly 64 bytes. -/
theorem source_name_length (name sn : List Nat)
    (h : source_name_from_str name = .ok sn) : sn.length = 64 := by
  rw [source_name_from_str] at h
  split_ifs at h with h1
  cases h
  simp only [List.length_append, List.length_replicate]
  omega

/-- Decoding the big-endian 16-bit chunks of in-range values recovers
them. -/
theorem u16Chunks_flatMap (l : List Nat) (h : ∀ x ∈ l, x < 65536) :
    u16Chunks (l.flatMap be16) = l := by
  induction l with
  | nil => rfl
  | cons x t ih =>
    show unbe16 (x / 256 % 256) (x % 256) :: u16Chunks (t.flatMap be16)
      = x :: t
    rw [ih (fun y hy => h y (List.mem_cons_of_mem _ hy)),
      show unbe16 (x / 256 % 256) (x % 256) = x by
        have := h x (List.mem_cons_self _ _)
        rw [unbe16]
        omega]

/-- The DMP layer round-trips for fewer than 65536 slots. -/
theorem Dmp.dmp_decode_encode (d : Dmp) (h : d.property_values.length < 65536) :
    Dmp.decode d.encode = .ok d := by
  obtain ⟨props⟩ := d
  have hcount : unbe16 ((⟨props⟩ : Dmp).encode.getD 8 0)
      ((⟨props⟩ : Dmp).encode.getD 9 0) = props.length := by
    have h' : props.length < 65536 := h
    show unbe16 (props.length / 256 % 256) (props.length % 256) = props.length
    rw [unbe16]
    omega
  rw [Dmp.decode, if_neg (fun hx => hx rfl), if_neg (fun hx => hx rfl),
    if_neg (fun hx => hx.elim (fun hy => hy rfl) (fun hy => hy rfl)),
    if_neg (fun hx => hx.elim (fun hy => hy rfl) (fun hy => hy rfl)),
    hcount]
  show Except.ok (⟨props.take props.length⟩ : Dmp) = Except.ok ⟨props⟩
  rw [List.take_length]

/-- The data framing layer round-trips: every field is read back from the
offset it was written at. -/
theorem DataFraming.data_decode_encode (d : DataFraming)
    (hsn : d.source_name.length = 64)
    (hsync : d.synchronization_address < 65536)
    (huniv : d.univ < 65536)
    (hplen : d.dmp.property_values.length < 65536) :
    DataFraming.decode d.encode = .ok d := by
  obtain ⟨sn, pr, sync, seq, opts, univ, dmp⟩ := d
  have hsn' : sn.length = 64 := hsn
  have hsync' : sync < 65536 := hsync
  have huniv' : univ < 65536 := huniv
  have hplen' : dmp.property_values.length < 65536 := hplen
  have h6 : (DataFraming.mk sn pr sync seq opts univ dmp).encode.drop 6
      = sn ++ ([pr] ++ (be16 sync ++ ([seq] ++ ([opts]
          ++ (be16 univ ++ dmp.encode))))) := by
    rw [DataFraming.encode]
    simp only [List.append_assoc]
    rfl
  have h70 : (DataFraming.mk sn pr sync seq opts univ dmp).encode.drop 70
      = [pr] ++ (be16 sync ++ ([seq] ++ ([opts]
          ++ (be16 univ ++ dmp.encode)))) := by
    rw [drop_at _ 6 64 70 rfl, h6, drop_append1 _ _ _ hsn']
  have hname : ((DataFraming.mk sn pr sync seq opts univ dmp).encode.drop 6).take 64
      = sn := by
    rw [h6]; exact take_append1 _ _ _ hsn'
  have h77 : (DataFraming.mk sn pr sync seq opts univ dmp).encode.drop 77
      = dmp.encode := by
    rw [drop_at _ 70 7 77 rfl, h70]
    rfl
  have e70 : (DataFraming.mk sn pr sync seq opts univ dmp).encode.getD 70 0
      = pr := by
    rw [getD_at _ 70 0 70 rfl, h70]
    rfl
  have e71 : unbe16 ((DataFraming.mk sn pr sync seq opts univ dmp).encode.getD 71 0)
      ((DataFraming.mk sn pr sync seq opts univ dmp).encode.getD 72 0) = sync := by
    rw [getD_at _ 70 1 71 rfl, getD_at _ 70 2 72 rfl, h70]
    show unbe16 (sync / 256 % 256) (sync % 256) = sync
    rw [unbe16]
    omega
  have e73 : (DataFraming.mk sn pr sync seq opts univ dmp).encode.getD 73 0
      = seq := by
    rw [getD_at _ 70 3 73 rfl, h70]
    rfl
  have e74 : (DataFraming.mk sn pr sync seq opts univ dmp).encode.getD 74 0
      = opts := by
    rw [getD_at _ 70 4 74 rfl, h70]
    rfl
  have e75 : unbe16 ((DataFraming.mk sn pr sync seq opts univ dmp).encode.getD 75 0)
      ((DataFraming.mk sn pr sync seq opts univ dmp).encode.getD 76 0) = univ := by
    rw [getD_at _ 70 5 75 rfl, getD_at _ 70 6 76 rfl, h70]
    show unbe16 (univ / 256 % 256) (univ % 256) = univ
    rw [unbe16]
    omega
  have hlen : ¬ (DataFraming.mk sn pr sync seq opts univ dmp).encode.length
      < 77 := by
    rw [DataFraming.encode]
    simp [be16, Dmp.encode, hsn']
    omega
  rw [DataFraming.decode, if_neg hlen, if_neg (fun hx => hx rfl), h77,
    Dmp.dmp_decode_encode dmp hplen', hname, e70, e71, e73, e74, e75]

/-- The sync framing layer round-trips. -/
theorem SyncFraming.sync_decode_encode (s : SyncFraming)
    (haddr : s.synchronization_address < 65536) :
    SyncFraming.decode s.encode = .ok s := by
  obtain ⟨seq, addr⟩ := s
  have haddr' : addr < 65536 := haddr
  rw [SyncFraming.decode, if_neg (fun hx => hx rfl)]
  show Except.ok (⟨seq, unbe16 (addr / 256 % 256) (addr % 256)⟩ : SyncFraming)
    = Except.ok ⟨seq, addr⟩
  rw [show unbe16 (addr / 256 % 256) (addr % 256) = addr by rw [unbe16]; omega]

/-- The universe-discovery sub-PDU round-trips for in-range universes. -/
theorem UniverseDiscovery.ud_decode_encode (u : UniverseDiscovery)
    (huni : ∀ x ∈ u.list_of_universes, x < 65536) :
    UniverseDiscovery.decode u.encode = .ok u := by
  obtain ⟨page, last, lu⟩ := u
  have huni' : ∀ x ∈ lu, x < 65536 := huni
  rw [UniverseDiscovery.decode, if_neg (fun hx => hx rfl)]
  show Except.ok (⟨page, last, u16Chunks (lu.flatMap be16)⟩ : UniverseDiscovery)
    = Except.ok ⟨page, last, lu⟩
  rw [u16Chunks_flatMap lu huni']

/-- The discovery framing layer round-trips. -/
theorem DiscoveryFraming.discovery_decode_encode (d : DiscoveryFraming)
    (hsn : d.source_name.length = 64)
    (huni : ∀ x ∈ d.universe_discovery.list_of_universes, x < 65536) :
    DiscoveryFraming.decode d.encode = .ok d := by
  obtain ⟨sn, ud⟩ := d
  have hsn' : sn.length = 64 := hsn
  have huni' : ∀ x ∈ ud.list_of_universes, x < 65536 := huni
  have h6 : (DiscoveryFraming.mk sn ud).encode.drop 6
      = sn ++ ([0x00, 0x00, 0x00, 0x00] ++ ud.encode) := by
    rw [DiscoveryFraming.encode]
    simp only [List.append_assoc]
    rfl
  have h70 : (DiscoveryFraming.mk sn ud).encode.drop 70
      = [0x00, 0x00, 0x00, 0x00] ++ ud.encode := by
    rw [drop_at _ 6 64 70 rfl, h6, drop_append1 _ _ _ hsn']
  have h74 : (DiscoveryFraming.mk sn ud).encode.drop 74 = ud.encode := by
    rw [drop_at _ 70 4 74 rfl, h70]
    rfl
  have hname : ((DiscoveryFraming.mk sn ud).encode.drop 6).take 64 = sn := by
    rw [h6]; exact take_append1 _ _ _ hsn'
  rw [DiscoveryFraming.decode, if_neg (fun hx => hx rfl), h74,
    UniverseDiscovery.ud_decode_encode ud huni', hname]

/-- A sync packet is too short for the data decoder. -/
theorem DataFraming.decode_sync_err (s : SyncFraming) :
    DataFraming.decode s.encode = .error .InvalidLength := rfl

/-- A discovery packet carries the data framing vector but fails the DMP
vector check (the byte at framing offset 79 is 1, not 2), so the data
decoder rejects it. -/
theorem DataFraming.data_decode_discovery_err (d : DiscoveryFraming)
    (hsn : d.source_name.length = 64) :
    DataFraming.decode d.encode = .error .InvalidDmpLayerVector := by
  obtain ⟨sn, ud⟩ := d
  have hsn' : sn.length = 64 := hsn
  obtain ⟨page, last, lu⟩ := ud
  have h6 : (DiscoveryFraming.mk sn ⟨page, last, lu⟩).encode.drop 6
      = sn ++ ([0x00, 0x00, 0x00, 0x00]
          ++ (UniverseDiscovery.mk page last lu).encode) := by
    rw [DiscoveryFraming.encode]
    simp only [List.append_assoc]
    rfl
  have h70 : (DiscoveryFraming.mk sn ⟨page, last, lu⟩).encode.drop 70
      = [0x00, 0x00, 0x00, 0x00]
          ++ (UniverseDiscovery.mk page last lu).encode := by
    rw [drop_at _ 6 64 70 rfl, h6, drop_append1 _ _ _ hsn']
  have h77 : (DiscoveryFraming.mk sn ⟨page, last, lu⟩).encode.drop 77
      = (0 : Nat) :: 0 :: 1 :: page :: last :: lu.flatMap be16 := by
    rw [drop_at _ 70 7 77 rfl, h70]
    rfl
  have hlen : ¬ (DiscoveryFraming.mk sn ⟨page, last, lu⟩).encode.length
      < 77 := by
    rw [DiscoveryFraming.encode]
    simp [be16, UniverseDiscovery.encode, hsn']
    omega
  rw [DataFraming.decode, if_neg hlen, if_neg (fun hx => hx rfl), h77]
  rfl

/-- A discovery packet fails the sync decoder's vector check. -/
theorem SyncFraming.sync_decode_discovery_err (d : DiscoveryFraming) :
    SyncFraming.decode d.encode = .error .InvalidFramingLayerVector := by
  obtain ⟨sn, ud⟩ := d
  have h : ((DiscoveryFraming.mk sn ud).encode.drop 2).take 4
      = [0x00, 0x00, 0x00, 0x02] := rfl
  rw [SyncFraming.decode,
    if_pos (fun hx => absurd (h.symm.trans hx) (by decide))]

/-- `Pdu::decode` recovers a data PDU. -/
theorem pduDecodeData (d : DataFraming)
    (hsn : d.source_name.length = 64)
    (hsync : d.synchronization_address < 65536)
    (huniv : d.univ < 65536)
    (hplen : d.dmp.property_values.length < 65536) :
    Pdu.decode (Pdu.DataFraming d).encode = .ok (.DataFraming d) := by
  show Pdu.decode d.encode = .ok (.DataFraming d)
  rw [Pdu.decode, DataFraming.data_decode_encode d hsn hsync huniv hplen]

/-- `Pdu::decode` recovers a sync PDU. -/
theorem pduDecodeSync (s : SyncFraming)
    (haddr : s.synchronization_address < 65536) :
    Pdu.decode (Pdu.SyncFraming s).encode = .ok (.SyncFraming s) := by
  show Pdu.decode s.encode = .ok (.SyncFraming s)
  rw [Pdu.decode, DataFraming.decode_sync_err s, SyncFraming.sync_decode_encode s haddr]

/-- `Pdu::decode` recovers a discovery PDU. -/
theorem pduDecodeDiscovery (d : DiscoveryFraming)
    (hsn : d.source_name.length = 64)
    (huni : ∀ x ∈ d.universe_discovery.list_of_universes, x < 65536) :
    Pdu.decode (Pdu.DiscoveryFraming d).encode = .ok (.DiscoveryFraming d) := by
  show Pdu.decode d.encode = .ok (.DiscoveryFraming d)
  rw [Pdu.decode, DataFraming.data_decode_discovery_err d hsn,
    SyncFraming.sync_decode_discovery_err d, DiscoveryFraming.discovery_decode_encode d hsn huni]

/-- The root layer (and so the packet) round-trips over any PDU whose own
decode round-trips, for a 16-byte CID. -/
theorem Packet.decode_encode_of (cid : List Nat) (extended : Bool) (pdu : Pdu)
    (hcid : cid.length = 16)
    (hpdu : Pdu.decode pdu.encode = .ok pdu) :
    Packet.decode (Packet.encode ⟨⟨cid, extended, pdu⟩⟩)
      = .ok ⟨⟨cid, extended, pdu⟩⟩ := by
  cases extended with
  | false =>
    have hlen : ¬ (Packet.encode ⟨⟨cid, false, pdu⟩⟩).length < 38 := by
      rw [Packet.encode, RootLayer.encode]
      simp [preambleBytes, be16, hcid]
    have h22 : (Packet.encode ⟨⟨cid, false, pdu⟩⟩).drop 22
        = cid ++ pdu.encode := by
      rw [Packet.encode, RootLayer.encode]
      simp only [List.append_assoc]
      rfl
    have h38 : (Packet.encode ⟨⟨cid, false, pdu⟩⟩).drop 38 = pdu.encode := by
      rw [drop_at _ 22 16 38 rfl, h22, drop_append1 _ _ _ hcid]
    have htake : ((Packet.encode ⟨⟨cid, false, pdu⟩⟩).drop 22).take 16
        = cid := by
      rw [h22]; exact take_append1 _ _ _ hcid
    have hroot : RootLayer.decode (Packet.encode ⟨⟨cid, false, pdu⟩⟩)
        = .ok ⟨cid, false, pdu⟩ := by
      rw [RootLayer.decode, if_neg hlen, h38, hpdu, htake]
      rfl
    rw [Packet.decode, hroot]
  | true =>
    have hlen : ¬ (Packet.encode ⟨⟨cid, true, pdu⟩⟩).length < 38 := by
      rw [Packet.encode, RootLayer.encode]
      simp [preambleBytes, be16, hcid]
    have h22 : (Packet.encode ⟨⟨cid, true, pdu⟩⟩).drop 22
        = cid ++ pdu.encode := by
      rw [Packet.encode, RootLayer.encode]
      simp only [List.append_assoc]
      rfl
    have h38 : (Packet.encode ⟨⟨cid, true, pdu⟩⟩).drop 38 = pdu.encode := by
      rw [drop_at _ 22 16 38 rfl, h22, drop_append1 _ _ _ hcid]
    have htake : ((Packet.encode ⟨⟨cid, true, pdu⟩⟩).drop 22).take 16
        = cid := by
      rw [h22]; exact take_append1 _ _ _ hcid
    have hroot : RootLayer.decode (Packet.encode ⟨⟨cid, true, pdu⟩⟩)
        = .ok ⟨cid, true, pdu⟩ := by
      rw [RootLayer.decode, if_neg hlen, h38, hpdu, htake]
      rfl
    rw [Packet.decode, hroot]

/-- **C7** (confirmed): `Packet::decode (Packet::encode p) = p` for every
packet built from a validated data framing layer (priority < 200, source
name at most 64 bytes, in-range `u16` fields), for every sync packet, and
for every discovery packet built from a validated source name, given a
16-byte CID. -/
theorem claim_C7_roundtrip (cid : List Nat) (hcid : cid.length = 16) :
    (∀ (name : List Nat) (priority syncaddr seqn univ2 : Nat)
        (pd st fs : Bool) (dmp : Dmp) (d : DataFraming),
      DataFraming.new name priority syncaddr seqn pd st fs univ2 dmp = .ok d →
      syncaddr < 65536 → univ2 < 65536 →
      dmp.property_values.length < 65536 →
      Packet.decode (Packet.new cid (.DataFraming d)).encode
        = .ok (Packet.new cid (.DataFraming d)))
    ∧ (∀ s : SyncFraming, s.synchronization_address < 65536 →
        Packet.decode (Packet.new cid (.SyncFraming s)).encode
          = .ok (Packet.new cid (.SyncFraming s)))
    ∧ (∀ (name sn : List Nat) (page last : Nat) (lu : List Nat),
        source_name_from_str name = .ok sn → (∀ x ∈ lu, x < 65536) →
        Packet.decode (Packet.new cid (.DiscoveryFraming
            ⟨sn, UniverseDiscovery.new page last lu⟩)).encode
          = .ok (Packet.new cid (.DiscoveryFraming
              ⟨sn, UniverseDiscovery.new page last lu⟩))) := by
  refine ⟨?_, ?_, ?_⟩
  · intro name priority syncaddr seqn univ2 pd st fs dmp d hnew hsync huniv hplen
    have hnew0 : (source_name_from_str name).bind (fun sn =>
        if 200 ≤ priority
        then (.error .InvalidPriority : Except PacketError DataFraming)
        else .ok ⟨sn, priority, syncaddr, seqn,
          (if pd then 0x80 else 0) + (if st then 0x40 else 0)
            + (if fs then 0x20 else 0), univ2, dmp⟩) = .ok d := hnew
    cases hs : source_name_from_str name with
    | error e =>
      rw [hs] at hnew0
      exact Except.noConfusion hnew0
    | ok sn =>
      rw [hs] at hnew0
      have hnew' : (if 200 ≤ priority
          then (.error .InvalidPriority : Except PacketError DataFraming)
          else .ok ⟨sn, priority, syncaddr, seqn,
            (if pd then 0x80 else 0) + (if st then 0x40 else 0)
              + (if fs then 0x20 else 0), univ2, dmp⟩) = .ok d := hnew0
      by_cases hp : 200 ≤ priority
      · rw [if_pos hp] at hnew'
        exact Except.noConfusion hnew'
      · rw [if_neg hp] at hnew'
        cases hnew'
        exact Packet.decode_encode_of cid false _ hcid
          (pduDecodeData _ (source_name_length name sn hs) hsync huniv
            hplen)
  · intro s haddr
    exact Packet.decode_encode_of cid true _ hcid
      (pduDecodeSync s haddr)
  · intro name sn page last lu hs hlu
    have huni' : ∀ x ∈ (UniverseDiscovery.new page last lu).list_of_universes,
        x < 65536 := by
      intro x hx
      exact hlu x (List.mem_of_mem_take (List.mem_mergeSort.mp hx))
    exact Packet.decode_encode_of cid true _ hcid
      (pduDecodeDiscovery _ (source_name_length name sn hs) huni')

/-- Witness for C7: a concrete sync packet round-trips. -/
theorem claim_C7_roundtrip_witness :
    Packet.decode (Packet.new (List.replicate 16 7)
        (.SyncFraming ⟨1, 2⟩)).encode
      = .ok (Packet.new (List.replicate 16 7) (.SyncFraming ⟨1, 2⟩)) :=
  (claim_C7_roundtrip (List.replicate 16 7) rfl).2.1 ⟨1, 2⟩ (by norm_num)

/-! Soundness of the attribute-codec criteria: string primitives. -/

theorem stripPrefix_append (p r : Str) : stripPrefixStr (p ++ r) p = some r := by
  induction p with
  | nil =>
    show stripPrefixStr r [] = some r
    rw [stripPrefixStr]
  | cons c t ih => simp [stripPrefixStr, ih]

theorem stripPrefix_eq_some (s p r : Str) (h : stripPrefixStr s p = some r) :
    s = p ++ r := by
  induction p generalizing s with
  | nil =>
    rw [stripPrefixStr] at h
    injection h with h'
  | cons c t ih =>
    cases s with
    | nil => cases h
    | cons a u =>
      by_cases hac : a = c
      · subst hac
        rw [stripPrefixStr, if_pos rfl] at h
        rw [ih u h]
        rfl
      · rw [stripPrefixStr, if_neg hac] at h
        cases h

theorem stripPrefix_head_ne (a b : Nat) (x y : Str) (h : a ≠ b) :
    stripPrefixStr (a :: x) (b :: y) = none := by
  simp [stripPrefixStr, h]

theorem stripPrefix_append_left (a x y : Str) :
    stripPrefixStr (a ++ x) (a ++ y) = stripPrefixStr x y := by
  induction a with
  | nil => rfl
  | cons c t ih => simp [stripPrefixStr, ih]

theorem stripPrefix_none_extend (preI preJ : Str)
    (h1 : stripPrefixStr preJ preI = none)
    (h2 : stripPrefixStr preI preJ = none) :
    ∀ x, stripPrefixStr (preI ++ x) preJ = none := by
  induction preI generalizing preJ with
  | nil =>
    rw [stripPrefixStr] at h1
    cases h1
  | cons a s ih =>
    cases preJ with
    | nil =>
      rw [stripPrefixStr] at h2
      cases h2
    | cons b t =>
      intro x
      by_cases hab : a = b
      · subst hab
        rw [stripPrefixStr, if_pos rfl] at h1
        rw [stripPrefixStr, if_pos rfl] at h2
        show stripPrefixStr (a :: (s ++ x)) (a :: t) = none
        rw [stripPrefixStr, if_pos rfl]
        exact ih t h1 h2 x
      · show stripPrefixStr (a :: (s ++ x)) (b :: t) = none
        rw [stripPrefixStr, if_neg hab]

theorem stripSuffix_none_of (l t : Str)
    (h : stripPrefixStr l.reverse t.reverse = none) :
    stripSuffixStr l t = none := by
  rw [stripSuffixStr, h]
  rfl

theorem stripPrefix_rev_none (l t : Str) (h : stripSuffixStr l t = none) :
    stripPrefixStr l.reverse t.reverse = none := by
  rw [stripSuffixStr] at h
  cases hc : stripPrefixStr l.reverse t.reverse with
  | none => rfl
  | some u => rw [hc] at h; cases h

theorem stripSuffix_append (d t : Str) : stripSuffixStr (d ++ t) t = some d := by
  rw [stripSuffixStr, List.reverse_append, stripPrefix_append]
  simp

theorem stripSuffix_eq_some (l t r : Str) (h : stripSuffixStr l t = some r) :
    l = r ++ t := by
  rw [stripSuffixStr] at h
  obtain ⟨u, hu, hr⟩ := Option.map_eq_some'.mp h
  have := stripPrefix_eq_some _ _ _ hu
  have hl : l = u.reverse ++ t := by
    have h2 := congrArg List.reverse this
    rw [List.reverse_reverse, List.reverse_append, List.reverse_reverse] at h2
    exact h2
  rw [hl, hr]

theorem stripSuffix_append_right (x y s : Str) :
    stripSuffixStr (x ++ s) (y ++ s) = stripSuffixStr x y := by
  rw [stripSuffixStr, stripSuffixStr, List.reverse_append, List.reverse_append,
    stripPrefix_append_left]

theorem stripSuffix_nil (x : Str) : stripSuffixStr x [] = some x := by
  rw [stripSuffixStr, List.reverse_nil, stripPrefixStr]
  simp

theorem reverse_getLast (l : Str) (h : l ≠ []) :
    ∃ u, l.reverse = l.getLastD 0 :: u := by
  induction l with
  | nil => exact absurd rfl h
  | cons c t ih =>
    cases t with
    | nil => exact ⟨[], rfl⟩
    | cons b t3 =>
      obtain ⟨u, hu⟩ := ih (by simp)
      exact ⟨u ++ [c], by rw [List.reverse_cons, hu]; rfl⟩

theorem getLastD_append_right (x d : Str) (h : d ≠ []) :
    (x ++ d).getLastD 0 = d.getLastD 0 := by
  induction x with
  | nil => rfl
  | cons a t ih =>
    have hne : t ++ d ≠ [] := fun he => h (List.append_eq_nil.mp he).2
    rw [List.cons_append, List.getLastD_cons]
    cases hc : t ++ d with
    | nil => exact absurd hc hne
    | cons z zs =>
      rw [hc] at ih
      rw [show (z :: zs).getLastD a = (z :: zs).getLastD 0 from rfl]
      exact ih

theorem stripSuffix_last_mismatch (l t : Str) (hl : l ≠ []) (ht : t ≠ [])
    (h : l.getLastD 0 ≠ t.getLastD 0) : stripSuffixStr l t = none := by
  apply stripSuffix_none_of
  obtain ⟨u, hu⟩ := reverse_getLast l hl
  obtain ⟨v, hv⟩ := reverse_getLast t ht
  rw [hu, hv]
  exact stripPrefix_head_ne _ _ _ _ h

theorem stripSuffix_none_extend (sufI t : Str)
    (h1 : stripSuffixStr t sufI = none) (h2 : stripSuffixStr sufI t = none) :
    ∀ X, stripSuffixStr (X ++ sufI) t = none := by
  intro X
  apply stripSuffix_none_of
  rw [List.reverse_append]
  exact stripPrefix_none_extend sufI.reverse t.reverse
    (stripPrefix_rev_none t sufI h1) (stripPrefix_rev_none sufI t h2)
    X.reverse

theorem parseU8go_stop (s : Str) : ∀ acc : Nat, s.any isStopChar = true →
    parseU8go s acc = none := by
  induction s with
  | nil => intro acc h; cases h
  | cons c rest ih =>
    intro acc h
    show (if isDigitCode c then
        (if 255 < acc * 10 + (c - 48) then none
         else parseU8go rest (acc * 10 + (c - 48)))
      else none) = none
    by_cases hd : isDigitCode c
    · have hrest : rest.any isStopChar = true := by
        have hcs : isStopChar c = false := by simp [isStopChar, hd]
        rw [List.any_cons, hcs, Bool.false_or] at h
        exact h
      rw [if_pos hd]
      by_cases ho : 255 < acc * 10 + (c - 48)
      · rw [if_pos ho]
      · rw [if_neg ho]
        exact ih _ hrest
    · rw [if_neg hd]

theorem parseU8_stop (s : Str) (h : s.any isStopChar = true) :
    parseU8 s = none := by
  rw [parseU8.eq_def]
  split
  · rfl
  · rename_i rest
    by_cases he : rest.isEmpty
    · rw [if_pos he]
    · rw [if_neg he]
      apply parseU8go_stop
      have h43 : isStopChar 43 = false := rfl
      rw [List.any_cons, h43, Bool.false_or] at h
      exact h
  · exact parseU8go_stop _ _ h

theorem findSub_cons (a : Nat) (s sub : Str) :
    findSub (a :: s) sub = match stripPrefixStr (a :: s) sub with
      | some _ => some 0
      | none => (findSub s sub).map (· + 1) := findSub.eq_2 sub a s

theorem findSub_digits_none (x : Str) (c : Nat) (t : Str)
    (hc : isDigitCode c = false) (hx : findSub x (c :: t) = none) :
    ∀ d : Str, d.all isDigitCode = true → findSub (d ++ x) (c :: t) = none := by
  intro d
  induction d with
  | nil => intro _; simpa using hx
  | cons a d' ih =>
    intro hd
    have hcons : isDigitCode a = true ∧ d'.all isDigitCode = true := by
      simpa using hd
    obtain ⟨ha, hd'⟩ := hcons
    have hne : a ≠ c := by
      intro he
      rw [he] at ha
      rw [ha] at hc
      cases hc
    show findSub (a :: (d' ++ x)) (c :: t) = none
    rw [findSub_cons, stripPrefix_head_ne a c _ _ hne, ih hd']
    rfl

theorem findSub_after_digits (cM : Nat) (tM x : Str)
    (hc : isDigitCode cM = false) :
    ∀ d : Str, d.all isDigitCode = true →
      findSub (d ++ (cM :: tM ++ x)) (cM :: tM) = some d.length := by
  intro d
  induction d with
  | nil =>
    intro _
    show findSub (cM :: (tM ++ x)) (cM :: tM) = some 0
    rw [findSub_cons, show stripPrefixStr (cM :: (tM ++ x)) (cM :: tM)
      = some x from stripPrefix_append (cM :: tM) x]
  | cons a d' ih =>
    intro hd
    have hcons : isDigitCode a = true ∧ d'.all isDigitCode = true := by
      simpa using hd
    obtain ⟨ha, hd'⟩ := hcons
    have hne : a ≠ cM := by
      intro he
      rw [he] at ha
      rw [ha] at hc
      cases hc
    show findSub (a :: (d' ++ (cM :: tM ++ x))) (cM :: tM) = some (d'.length + 1)
    rw [findSub_cons, stripPrefix_head_ne a cM _ _ hne, ih hd']
    rfl

theorem takeWhile_digits_append (cM : Nat) (tM : Str)
    (hc : isDigitCode cM = false) :
    ∀ d : Str, d.all isDigitCode = true →
      (d ++ cM :: tM).takeWhile isDigitCode = d
        ∧ (d ++ cM :: tM).dropWhile isDigitCode = cM :: tM := by
  intro d
  induction d with
  | nil =>
    intro _
    constructor
    · show (cM :: tM).takeWhile isDigitCode = []
      rw [List.takeWhile_cons, hc]
      rfl
    · show (cM :: tM).dropWhile isDigitCode = cM :: tM
      rw [List.dropWhile_cons, hc]
      rfl
  | cons a d' ih =>
    intro hd
    have hcons : isDigitCode a = true ∧ d'.all isDigitCode = true := by
      simpa using hd
    obtain ⟨ha, hd'⟩ := hcons
    obtain ⟨iht, ihd⟩ := ih hd'
    constructor
    · show (a :: (d' ++ cM :: tM)).takeWhile isDigitCode = a :: d'
      rw [List.takeWhile_cons, ha, iht]
      rfl
    · show (a :: (d' ++ cM :: tM)).dropWhile isDigitCode = cM :: tM
      rw [List.dropWhile_cons, ha, ihd]
      rfl

set_option maxRecDepth 10000 in
theorem parseU8_natDigits : ∀ m : Fin 256,
    parseU8 (natDigits m.val) = some m.val := by decide

set_option maxRecDepth 10000 in
theorem natDigits_ne_nil : ∀ m : Fin 256,
    (natDigits m.val).isEmpty = false := by decide

set_option maxRecDepth 10000 in
theorem natDigits_all_digits : ∀ m : Fin 256,
    (natDigits m.val).all isDigitCode = true := by decide

set_option maxRecDepth 10000 in
theorem natDigits_head_digit : ∀ m : Fin 256,
    isDigitCode ((natDigits m.val).headD 0) = true := by decide

set_option maxRecDepth 10000 in
theorem natDigits_last_digit : ∀ m : Fin 256,
    isDigitCode ((natDigits m.val).getLastD 0) = true := by decide

theorem natDigits_nonempty (m : Fin 256) : natDigits m.val ≠ [] := by
  intro h
  have := natDigits_ne_nil m
  rw [h] at this
  cases this

/-! Soundness of the per-pattern failure criteria. -/

theorem extractAttrN_none_of_prefix (s preJ : Str) (sufJ : Option Str)
    (h : stripPrefixStr s preJ = none) : extractAttrN s preJ sufJ = none := by
  simp only [extractAttrN, h]

theorem extractAttrNM_none_of_prefix (s preJ mid : Str)
    (h : stripPrefixStr s preJ = none) : extractAttrNM s preJ mid none = none := by
  simp only [extractAttrNM, h]

theorem tryFamPat_one_none (s preJ : Str) (sufJ : Option Str) (fJ : Fam1)
    (h : extractAttrN s preJ sufJ = none) :
    tryFamPat s (.one preJ sufJ fJ) = none := by
  simp only [tryFamPat, h, Option.none_bind]

theorem tryFamPat_two_none (s preJ midJ : Str) (fJ : Fam2)
    (h : extractAttrNM s preJ midJ none = none) :
    tryFamPat s (.two preJ midJ fJ) = none := by
  simp only [tryFamPat, h, Option.none_bind]

/-- A pattern whose prefix is ruled out by `prefixFails` strips nothing
from `preI ++ digits ++ anything`. -/
theorem prefixFails_sound (preJ preI : Str) (hpf : prefixFails preJ preI = true)
    (hnp : stripPrefixStr preI preJ = none)
    (d x : Str) (hd : d ≠ []) (hdig : isDigitCode (d.headD 0) = true) :
    stripPrefixStr (preI ++ (d ++ x)) preJ = none := by
  rw [prefixFails] at hpf
  cases hq : stripPrefixStr preJ preI with
  | some r =>
    rw [hq] at hpf
    cases r with
    | nil =>
      have hpf' : (false : Bool) = true := hpf
      cases hpf'
    | cons c t =>
      have hpf' : (!isDigitCode c) = true := hpf
      have hJ := stripPrefix_eq_some _ _ _ hq
      rw [hJ, stripPrefix_append_left]
      cases d with
      | nil => exact absurd rfl hd
      | cons a d' =>
        have ha : isDigitCode a = true := hdig
        refine stripPrefix_head_ne a c _ _ ?_
        intro hac
        rw [hac] at ha
        rw [ha] at hpf'
        simp at hpf'
  | none =>
    exact stripPrefix_none_extend preI preJ hq hnp (d ++ x)

/-- A pattern satisfying `patFailsOnN` extracts nothing from the display
string of a one-index family. -/
theorem tryFamPat_fails_n (p : FamPat) (preI sufI : Str) (n : Fin 256)
    (h : patFailsOnN p preI sufI = true) :
    tryFamPat (preI ++ natDigits n.val ++ sufI) p = none := by
  have hdne : natDigits n.val ≠ [] := natDigits_nonempty n
  have hdhead : isDigitCode ((natDigits n.val).headD 0) = true :=
    natDigits_head_digit n
  cases p with
  | one preJ sufJ fJ =>
    have h1 : oneFailsOnN preJ sufJ preI sufI = true := h
    rw [oneFailsOnN] at h1
    apply tryFamPat_one_none
    cases hsp : stripPrefixStr preI preJ with
    | none =>
      rw [hsp] at h1
      have hpf : prefixFails preJ preI = true := h1
      apply extractAttrN_none_of_prefix
      rw [List.append_assoc]
      exact prefixFails_sound preJ preI hpf hsp (natDigits n.val) sufI hdne hdhead
    | some restI =>
      rw [hsp] at h1
      have hIJ := stripPrefix_eq_some _ _ _ hsp
      have hsps : stripPrefixStr (preI ++ natDigits n.val ++ sufI) preJ
          = some (restI ++ (natDigits n.val ++ sufI)) := by
        rw [List.append_assoc, hIJ, List.append_assoc, stripPrefix_append]
      cases sufJ with
      | none =>
        have hstop : (hasStopChar restI || hasStopChar sufI) = true := h1
        simp only [extractAttrN, hsps]
        apply parseU8_stop
        have hor : restI.any isStopChar = true ∨ sufI.any isStopChar = true := by
          simpa [hasStopChar] using hstop
        rcases hor with hr | hs
        · simp [List.any_append, hr]
        · simp [List.any_append, hs]
      | some t =>
        have h2 : (match stripSuffixStr sufI t with
            | some sufI2 => hasStopChar restI || hasStopChar sufI2
            | none =>
              match stripSuffixStr t sufI with
              | some [] => false
              | some (c :: t2) => !isDigitCode ((c :: t2).getLastD 0)
              | none => true) = true := h1
        cases hss : stripSuffixStr sufI t with
        | some sufI2 =>
          rw [hss] at h2
          have hstop : (hasStopChar restI || hasStopChar sufI2) = true := h2
          have hI2 := stripSuffix_eq_some _ _ _ hss
          have hsuf : stripSuffixStr (restI ++ (natDigits n.val ++ sufI)) t
              = some (restI ++ (natDigits n.val ++ sufI2)) := by
            rw [hI2, show restI ++ (natDigits n.val ++ (sufI2 ++ t))
                = (restI ++ (natDigits n.val ++ sufI2)) ++ t from by
              simp [List.append_assoc]]
            exact stripSuffix_append _ _
          simp only [extractAttrN, hsps, hsuf]
          apply parseU8_stop
          have hor : restI.any isStopChar = true ∨ sufI2.any isStopChar = true := by
            simpa [hasStopChar] using hstop
          rcases hor with hr | hs
          · simp [List.any_append, hr]
          · simp [List.any_append, hs]
        | none =>
          rw [hss] at h2
          cases hts : stripSuffixStr t sufI with
          | some t2 =>
            rw [hts] at h2
            cases t2 with
            | nil =>
              have : (false : Bool) = true := h2
              cases this
            | cons c t3 =>
              have hlast : (!isDigitCode ((c :: t3).getLastD 0)) = true := h2
              have hT := stripSuffix_eq_some _ _ _ hts
              have hnone : stripSuffixStr (restI ++ (natDigits n.val ++ sufI)) t
                  = none := by
                rw [hT, show restI ++ (natDigits n.val ++ sufI)
                    = (restI ++ natDigits n.val) ++ sufI from by
                  simp [List.append_assoc], stripSuffix_append_right]
                apply stripSuffix_last_mismatch
                · intro he
                  exact hdne (List.append_eq_nil.mp he).2
                · simp
                · rw [getLastD_append_right _ _ hdne]
                  intro heq
                  have hld := natDigits_last_digit n
                  rw [heq] at hld
                  rw [hld] at hlast
                  simp at hlast
              simp only [extractAttrN, hsps, hnone]
          | none =>
            have hnone : stripSuffixStr (restI ++ (natDigits n.val ++ sufI)) t
                = none := by
              rw [show restI ++ (natDigits n.val ++ sufI)
                  = (restI ++ natDigits n.val) ++ sufI from by
                simp [List.append_assoc]]
              exact stripSuffix_none_extend sufI t hts hss _
            simp only [extractAttrN, hsps, hnone]
  | two preJ midJ fJ =>
    have h1 : twoFailsOnN preJ midJ preI sufI = true := h
    rw [twoFailsOnN.eq_def] at h1
    apply tryFamPat_two_none
    cases hsp : stripPrefixStr preI preJ with
    | none =>
      rw [hsp] at h1
      have hpf : prefixFails preJ preI = true := h1
      apply extractAttrNM_none_of_prefix
      rw [List.append_assoc]
      exact prefixFails_sound preJ preI hpf hsp (natDigits n.val) sufI hdne hdhead
    | some restI =>
      rw [hsp] at h1
      cases restI with
      | cons r rest' =>
        have : (false : Bool) = true := h1
        cases this
      | nil =>
        have hIJ := stripPrefix_eq_some _ _ _ hsp
        rw [List.append_nil] at hIJ
        cases hmj : midJ with
        | nil =>
          rw [hmj] at h1
          have : (false : Bool) = true := h1
          cases this
        | cons c mt =>
          rw [hmj] at h1
          have hcrit : (!isDigitCode c && (findSub sufI (c :: mt)).isNone)
              = true := h1
          have hcrit' : isDigitCode c = false
              ∧ (findSub sufI (c :: mt)).isNone = true := by simpa using hcrit
          have hfs : findSub sufI (c :: mt) = none :=
            Option.isNone_iff_eq_none.mp hcrit'.2
          have hsps : stripPrefixStr (preI ++ natDigits n.val ++ sufI) preJ
              = some (natDigits n.val ++ sufI) := by
            rw [hIJ, List.append_assoc]
            exact stripPrefix_append _ _
          have hfind : findSub (natDigits n.val ++ sufI) (c :: mt) = none :=
            findSub_digits_none sufI c mt hcrit'.1 hfs (natDigits n.val)
              (natDigits_all_digits n)
          simp only [extractAttrNM, hsps, hmj, hfind]

/-- A pattern satisfying `patFailsOnNM` extracts nothing from the display
string of a two-index family. -/
theorem tryFamPat_fails_nm (p : FamPat) (preI midI : Str) (n m : Fin 256)
    (h : patFailsOnNM p preI midI = true) :
    tryFamPat (preI ++ natDigits n.val ++ midI ++ natDigits m.val) p = none := by
  have hdne : natDigits n.val ≠ [] := natDigits_nonempty n
  have hdhead : isDigitCode ((natDigits n.val).headD 0) = true :=
    natDigits_head_digit n
  cases p with
  | one preJ sufJ fJ =>
    have h1 : oneFailsOnNM preJ sufJ preI midI = true := h
    rw [oneFailsOnNM] at h1
    apply tryFamPat_one_none
    cases hsp : stripPrefixStr preI preJ with
    | none =>
      rw [hsp] at h1
      have hpf : prefixFails preJ preI = true := h1
      apply extractAttrN_none_of_prefix
      rw [List.append_assoc, List.append_assoc]
      exact prefixFails_sound preJ preI hpf hsp (natDigits n.val)
        (midI ++ natDigits m.val) hdne hdhead
    | some restI =>
      rw [hsp] at h1
      have hIJ := stripPrefix_eq_some _ _ _ hsp
      have hsps : stripPrefixStr
          (preI ++ natDigits n.val ++ midI ++ natDigits m.val) preJ
          = some (restI ++ (natDigits n.val ++ (midI ++ natDigits m.val))) := by
        rw [List.append_assoc, List.append_assoc, hIJ, List.append_assoc,
          stripPrefix_append]
      cases sufJ with
      | none =>
        have hstop : (hasStopChar restI || hasStopChar midI) = true := h1
        simp only [extractAttrN, hsps]
        apply parseU8_stop
        have hor : restI.any isStopChar = true ∨ midI.any isStopChar = true := by
          simpa [hasStopChar] using hstop
        rcases hor with hr | hs
        · simp [List.any_append, hr]
        · simp [List.any_append, hs]
      | some t =>
        cases t with
        | nil =>
          have hstop : (hasStopChar restI || hasStopChar midI) = true := h1
          simp only [extractAttrN, hsps, stripSuffix_nil]
          apply parseU8_stop
          have hor : restI.any isStopChar = true ∨ midI.any isStopChar = true := by
            simpa [hasStopChar] using hstop
          rcases hor with hr | hs
          · simp [List.any_append, hr]
          · simp [List.any_append, hs]
        | cons c t3 =>
          have hlast : (!isDigitCode ((c :: t3).getLastD 0)) = true := h1
          have hnone : stripSuffixStr
              (restI ++ (natDigits n.val ++ (midI ++ natDigits m.val)))
              (c :: t3) = none := by
            apply stripSuffix_last_mismatch
            · intro he
              have h2 := (List.append_eq_nil.mp he).2
              have h3 := (List.append_eq_nil.mp h2).2
              exact natDigits_nonempty m (List.append_eq_nil.mp h3).2
            · simp
            · rw [getLastD_append_right _ _ (by
                  intro he
                  have h2 := (List.append_eq_nil.mp he).2
                  exact natDigits_nonempty m (List.append_eq_nil.mp h2).2),
                getLastD_append_right _ _ (by
                  intro he
                  exact natDigits_nonempty m (List.append_eq_nil.mp he).2),
                getLastD_append_right _ _ (natDigits_nonempty m)]
              intro heq
              have hld := natDigits_last_digit m
              rw [heq] at hld
              rw [hld] at hlast
              simp at hlast
          simp only [extractAttrN, hsps, hnone]
  | two preJ midJ fJ =>
    have h1 : twoFailsOnNM preJ midJ preI midI = true := h
    rw [twoFailsOnNM] at h1
    apply tryFamPat_two_none
    cases hsp : stripPrefixStr preI preJ with
    | none =>
      rw [hsp] at h1
      have hpf : prefixFails preJ preI = true := h1
      apply extractAttrNM_none_of_prefix
      rw [List.append_assoc, List.append_assoc]
      exact prefixFails_sound preJ preI hpf hsp (natDigits n.val)
        (midI ++ natDigits m.val) hdne hdhead
    | some restI =>
      rw [hsp] at h1
      have : (false : Bool) = true := h1
      cases this

/-- A literal key with `litMatchesN` false is not the display string. -/
theorem litMatchesN_sound (preI sufI key : Str) (n : Fin 256)
    (h : litMatchesN preI sufI key = false) :
    key ≠ preI ++ natDigits n.val ++ sufI := by
  intro heq
  rw [heq, litMatchesN] at h
  rw [show stripPrefixStr (preI ++ natDigits n.val ++ sufI) preI
      = some (natDigits n.val ++ sufI) from by
    rw [List.append_assoc]
    exact stripPrefix_append _ _] at h
  simp only [stripSuffix_append] at h
  simp [natDigits_ne_nil n, natDigits_all_digits n] at h

/-- A literal key with `litMatchesNM` false is not the display string. -/
theorem litMatchesNM_sound (preI : Str) (cM : Nat) (tM key : Str)
    (hc : isDigitCode cM = false) (n m : Fin 256)
    (h : litMatchesNM preI (cM :: tM) key = false) :
    key ≠ preI ++ natDigits n.val ++ (cM :: tM) ++ natDigits m.val := by
  intro heq
  rw [heq, litMatchesNM] at h
  rw [show stripPrefixStr
      (preI ++ natDigits n.val ++ (cM :: tM) ++ natDigits m.val) preI
      = some (natDigits n.val ++ (cM :: (tM ++ natDigits m.val))) from by
    rw [List.append_assoc, List.append_assoc, List.cons_append]
    exact stripPrefix_append _ _] at h
  obtain ⟨ht, hd⟩ := takeWhile_digits_append cM (tM ++ natDigits m.val) hc
    (natDigits n.val) (natDigits_all_digits n)
  simp only [ht, hd] at h
  rw [show stripPrefixStr (cM :: (tM ++ natDigits m.val)) (cM :: tM)
      = some (natDigits m.val) from
    stripPrefix_append (cM :: tM) (natDigits m.val)] at h
  simp [natDigits_ne_nil n, natDigits_ne_nil m, natDigits_all_digits m] at h

/-! Assembling the fallback chain. -/

theorem tryFamPat_one_some (s preJ : Str) (sufJ : Option Str) (fJ : Fam1)
    (n : Fin 256) (h : extractAttrN s preJ sufJ = some n.val) :
    tryFamPat s (.one preJ sufJ fJ) = some (.fam1 fJ n) := by
  simp only [tryFamPat, h, Option.some_bind]
  rw [dif_pos n.isLt]

theorem tryFamPat_two_some (s preJ midJ : Str) (fJ : Fam2) (n m : Fin 256)
    (h : extractAttrNM s preJ midJ none = some (n.val, m.val)) :
    tryFamPat s (.two preJ midJ fJ) = some (.fam2 fJ n m) := by
  simp only [tryFamPat, h, Option.some_bind]
  rw [dif_pos (show (((n.val : Nat), (m.val : Nat)).1 < 256
      ∧ ((n.val : Nat), (m.val : Nat)).2 < 256) from ⟨n.isLt, m.isLt⟩)]

/-- `chainSplit` returns exactly the part of the chain before `pat`. -/
theorem chainSplit_eq (pat : FamPat) :
    ∀ (l l₁ : List FamPat), chainSplit pat l = some l₁ →
      ∃ l₂, l = l₁ ++ pat :: l₂ := by
  intro l
  induction l with
  | nil =>
    intro l₁ h
    simp [chainSplit] at h
  | cons p ps ih =>
    intro l₁ h
    rw [chainSplit] at h
    by_cases hp : p = pat
    · rw [if_pos hp] at h
      have h' : ([] : List FamPat) = l₁ := by simpa using h
      subst h'
      exact ⟨ps, by simp [hp]⟩
    · rw [if_neg hp] at h
      cases hcs : chainSplit pat ps with
      | none =>
        rw [hcs] at h
        simp at h
      | some l₀ =>
        rw [hcs] at h
        have h' : p :: l₀ = l₁ := by simpa using h
        subst h'
        obtain ⟨l₂, hl⟩ := ih l₀ hcs
        exact ⟨l₂, by simp [hl]⟩

theorem parseChain_append_none (s : Str) :
    ∀ (l₁ l₂ : List FamPat), (∀ p ∈ l₁, tryFamPat s p = none) →
      parseChain s (l₁ ++ l₂) = parseChain s l₂ := by
  intro l₁
  induction l₁ with
  | nil => intro l₂ _; rfl
  | cons p ps ih =>
    intro l₂ H
    have hp : tryFamPat s p = none := H p (List.mem_cons_self _ _)
    show parseChain s (p :: (ps ++ l₂)) = parseChain s l₂
    rw [parseChain, hp]
    exact ih l₂ (fun q hq => H q (List.mem_cons_of_mem _ hq))

theorem parseChain_cons_some (s : Str) (p : FamPat) (l : List FamPat)
    (a : Attribute) (h : tryFamPat s p = some a) :
    parseChain s (p :: l) = some a := by
  rw [parseChain, h]

theorem findLit_eq_none (s : Str)
    (h : ∀ kv ∈ attrLiterals, kv.fst ≠ s) : findLit s = none := by
  have h' : attrLiterals.find? (fun kv => kv.fst = s) = none :=
    List.find?_eq_none.mpr (fun kv hkv => by simpa using h kv hkv)
  rw [findLit, h']
  rfl

/-- One-index families passing `fam1Check` round-trip through
display-then-parse at every index. -/
theorem fam1_roundtrip (f : Fam1) (hchk : fam1Check f = true) (n : Fin 256) :
    Attribute.parse (Attribute.fam1 f n).display = .fam1 f n := by
  show Attribute.parse (f.dispPre ++ natDigits n.val ++ f.dispSuf) = .fam1 f n
  rw [fam1Check] at hchk
  cases hcs : chainSplit (fam1Pat f) attrChain with
  | none =>
    rw [hcs] at hchk
    cases hchk
  | some pre =>
    rw [hcs] at hchk
    have hchk' : (pre.all (fun p => patFailsOnN p f.dispPre f.dispSuf)
        && attrLiterals.all (fun kv => !litMatchesN f.dispPre f.dispSuf kv.fst))
        = true := hchk
    have hand : pre.all (fun p => patFailsOnN p f.dispPre f.dispSuf) = true
        ∧ attrLiterals.all
            (fun kv => !litMatchesN f.dispPre f.dispSuf kv.fst) = true := by
      simpa using hchk'
    obtain ⟨l₂, hsplit⟩ := chainSplit_eq (fam1Pat f) attrChain pre hcs
    have hlit : findLit (f.dispPre ++ natDigits n.val ++ f.dispSuf) = none := by
      apply findLit_eq_none
      intro kv hkv
      have h1 := List.all_eq_true.mp hand.2 kv hkv
      have h2 : litMatchesN f.dispPre f.dispSuf kv.fst = false := by simpa using h1
      exact litMatchesN_sound _ _ _ n h2
    have hpre : ∀ p ∈ pre,
        tryFamPat (f.dispPre ++ natDigits n.val ++ f.dispSuf) p = none := by
      intro p hp
      exact tryFamPat_fails_n p _ _ n (List.all_eq_true.mp hand.1 p hp)
    have hhit : tryFamPat (f.dispPre ++ natDigits n.val ++ f.dispSuf) (fam1Pat f)
        = some (.fam1 f n) := by
      cases hsuf : f.dispSuf with
      | nil =>
        have hpat : fam1Pat f = .one f.dispPre none f := by
          rw [fam1Pat, hsuf]
          rfl
        have he : extractAttrN (f.dispPre ++ natDigits n.val) f.dispPre none
            = some n.val := by
          simp only [extractAttrN, stripPrefix_append]
          exact parseU8_natDigits n
        rw [hpat, List.append_nil]
        exact tryFamPat_one_some _ _ _ _ n he
      | cons c t =>
        have hpat : fam1Pat f = .one f.dispPre (some (c :: t)) f := by
          rw [fam1Pat, hsuf]
          rfl
        have he : extractAttrN (f.dispPre ++ natDigits n.val ++ (c :: t))
            f.dispPre (some (c :: t)) = some n.val := by
          have hsp : stripPrefixStr (f.dispPre ++ natDigits n.val ++ (c :: t))
              f.dispPre = some (natDigits n.val ++ (c :: t)) := by
            rw [List.append_assoc]
            exact stripPrefix_append _ _
          simp only [extractAttrN, hsp, stripSuffix_append]
          exact parseU8_natDigits n
        rw [hpat]
        exact tryFamPat_one_some _ _ _ _ n he
    rw [Attribute.parse]
    simp only [hlit]
    rw [hsplit, parseChain_append_none _ pre _ hpre,
      parseChain_cons_some _ _ _ _ hhit]

/-- Two-index families passing `fam2Check` round-trip through
display-then-parse at every index pair. -/
theorem fam2_roundtrip (f : Fam2) (hchk : fam2Check f = true) (n m : Fin 256) :
    Attribute.parse (Attribute.fam2 f n m).display = .fam2 f n m := by
  show Attribute.parse
      (f.dispPre ++ natDigits n.val ++ f.dispMid ++ natDigits m.val)
      = .fam2 f n m
  have hchk0 : (match chainSplit (fam2Pat f) attrChain with
      | none => false
      | some pre =>
        pre.all (fun p => patFailsOnNM p f.dispPre f.dispMid)
          && attrLiterals.all
              (fun kv => !litMatchesNM f.dispPre f.dispMid kv.fst)
          && (match f.dispMid with | [] => false | c :: _ => !isDigitCode c))
      = true := hchk
  cases hcs : chainSplit (fam2Pat f) attrChain with
  | none =>
    rw [hcs] at hchk0
    cases hchk0
  | some pre =>
    rw [hcs] at hchk0
    have hchk' : (pre.all (fun p => patFailsOnNM p f.dispPre f.dispMid)
        && attrLiterals.all (fun kv => !litMatchesNM f.dispPre f.dispMid kv.fst)
        && (match f.dispMid with | [] => false | c :: _ => !isDigitCode c))
        = true := hchk0
    obtain ⟨⟨hfail, hlits⟩, hmidb⟩ :
        (pre.all (fun p => patFailsOnNM p f.dispPre f.dispMid) = true
          ∧ attrLiterals.all
              (fun kv => !litMatchesNM f.dispPre f.dispMid kv.fst) = true)
        ∧ (match f.dispMid with | [] => false | c :: _ => !isDigitCode c)
            = true := by
      simpa using hchk'
    obtain ⟨l₂, hsplit⟩ := chainSplit_eq (fam2Pat f) attrChain pre hcs
    cases hmid : f.dispMid with
    | nil =>
      rw [hmid] at hmidb
      have hfalse : (false : Bool) = true := hmidb
      cases hfalse
    | cons cM tM =>
      rw [hmid] at hmidb
      have hcM : isDigitCode cM = false := by simpa using hmidb
      have hlit : findLit
          (f.dispPre ++ natDigits n.val ++ (cM :: tM) ++ natDigits m.val)
          = none := by
        apply findLit_eq_none
        intro kv hkv
        have h1 := List.all_eq_true.mp hlits kv hkv
        have h2 : litMatchesNM f.dispPre f.dispMid kv.fst = false := by
          simpa using h1
        rw [hmid] at h2
        exact litMatchesNM_sound f.dispPre cM tM kv.fst hcM n m h2
      have hpre : ∀ p ∈ pre, tryFamPat
          (f.dispPre ++ natDigits n.val ++ (cM :: tM) ++ natDigits m.val) p
          = none := by
        intro p hp
        have h1 := List.all_eq_true.mp hfail p hp
        rw [hmid] at h1
        exact tryFamPat_fails_nm p _ _ n m h1
      have he2 : extractAttrNM
          (f.dispPre ++ natDigits n.val ++ (cM :: tM) ++ natDigits m.val)
          f.dispPre (cM :: tM) none = some (n.val, m.val) := by
        have hsp : stripPrefixStr
            (f.dispPre ++ natDigits n.val ++ (cM :: tM) ++ natDigits m.val)
            f.dispPre
            = some (natDigits n.val ++ (cM :: (tM ++ natDigits m.val))) := by
          rw [List.append_assoc, List.append_assoc, List.cons_append]
          exact stripPrefix_append _ _
        have hfind : findSub (natDigits n.val ++ (cM :: (tM ++ natDigits m.val)))
            (cM :: tM) = some (natDigits n.val).length :=
          findSub_after_digits cM tM (natDigits m.val) hcM (natDigits n.val)
            (natDigits_all_digits n)
        have htake : (natDigits n.val ++ (cM :: (tM ++ natDigits m.val))).take
            (natDigits n.val).length = natDigits n.val := take_append1 _ _ _ rfl
        have hdrop : (natDigits n.val ++ (cM :: (tM ++ natDigits m.val))).drop
            ((natDigits n.val).length + (cM :: tM).length) = natDigits m.val := by
          rw [show natDigits n.val ++ (cM :: (tM ++ natDigits m.val))
              = (natDigits n.val ++ (cM :: tM)) ++ natDigits m.val from by
            simp [List.append_assoc]]
          exact drop_append1 _ _ _ (by simp)
        simp only [extractAttrNM, hsp, hfind, htake, parseU8_natDigits n,
          hdrop, parseU8_natDigits m]
      have hhit : tryFamPat
          (f.dispPre ++ natDigits n.val ++ (cM :: tM) ++ natDigits m.val)
          (fam2Pat f) = some (.fam2 f n m) := by
        rw [fam2Pat, hmid]
        exact tryFamPat_two_some _ _ _ _ n m he2
      rw [Attribute.parse]
      simp only [hlit]
      rw [hsplit, parseChain_append_none _ pre _ hpre,
        parseChain_cons_some _ _ _ _ hhit]

/-! Putting the `Attribute` round trip together. -/

set_option maxRecDepth 100000 in
set_option maxHeartbeats 4000000 in
theorem plain_roundtrip : ∀ p : PlainAttr, brokenPlain p = false →
    Attribute.parse (Attribute.plain p).display = .plain p := by
  intro p
  cases p <;> decide

set_option maxRecDepth 100000 in
set_option maxHeartbeats 4000000 in
theorem fam1Check_all : ∀ f : Fam1, brokenFam1 f = false →
    fam1Check f = true := by
  intro f
  cases f <;> decide

set_option maxRecDepth 100000 in
theorem fam2Check_all : ∀ f : Fam2, fam2Check f = true := by
  intro f
  cases f <;> decide

set_option maxRecDepth 100000 in
/-- Claim C6, counterexample: the claimed round trip
`parse (display a) = a` for every non-`Custom` variant fails for
`Attribute::LedFrequency` — its display string `"LedFrequency"` is matched
neither by the literal arm (which expects `"LEDFrequency"`) nor by any
family pattern, so parsing it yields `Custom("LedFrequency")`. -/
theorem claim_C6_counterexample :
    Attribute.parse (Attribute.plain PlainAttr.LedFrequency).display
      = .Custom (Attribute.plain PlainAttr.LedFrequency).display
    ∧ Attribute.parse (Attribute.plain PlainAttr.LedFrequency).display
      ≠ Attribute.plain PlainAttr.LedFrequency := by
  constructor
  · decide
  · decide

/-- Claim C6, amended: parsing is total, and the round trip
`parse (display a) = a` holds for every non-`Custom` variant except the
eleven whose display and parse forms disagree (`LedFrequency`,
`LedZoneMode`, `CriMode`, `UvStability`, and the `ColorWheelIndex`,
`ColorWheelSpin`, `ColorWheelRandom`, `ColorWheelAudio`, `ColorMacroRate`,
`AnimationWheelMode`, `GoboWheelMSpeed` families); every string matching
no literal arm and no family pattern parses to `Custom` of itself. -/
theorem claim_C6_amended :
    (∀ a : Attribute, a.isCustom = false → a.excepted = false →
        Attribute.parse a.display = a)
    ∧ (∀ s : Str, findLit s = none → parseChain s attrChain = none →
        Attribute.parse s = .Custom s) := by
  constructor
  · intro a h1 h2
    cases a with
    | Custom s => cases h1
    | plain p => exact plain_roundtrip p h2
    | fam1 f n =>
      have h2' : brokenFam1 f = false := h2
      exact fam1_roundtrip f (fam1Check_all f h2') n
    | fam2 f n m => exact fam2_roundtrip f (fam2Check_all f) n m
  · intro s h1 h2
    rw [Attribute.parse]
    simp only [h1, h2]

set_option maxRecDepth 100000 in
/-- Witness for the amended C6 round trip: `Dimmer` survives the round
trip, and the one-byte string `"?"` parses to `Custom "?"`. -/
theorem claim_C6_amended_witness :
    Attribute.parse (Attribute.plain PlainAttr.Dimmer).display
        = Attribute.plain PlainAttr.Dimmer
    ∧ Attribute.parse [63] = .Custom [63] :=
  ⟨claim_C6_amended.1 (Attribute.plain PlainAttr.Dimmer) (by decide) (by decide),
   claim_C6_amended.2 [63] (by decide) (by decide)⟩

end Zeevonk
